import Mathlib

/-! kube-vap-test: the resource matcher, the policy validation pipeline, the simulator
and the commands.

A shallow embedding of `internal/engine/admission`, `internal/engine/selector`,
`internal/engine/cel`, of `validator.go`, `result.go`, `evaluator.go` and `simulator.go`
of `internal/engine`, of `wrapText` of `internal/reporter` and of the run and check
commands of kube-vap-test, followed by theorems about the matching rules, about
`ValidatePolicy`, about the three simulation modes and about the commands.

Conventions of the embedding:

* a Go `string` is a Lean `String`; a Go slice is a `List` (a nil slice and an
  empty slice are both `[]`, as `len` and `range` cannot tell them apart), except
  `ValidationActions`, which the code compares with nil and which is an `Option`;
* a Go `map[string]T` is an association list read with `List.lookup`;
  a nil map is `[]`;
* a Go pointer that may be nil is an `Option`;
* a Go `interface{}` found in unstructured content is a `Value`;
* a `for ... range` loop that returns from inside its body is a structural
  recursion over the list; a loop whose body only returns false or goes on is
  `List.all` of its body;
* Go's `strings.EqualFold` (Unicode case folding, standard library) is the
  parameter `EqualFold` of the functions that call it; the other library functions
  the simulator needs are the fields of `GoLibrary`;
* the cel-go environment is the parameter `cel.Env` held by the evaluator, and
  the `fmt`/`reflect` renderings of a dynamic value are the parameter `Printer`;
* a function that calls the expression evaluator returns, next to its result,
  the list of the calls it made (expression and bindings), in order;
* the file system, the cluster, the loaders and the reporter are the fields of
  `commands.Host`, `loader.ResourceLoader` and `reporter.Reporter`, and what a command
  prints is the list of its `reporter.Event`s;
* a Go `error` is its message.
-/

set_option autoImplicit false

namespace KubeVap

/-! Dynamic values -/

/-- Dynamic values stored under `interface{}` in unstructured object content. -/
inductive Value where
  | null : Value
  | bool (b : Bool) : Value
  | num (n : Int) : Value
  | str (s : String) : Value
  | list (xs : List Value) : Value
  | map (kvs : List (String × Value)) : Value

/-- Go `map[string]interface{}`. -/
abbrev Object := List (String × Value)

/-- Go `error`, represented by its message. -/
abbrev Error := String

/-- Comparison `labelValue == value` of an `interface{}` with a `string`: true only
when the dynamic type is `string` and the contents agree. -/
def Value.eqString : Value → String → Bool
  | Value.str s, v => s == v
  | _, _ => false

/-- Type assertion `result.(bool)`. -/
def Value.asBool : Value → Option Bool
  | Value.bool b => some b
  | _ => none

/-- Type assertion `result.(string)`. -/
def Value.asString : Value → Option String
  | Value.str s => some s
  | _ => none

/-- Go `m[k] = v` on a `map[string]interface{}`. -/
def mapSet (m : Object) (k : String) (v : Value) : Object :=
  (k, v) :: m.filter (fun kv => kv.1 != k)

/-- Go's renderings of a dynamic value by `fmt` and `reflect` (standard library):
the verbs `%v` and `%T`, and `reflect.TypeOf` printed with `%s`. -/
structure Printer where
  v : Value → String
  T : Value → String
  typeOf : Value → String

/-! Go `strings` helpers used by the matcher and the validator -/

namespace strings

/-- Go `strings.HasPrefix`. -/
def HasPrefix (s pre : String) : Bool :=
  pre.data.isPrefixOf s.data

/-- Characters of `l` before the leftmost occurrence of the non-empty `sep`
(all of `l` when `sep` does not occur). -/
def cutAt (sep : List Char) : List Char → List Char
  | [] => []
  | c :: cs => if sep.isPrefixOf (c :: cs) then [] else c :: cutAt sep cs

/-- Go `strings.Split(s, sep)[0]` for a non-empty separator. -/
def SplitFirst (s sep : String) : String :=
  ⟨cutAt sep.data s.data⟩

/-- Go slice expression `s[1:]` on a string whose first character is one byte long. -/
def sliceFrom1 (s : String) : String :=
  ⟨s.data.drop 1⟩

/-- Whether `sub` occurs somewhere in the list. -/
def containsList (sub : List Char) : List Char → Bool
  | [] => sub.isEmpty
  | c :: cs => sub.isPrefixOf (c :: cs) || containsList sub cs

/-- Go `strings.Contains`. -/
def Contains (s substr : String) : Bool :=
  containsList substr.data s.data

/-- Go `unicode.IsSpace`: the code points with the Unicode White_Space property. -/
def IsSpace (r : Char) : Bool :=
  (0x09 ≤ r.toNat && r.toNat ≤ 0x0D) || r.toNat == 0x20 || r.toNat == 0x85
    || r.toNat == 0xA0 || r.toNat == 0x1680 || (0x2000 ≤ r.toNat && r.toNat ≤ 0x200A)
    || r.toNat == 0x2028 || r.toNat == 0x2029 || r.toNat == 0x202F || r.toNat == 0x205F
    || r.toNat == 0x3000

/-- Go `strings.TrimSpace`: the string without its leading and trailing white space. -/
def TrimSpace (s : String) : String :=
  ⟨((s.data.dropWhile IsSpace).reverse.dropWhile IsSpace).reverse⟩

end strings

/-! Package `admission` -/

namespace admission

/-- Go `type MatchPolicy string`. -/
abbrev MatchPolicy := String

/-- Matches only resources that exactly match the specified API version. -/
def Exact : MatchPolicy := "Exact"

/-- Matches versions that are compatible with the specified version. -/
def Equivalent : MatchPolicy := "Equivalent"

/-- Resource information to be evaluated in admission control. -/
structure AdmissionTarget where
  Object : Object := []
  Operation : String := ""
  APIGroup : String := ""
  APIVersion : String := ""
  Resource : String := ""
  SubResource : String := ""
  Namespace : String := ""
  Labels : List (String × String) := []

end admission

/-! Kubernetes API types read by the matcher -/

/-- Type `metav1.LabelSelectorRequirement`. -/
structure LabelSelectorRequirement where
  Key : String := ""
  Operator : String := ""
  Values : List String := []

/-- Type `metav1.LabelSelector`. -/
structure LabelSelector where
  MatchLabels : List (String × String) := []
  MatchExpressions : List LabelSelectorRequirement := []

/-- Type `admissionregistrationv1.NamedRuleWithOperations`, flattened. -/
structure NamedRuleWithOperations where
  ResourceNames : List String := []
  Operations : List String := []
  APIGroups : List String := []
  APIVersions : List String := []
  Resources : List String := []
  Scope : Option String := none

/-- Type `admissionregistrationv1.MatchResources`. -/
structure MatchResources where
  NamespaceSelector : Option LabelSelector := none
  ObjectSelector : Option LabelSelector := none
  ResourceRules : List NamedRuleWithOperations := []
  ExcludeResourceRules : List NamedRuleWithOperations := []
  MatchPolicy : Option String := none

/-! Package `selector`: resource_rules.go -/

namespace selector

open admission

/-- Loop of `matchesOperationType`; `EqualFold` stands for Go's `strings.EqualFold`. -/
def matchesOperationTypeLoop (EqualFold : String → String → Bool) (operation : String) :
    List String → Bool
  | [] => false
  | op :: rest =>
    if op == "*" || EqualFold op operation then true
    else matchesOperationTypeLoop EqualFold operation rest

/-- Checks if the operation matches the rule's operation list. -/
def matchesOperationType (EqualFold : String → String → Bool) (operations : List String)
    (operation : String) : Bool :=
  if operations.length == 0 then true
  else matchesOperationTypeLoop EqualFold operation operations

/-- Loop of `matchesAPIGroups`. -/
def matchesAPIGroupsLoop (apiGroup : String) : List String → Bool
  | [] => false
  | group :: rest =>
    if group == "*" || group == apiGroup then true
    else matchesAPIGroupsLoop apiGroup rest

/-- Checks if the API group matches the rule's API group list. -/
def matchesAPIGroups (apiGroups : List String) (apiGroup : String) : Bool :=
  if apiGroups.length == 0 then true
  else matchesAPIGroupsLoop apiGroup apiGroups

/-- Loop of `matchesResources`. -/
def matchesResourcesLoop (resource subResource resourceToMatch : String) : List String → Bool
  | [] => false
  | r :: rest =>
    if r == "*" then true
    else if r == resourceToMatch then true
    else if subResource != "" && r == resource then false
    else matchesResourcesLoop resource subResource resourceToMatch rest

/-- Checks if the resource matches the rule's resource list. -/
def matchesResources (resources : List String) (resource subResource : String) : Bool :=
  if resources.length == 0 then true
  else
    let resourceToMatch :=
      if subResource != "" then resource ++ "/" ++ subResource else resource
    matchesResourcesLoop resource subResource resourceToMatch resources

/-- Determines if two API versions are compatible. -/
def areVersionsEquivalent (version1 version2 : String) : Bool :=
  if strings.HasPrefix version1 "v" && strings.HasPrefix version2 "v" then
    let v1Base := strings.SplitFirst (strings.sliceFrom1 version1) "beta"
    let v1Base := strings.SplitFirst v1Base "alpha"
    let v2Base := strings.SplitFirst (strings.sliceFrom1 version2) "beta"
    let v2Base := strings.SplitFirst v2Base "alpha"
    v1Base == v2Base
  else false

/-- Loop of `matchesAPIVersions`. -/
def matchesAPIVersionsLoop (apiVersion : String) (matchPolicy : MatchPolicy) :
    List String → Bool
  | [] => false
  | version :: rest =>
    if version == "*" || version == apiVersion then true
    else if matchPolicy == Equivalent && areVersionsEquivalent version apiVersion then true
    else matchesAPIVersionsLoop apiVersion matchPolicy rest

/-- Checks if the API version matches the rule's API version list. -/
def matchesAPIVersions (apiVersions : List String) (apiVersion : String)
    (matchPolicy : MatchPolicy) : Bool :=
  if apiVersions.length == 0 then true
  else matchesAPIVersionsLoop apiVersion matchPolicy apiVersions

/-- Loop of `matchesResourceRules`: OK if any rule matches. -/
def matchesResourceRulesLoop (EqualFold : String → String → Bool)
    (admissionTarget : AdmissionTarget) (matchPolicy : MatchPolicy) :
    List NamedRuleWithOperations → Bool
  | [] => false
  | rule :: rest =>
    if !matchesOperationType EqualFold rule.Operations admissionTarget.Operation then
      matchesResourceRulesLoop EqualFold admissionTarget matchPolicy rest
    else if !matchesAPIGroups rule.APIGroups admissionTarget.APIGroup then
      matchesResourceRulesLoop EqualFold admissionTarget matchPolicy rest
    else if !matchesAPIVersions rule.APIVersions admissionTarget.APIVersion matchPolicy then
      matchesResourceRulesLoop EqualFold admissionTarget matchPolicy rest
    else if !matchesResources rule.Resources admissionTarget.Resource
        admissionTarget.SubResource then
      matchesResourceRulesLoop EqualFold admissionTarget matchPolicy rest
    else true

/-- Evaluates whether resource rules match. -/
def matchesResourceRules (EqualFold : String → String → Bool)
    (rules : List NamedRuleWithOperations) (admissionTarget : AdmissionTarget)
    (matchPolicy : MatchPolicy) : Bool :=
  if rules.length == 0 then false
  else if admissionTarget.Resource == "" || admissionTarget.Operation == "" then false
  else matchesResourceRulesLoop EqualFold admissionTarget matchPolicy rules

/-! Package `selector`: matcher.go -/

/-- Body of the `MatchExpressions` loop of `matchesNamespaceSelector` for one
expression: `false` when the loop returns false there, `true` when it goes on. -/
def namespaceExprHolds (ns : String) (expr : LabelSelectorRequirement) : Bool :=
  if expr.Key == "kubernetes.io/metadata.name" then
    if expr.Operator == "In" then expr.Values.any (fun value => ns == value)
    else if expr.Operator == "NotIn" then !expr.Values.any (fun value => ns == value)
    else true
  else true

/-- Evaluates whether it matches the namespace selector. -/
def matchesNamespaceSelector (selector : LabelSelector) (object : Object) : Bool :=
  match object.lookup "metadata" with
  | some (Value.map metadata) =>
    match metadata.lookup "namespace" with
    | some (Value.str ns) => selector.MatchExpressions.all (namespaceExprHolds ns)
    | _ => true
  | _ => false

/-- Body of the `MatchLabels` loop of `matchesObjectSelector` for one entry. -/
def matchLabelHolds (labels : Object) (kv : String × String) : Bool :=
  match labels.lookup kv.1 with
  | some labelValue => labelValue.eqString kv.2
  | none => false

/-- Body of the `MatchExpressions` loop of `matchesObjectSelector` for one
expression: `false` when the loop returns false there, `true` when it goes on. -/
def objectExprHolds (labels : Object) (expr : LabelSelectorRequirement) : Bool :=
  if expr.Operator == "In" then
    match labels.lookup expr.Key with
    | none => false
    | some labelValue => expr.Values.any (fun value => labelValue.eqString value)
  else if expr.Operator == "NotIn" then
    match labels.lookup expr.Key with
    | none => true
    | some labelValue => !expr.Values.any (fun value => labelValue.eqString value)
  else if expr.Operator == "Exists" then (labels.lookup expr.Key).isSome
  else if expr.Operator == "DoesNotExist" then !(labels.lookup expr.Key).isSome
  else true

/-- Evaluates whether it matches the object selector. -/
def matchesObjectSelector (selector : LabelSelector) (object : Object) : Bool :=
  match object.lookup "metadata" with
  | some (Value.map metadata) =>
    match metadata.lookup "labels" with
    | some (Value.map labels) =>
      selector.MatchLabels.all (matchLabelHolds labels)
        && selector.MatchExpressions.all (objectExprHolds labels)
    | _ => selector.MatchLabels.length == 0 && selector.MatchExpressions.length == 0
  | _ => false

/-- Method `DefaultMatcher.Matches`: evaluates whether a resource matches the
specified matching conditions. -/
def Matches (EqualFold : String → String → Bool) (matchResources : Option MatchResources)
    (admissionTarget : AdmissionTarget) : Bool × Option Error :=
  match matchResources with
  | none => (true, none)
  | some mr =>
    if (match mr.NamespaceSelector with
        | some sel => !matchesNamespaceSelector sel admissionTarget.Object
        | none => false) then (false, none)
    else if (match mr.ObjectSelector with
        | some sel => !matchesObjectSelector sel admissionTarget.Object
        | none => false) then (false, none)
    else
      let matchPolicy : MatchPolicy :=
        match mr.MatchPolicy with
        | some p => if p == "Equivalent" then Equivalent else Exact
        | none => Exact
      if mr.ResourceRules.length > 0
          && !matchesResourceRules EqualFold mr.ResourceRules admissionTarget matchPolicy then
        (false, none)
      else if mr.ExcludeResourceRules.length > 0
          && matchesResourceRules EqualFold mr.ExcludeResourceRules admissionTarget
            matchPolicy then
        (false, none)
      else (true, none)


/-! Spec-side vocabulary -/

/-- Policy that the specification attaches to a match specification: `Equivalent` when
`matchPolicy` is set to "Equivalent", `Exact` otherwise. -/
def specPolicy (mr : MatchResources) : MatchPolicy :=
  if mr.MatchPolicy = some "Equivalent" then Equivalent else Exact

/-- The four axes of the specification of `Matches`, all holding at once. -/
def specAllAxes (EqualFold : String → String → Bool) (mr : MatchResources)
    (t : AdmissionTarget) : Prop :=
  (mr.NamespaceSelector = none ∨
      ∃ sel, mr.NamespaceSelector = some sel ∧ matchesNamespaceSelector sel t.Object = true) ∧
  (mr.ObjectSelector = none ∨
      ∃ sel, mr.ObjectSelector = some sel ∧ matchesObjectSelector sel t.Object = true) ∧
  (mr.ResourceRules = [] ∨
      matchesResourceRules EqualFold mr.ResourceRules t (specPolicy mr) = true) ∧
  (mr.ExcludeResourceRules = [] ∨
      ¬ matchesResourceRules EqualFold mr.ExcludeResourceRules t (specPolicy mr) = true)

/-- A rule satisfies the four axes of the rule-matching algorithm for a target. -/
def specRuleMatches (EqualFold : String → String → Bool) (rule : NamedRuleWithOperations)
    (t : AdmissionTarget) (p : MatchPolicy) : Prop :=
  (rule.Operations = [] ∨ "*" ∈ rule.Operations ∨
      ∃ op ∈ rule.Operations, EqualFold op t.Operation = true) ∧
  (rule.APIGroups = [] ∨ "*" ∈ rule.APIGroups ∨ t.APIGroup ∈ rule.APIGroups) ∧
  matchesAPIVersions rule.APIVersions t.APIVersion p = true ∧
  matchesResources rule.Resources t.Resource t.SubResource = true

/-- Characters of `l` before the leftmost place where `alpha` or `beta` starts. -/
def cutAtAlphaBeta : List Char → List Char
  | [] => []
  | c :: cs =>
    if "alpha".data.isPrefixOf (c :: cs) || "beta".data.isPrefixOf (c :: cs) then []
    else c :: cutAtAlphaBeta cs

/-- The "major" token of a version in the words of the specification: the version with
any `alpha`/`beta` suffix stripped, as in `v1beta1 ↦ v1`. -/
def specMajorToken (version : String) : String :=
  ⟨cutAtAlphaBeta version.data⟩

/-- The map at `metadata` of an object, when there is one. -/
def metadataOf (object : Object) : Option Object :=
  match object.lookup "metadata" with
  | some (Value.map metadata) => some metadata
  | _ => none

/-- The string at `metadata.namespace` of an object, when there is one. -/
def namespaceOf (object : Object) : Option String :=
  match metadataOf object with
  | some metadata =>
    match metadata.lookup "namespace" with
    | some (Value.str ns) => some ns
    | _ => none
  | none => none

/-- The map at `metadata.labels` of an object, when there is one. -/
def labelsOf (object : Object) : Option Object :=
  match metadataOf object with
  | some metadata =>
    match metadata.lookup "labels" with
    | some (Value.map labels) => some labels
    | _ => none
  | none => none

/-- The reading the specification gives to one `matchExpression` of an object selector
over the labels `L`. -/
def specObjectExprHolds (L : Object) (e : LabelSelectorRequirement) : Prop :=
  (e.Operator = "In" → ∃ v, L.lookup e.Key = some v ∧ ∃ x ∈ e.Values, v = Value.str x) ∧
  (e.Operator = "NotIn" →
    L.lookup e.Key = none ∨ ∃ v, L.lookup e.Key = some v ∧ ∀ x ∈ e.Values, v ≠ Value.str x) ∧
  (e.Operator = "Exists" → ∃ v, L.lookup e.Key = some v) ∧
  (e.Operator = "DoesNotExist" → L.lookup e.Key = none)

end selector

/-! Kubernetes API types read by the validator -/

/-- Type `admissionregistrationv1.MatchCondition`. -/
structure MatchCondition where
  Name : String := ""
  Expression : String := ""

/-- Type `admissionregistrationv1.Variable`. -/
structure Variable where
  Name : String := ""
  Expression : String := ""

/-- Type `admissionregistrationv1.Validation`; `Reason` is a pointer in Go. -/
structure Validation where
  Expression : String := ""
  Message : String := ""
  Reason : Option String := none
  MessageExpression : String := ""

/-- Type `admissionregistrationv1.ValidatingAdmissionPolicySpec`, the fields the engine
reads. -/
structure ValidatingAdmissionPolicySpec where
  MatchConstraints : Option MatchResources := none
  Validations : List Validation := []
  MatchConditions : List MatchCondition := []
  Variables : List Variable := []

/-- Type `admissionregistrationv1.ValidatingAdmissionPolicy`. -/
structure ValidatingAdmissionPolicy where
  Name : String := ""
  Spec : ValidatingAdmissionPolicySpec := { }

/-! Package `cel`: evaluator.go -/

namespace cel

/-- The cel-go environment (external): `Compile` and `Program` give the error they
report for an expression, if any, and `Eval` is the evaluation of the compiled
expression on the bindings, with `out.Value()` as its result. -/
structure Env where
  Compile : String → Option Error
  Program : String → Option Error
  Eval : String → Object → Except Error Value

/-- Evaluates CEL expressions with a pre-configured environment. -/
structure Evaluator where
  env : Env

/-- Evaluates a CEL expression with the given variables. -/
def Evaluator.Evaluate (e : Evaluator) (expression : String) (vars : Object) :
    Except Error Value :=
  match e.env.Compile expression with
  | some issues => Except.error ("failed to compile expression: " ++ issues)
  | none =>
    match e.env.Program expression with
    | some err => Except.error ("failed to create program: " ++ err)
    | none =>
      match e.env.Eval expression vars with
      | Except.error err => Except.error ("failed to evaluate expression: " ++ err)
      | Except.ok out => Except.ok out

end cel

/-! Package `engine`: result.go -/

namespace engine

/-- A single validation violation. -/
structure Violation where
  Expression : String := ""
  Reason : String := ""
  Message : String := ""
deriving DecidableEq

/-- The default implementation of `ValidationResult`. -/
structure validationResult where
  allowed : Bool
  violations : List Violation
deriving DecidableEq

/-- Creates a new validation result. -/
def NewValidationResult (allowed : Bool) (violations : List Violation) : validationResult :=
  { allowed := allowed, violations := violations }

/-- Returns true if the validation passed. -/
def validationResult.IsAllowed (r : validationResult) : Bool :=
  r.allowed

/-- Returns all validation violations. -/
def validationResult.GetViolations (r : validationResult) : List Violation :=
  r.violations

/-! Package `engine`: validator.go -/

/-- One call of `celEvaluator.Evaluate`: the expression and the bindings. -/
abbrev Call := String × Object

/-- Validates objects against policies. -/
structure PolicyValidator where
  celEvaluator : cel.Evaluator
  contextVars : Object := []

/-- Evaluates all matchConditions for a policy. -/
def evaluateMatchConditions (fmt : Printer) (v : PolicyValidator) :
    List MatchCondition → (Bool × Option Error) × List Call
  | [] => ((true, none), [])
  | condition :: rest =>
    match v.celEvaluator.Evaluate condition.Expression v.contextVars with
    | Except.error err =>
      ((false, some ("failed to evaluate matchCondition " ++ condition.Name ++ ": " ++ err)),
        [(condition.Expression, v.contextVars)])
    | Except.ok result =>
      match result.asBool with
      | none =>
        ((false, some ("matchCondition " ++ condition.Name ++ " did not return a boolean: "
            ++ fmt.v result ++ " (type: " ++ fmt.typeOf result ++ ")")),
          [(condition.Expression, v.contextVars)])
      | some matched =>
        if !matched then ((false, none), [(condition.Expression, v.contextVars)])
        else
          ((evaluateMatchConditions fmt v rest).1,
            (condition.Expression, v.contextVars) :: (evaluateMatchConditions fmt v rest).2)

/-- Loop of `evaluateVariables`; `variableValues` holds the values evaluated so far. -/
def evaluateVariablesLoop (v : PolicyValidator) (variableValues : Object) :
    List Variable → (Option Object × Option Error) × List Call
  | [] => ((some variableValues, none), [])
  | var :: rest =>
    match v.celEvaluator.Evaluate var.Expression
        (mapSet v.contextVars "variables" (Value.map variableValues)) with
    | Except.error err =>
      ((none, some ("failed to evaluate variable " ++ var.Name ++ ": " ++ err)),
        [(var.Expression, mapSet v.contextVars "variables" (Value.map variableValues))])
    | Except.ok result =>
      ((evaluateVariablesLoop v (mapSet variableValues var.Name result) rest).1,
        (var.Expression, mapSet v.contextVars "variables" (Value.map variableValues))
          :: (evaluateVariablesLoop v (mapSet variableValues var.Name result) rest).2)

/-- Evaluates all variables defined in the policy. -/
def evaluateVariables (v : PolicyValidator) (policy : ValidatingAdmissionPolicy) :
    (Option Object × Option Error) × List Call :=
  if policy.Spec.Variables.length == 0 then ((none, none), [])
  else evaluateVariablesLoop v [] policy.Spec.Variables

/-- Evaluates a single validation expression; a nil `variableValues` is `none`. -/
def evaluateValidation (v : PolicyValidator) (validation : Validation)
    (variableValues : Option Object) : Except Error Value × List Call :=
  let evalVars : Object :=
    match variableValues with
    | some vv => mapSet v.contextVars "variables" (Value.map vv)
    | none => v.contextVars
  (v.celEvaluator.Evaluate validation.Expression evalVars,
    [(validation.Expression, evalVars)])

/-- Evaluates the message for a validation failure: first tries messageExpression if
present, otherwise falls back to the static message. -/
def evaluateMessage (fmt : Printer) (v : PolicyValidator) (validation : Validation)
    (variableValues : Option Object) : Except Error String × List Call :=
  if validation.MessageExpression != "" then
    let copied : Object :=
      v.contextVars.filter
        (fun kv => kv.1 != "authorizer" && kv.1 != "authorizer.requestResource")
    let evalVars : Object :=
      match variableValues with
      | some vv => mapSet copied "variables" (Value.map vv)
      | none => copied
    match v.celEvaluator.Evaluate validation.MessageExpression evalVars with
    | Except.error err =>
      (Except.error ("failed to evaluate messageExpression: " ++ err),
        [(validation.MessageExpression, evalVars)])
    | Except.ok result =>
      match result.asString with
      | none =>
        (Except.error ("messageExpression must evaluate to a string, got " ++ fmt.T result),
          [(validation.MessageExpression, evalVars)])
      | some message =>
        if strings.TrimSpace message == "" || strings.Contains message "\n" then
          (Except.error
            "messageExpression produced invalid message: empty, whitespace-only, or contains line breaks",
            [(validation.MessageExpression, evalVars)])
        else (Except.ok message, [(validation.MessageExpression, evalVars)])
  else if validation.Message != "" then (Except.ok validation.Message, [])
  else (Except.ok ("failed expression: " ++ validation.Expression), [])

/-- The violation built by `ValidatePolicy` for a validation that evaluated to false. -/
def failedViolation (fmt : Printer) (v : PolicyValidator) (validation : Validation)
    (variableValues : Option Object) : Violation :=
  let reason : String :=
    match validation.Reason with
    | some r => r
    | none => "FailedValidation"
  let message : String :=
    match (evaluateMessage fmt v validation variableValues).1 with
    | Except.ok message => message
    | Except.error _ =>
      if validation.Message == "" then "failed expression: " ++ validation.Expression
      else validation.Message
  { Expression := validation.Expression, Reason := reason, Message := message }

/-- The loop of `ValidatePolicy` over the validations: the violations appended from this
point on, and the calls made. -/
def validationsLoop (fmt : Printer) (v : PolicyValidator) (variableValues : Option Object)
    (collectAllViolations : Bool) : List Validation → List Violation × List Call
  | [] => ([], [])
  | validation :: rest =>
    match (evaluateValidation v validation variableValues).1 with
    | Except.error err =>
      if !collectAllViolations then
        ([{ Expression := validation.Expression, Reason := "FailedValidation",
            Message := "Expression evaluation error: " ++ err }],
          (evaluateValidation v validation variableValues).2)
      else
        ({ Expression := validation.Expression, Reason := "FailedValidation",
           Message := "Expression evaluation error: " ++ err }
            :: (validationsLoop fmt v variableValues collectAllViolations rest).1,
          (evaluateValidation v validation variableValues).2
            ++ (validationsLoop fmt v variableValues collectAllViolations rest).2)
    | Except.ok result =>
      match result.asBool with
      | none =>
        if !collectAllViolations then
          ([{ Expression := validation.Expression, Reason := "FailedValidation",
              Message := "Expression did not return a boolean: " ++ fmt.v result
                ++ " (type: " ++ fmt.typeOf result ++ ")" }],
            (evaluateValidation v validation variableValues).2)
        else
          ({ Expression := validation.Expression, Reason := "FailedValidation",
             Message := "Expression did not return a boolean: " ++ fmt.v result
               ++ " (type: " ++ fmt.typeOf result ++ ")" }
              :: (validationsLoop fmt v variableValues collectAllViolations rest).1,
            (evaluateValidation v validation variableValues).2
              ++ (validationsLoop fmt v variableValues collectAllViolations rest).2)
      | some allowed =>
        if !allowed then
          if !collectAllViolations then
            ([failedViolation fmt v validation variableValues],
              (evaluateValidation v validation variableValues).2
                ++ (evaluateMessage fmt v validation variableValues).2)
          else
            (failedViolation fmt v validation variableValues
                :: (validationsLoop fmt v variableValues collectAllViolations rest).1,
              (evaluateValidation v validation variableValues).2
                ++ (evaluateMessage fmt v validation variableValues).2
                ++ (validationsLoop fmt v variableValues collectAllViolations rest).2)
        else
          ((validationsLoop fmt v variableValues collectAllViolations rest).1,
            (evaluateValidation v validation variableValues).2
              ++ (validationsLoop fmt v variableValues collectAllViolations rest).2)

/-- The body of `ValidatePolicy` after the matchConditions have passed; `calls` are the
calls made until then. -/
def validateAfterMatch (fmt : Printer) (v : PolicyValidator)
    (policy : ValidatingAdmissionPolicy) (collectAllViolations : Bool) (calls : List Call) :
    validationResult × List Call :=
  if policy.Spec.Validations.length == 0 then (NewValidationResult true [], calls)
  else
    let vars : (Option Object × Option Error) × List Call :=
      if policy.Spec.Variables.length > 0 then evaluateVariables v policy
      else ((some [], none), [])
    match vars.1.2 with
    | some err =>
      (NewValidationResult false
          [{ Reason := "VariableEvaluationError",
             Message := "Variable evaluation error: " ++ err }],
        calls ++ vars.2)
    | none =>
      ((NewValidationResult
          ((validationsLoop fmt v vars.1.1 collectAllViolations
            policy.Spec.Validations).1.length == 0)
          (validationsLoop fmt v vars.1.1 collectAllViolations policy.Spec.Validations).1),
        calls ++ vars.2
          ++ (validationsLoop fmt v vars.1.1 collectAllViolations policy.Spec.Validations).2)

/-- Validates an object against a policy. -/
def ValidatePolicy (fmt : Printer) (v : PolicyValidator) (policy : ValidatingAdmissionPolicy)
    (collectAllViolations : Bool) : validationResult × List Call :=
  if policy.Spec.MatchConditions.length > 0 then
    match (evaluateMatchConditions fmt v policy.Spec.MatchConditions).1 with
    | (_, some err) =>
      (NewValidationResult false
          [{ Reason := "MatchConditionEvaluationError",
             Message := "Failed to evaluate matchConditions: " ++ err }],
        (evaluateMatchConditions fmt v policy.Spec.MatchConditions).2)
    | (matched, none) =>
      if !matched then
        (NewValidationResult true [],
          (evaluateMatchConditions fmt v policy.Spec.MatchConditions).2)
      else
        validateAfterMatch fmt v policy collectAllViolations
          (evaluateMatchConditions fmt v policy.Spec.MatchConditions).2
  else validateAfterMatch fmt v policy collectAllViolations []

/-! Spec-side vocabulary of the validation pipeline -/

/-- The bindings a validation expression is evaluated against: the context variables
plus `variables` mapped to the variable values. -/
def specValidationBindings (contextVars variableValues : Object) : Object :=
  mapSet contextVars "variables" (Value.map variableValues)

/-- The bindings a messageExpression is evaluated against: the context variables without
the authorizer-scoped ones, plus `variables` mapped to the variable values. -/
def specMessageBindings (contextVars variableValues : Object) : Object :=
  mapSet
    (contextVars.filter (fun kv => kv.1 != "authorizer" && kv.1 != "authorizer.requestResource"))
    "variables" (Value.map variableValues)

/-- The values `results`, stored in order under the names of `vars` on top of `acc`. -/
def bindResults (acc : Object) (vars : List Variable) (results : List Value) : Object :=
  (vars.zip results).foldl (fun m p => mapSet m p.1.Name p.2) acc

/-- The bindings of the `i`-th variable in the words of the specification: the context
variables plus `variables` mapped to the results of the variables `0..i-1` under their
names. -/
def specVariableBindings (contextVars : Object) (vars : List Variable) (results : List Value)
    (i : Nat) : Object :=
  mapSet contextVars "variables" (Value.map (bindResults [] (vars.take i) (results.take i)))

/-- The calls for the variables `0..n-1`, in declaration order. -/
def specVariableCalls (contextVars : Object) (vars : List Variable) (results : List Value)
    (n : Nat) : List Call :=
  (List.range n).map
    (fun i => ((vars.getD i { }).Expression, specVariableBindings contextVars vars results i))

/-- The values `results` are what the evaluator returns for the first `results.length`
variables of `vars`, each evaluated against the bindings of the specification. -/
def specVariablesEvaluateTo (v : PolicyValidator) (vars : List Variable)
    (results : List Value) : Prop :=
  results.length ≤ vars.length ∧
  ∀ i, i < results.length →
    v.celEvaluator.Evaluate (vars.getD i { }).Expression
        (specVariableBindings v.contextVars vars results i)
      = Except.ok (results.getD i Value.null)

/-- The matchConditions of the policy pass and its variables evaluate to
`variableValues`, so that `ValidatePolicy` goes on to the validations. -/
def specReachesValidations (fmt : Printer) (v : PolicyValidator)
    (policy : ValidatingAdmissionPolicy) (variableValues : Object) : Prop :=
  (evaluateMatchConditions fmt v policy.Spec.MatchConditions).1 = (true, none) ∧
  (evaluateVariablesLoop v [] policy.Spec.Variables).1 = (some variableValues, none)

/-- The validation expression evaluates to the boolean `true`. -/
def specValidationPasses (v : PolicyValidator) (variableValues : Object)
    (validation : Validation) : Bool :=
  match v.celEvaluator.Evaluate validation.Expression
      (specValidationBindings v.contextVars variableValues) with
  | Except.ok (Value.bool true) => true
  | _ => false

/-- The validation expression evaluates to the boolean `false`. -/
def specValidationIsFalse (v : PolicyValidator) (variableValues : Object)
    (validation : Validation) : Bool :=
  match v.celEvaluator.Evaluate validation.Expression
      (specValidationBindings v.contextVars variableValues) with
  | Except.ok (Value.bool false) => true
  | _ => false

/-- The validations that `ValidatePolicy` evaluates, in the words of the specification:
all of them when all violations are collected, and otherwise the validations up to and
including the first one that does not pass. -/
def specEvaluatedValidations (v : PolicyValidator) (variableValues : Object)
    (collectAllViolations : Bool) (validations : List Validation) : List Validation :=
  if collectAllViolations then validations
  else
    validations.takeWhile (specValidationPasses v variableValues)
      ++ (validations.dropWhile (specValidationPasses v variableValues)).take 1

/-- The messageExpression of the validation fails in the sense of the specification: its
evaluation errors, yields a non-string, or yields a string that is empty after trimming
or contains a newline. -/
def specMessageExpressionFails (v : PolicyValidator) (variableValues : Object)
    (validation : Validation) : Prop :=
  match v.celEvaluator.Evaluate validation.MessageExpression
      (specMessageBindings v.contextVars variableValues) with
  | Except.error _ => True
  | Except.ok (Value.str message) =>
    strings.TrimSpace message = "" ∨ strings.Contains message "\n" = true
  | Except.ok _ => True

/-- The fallback message of the specification: the static message when it is non-empty,
`failed expression: <expression>` otherwise. -/
def specFallbackMessage (validation : Validation) : String :=
  if validation.Message ≠ "" then validation.Message
  else "failed expression: " ++ validation.Expression

/-! A small evaluator for the scenarios of the specification -/

/-- The value at a path of field names. -/
def lookupPath : Value → List String → Option Value
  | val, [] => some val
  | Value.map kvs, k :: ks =>
    match kvs.lookup k with
    | some val => lookupPath val ks
    | none => none
  | _, _ :: _ => none

/-- The fields `fields` of a value, selected one after the other as cel-go selects them:
a field that the value does not hold is the error of a missing key. -/
def selectFields : Value → List String → Except Error Value
  | val, [] => Except.ok val
  | Value.map kvs, k :: ks =>
    match kvs.lookup k with
    | some val => selectFields val ks
    | none => Except.error ("no such key: " ++ k)
  | _, k :: _ => Except.error ("no such key: " ++ k)

/-- The value of the path `root.fields` on the bindings, as cel-go resolves it: an
identifier that the bindings do not hold is the error of a missing attribute, named by
the identifier alone when the expression went through the type checker (`checked`) and
by the whole path when it was only parsed; a missing field is the error of a missing
key. -/
def selectPath (checked : Bool) (vars : Object) (root : String) (fields : List String) :
    Except Error Value :=
  match vars.lookup root with
  | some val => selectFields val fields
  | none =>
    Except.error ("no such attribute(s): "
      ++ (if checked then root else ".".intercalate (root :: fields)))

/-- The integer at a path of the bindings; a value of another type has no overload of
the operator applied to it. -/
def intAt (checked : Bool) (vars : Object) (root : String) (fields : List String) :
    Except Error Int :=
  match selectPath checked vars root fields with
  | Except.ok (Value.num n) => Except.ok n
  | Except.ok _ => Except.error "no such overload"
  | Except.error err => Except.error err

/-- The expressions of the scenarios that cel-go accepts: each is rooted at `object` or
`variables`, which the environment of the validator declares, or is a literal. -/
def scenarioExpressions : List String :=
  ["object.spec.replicas <= 10", "object.spec.replicas", "10",
   "variables.replicaCount <= variables.maxReplicas",
   "'Replica count ' + string(variables.replicaCount) + ' exceeds maximum of ' + string(variables.maxReplicas)",
   "object.undeclared == 1", "object.undeclared",
   "object.metadata.namespace == 'production'", "object.metadata.labels.app == 'test'",
   "'no such key'"]

/-- The evaluation of the expressions of the scenarios on the bindings, as cel-go
evaluates them; an expression outside `scenarioExpressions` is answered with an error. -/
def scenarioEval (checked : Bool) (expression : String) (vars : Object) : Except Error Value :=
  if expression = "object.spec.replicas <= 10" then
    (intAt checked vars "object" ["spec", "replicas"]).map
      (fun n => Value.bool (decide (n ≤ 10)))
  else if expression = "object.spec.replicas" then
    selectPath checked vars "object" ["spec", "replicas"]
  else if expression = "10" then Except.ok (Value.num 10)
  else if expression = "variables.replicaCount <= variables.maxReplicas" then
    (intAt checked vars "variables" ["replicaCount"]).bind (fun a =>
      (intAt checked vars "variables" ["maxReplicas"]).map
        (fun b => Value.bool (decide (a ≤ b))))
  else if expression = "'Replica count ' + string(variables.replicaCount) + ' exceeds maximum of ' + string(variables.maxReplicas)" then
    (intAt checked vars "variables" ["replicaCount"]).bind (fun a =>
      (intAt checked vars "variables" ["maxReplicas"]).map (fun b =>
        Value.str ("Replica count " ++ toString a ++ " exceeds maximum of " ++ toString b)))
  else if expression = "object.undeclared == 1" then
    (selectPath checked vars "object" ["undeclared"]).map (fun val =>
      match val with
      | Value.num n => Value.bool (n == 1)
      | _ => Value.bool false)
  else if expression = "object.undeclared" then
    selectPath checked vars "object" ["undeclared"]
  else if expression = "object.metadata.namespace == 'production'" then
    (selectPath checked vars "object" ["metadata", "namespace"]).map (fun val =>
      match val with
      | Value.str ns => Value.bool (ns == "production")
      | _ => Value.bool false)
  else if expression = "object.metadata.labels.app == 'test'" then
    (selectPath checked vars "object" ["metadata", "labels", "app"]).map (fun val =>
      match val with
      | Value.str app => Value.bool (app == "test")
      | _ => Value.bool false)
  else if expression = "'no such key'" then Except.ok (Value.str "no such key")
  else Except.error ("expression outside the scenarios: " ++ expression)

/-- An environment with the declarations of the validator, for the expressions of the
scenarios. An expression of `scenarioExpressions` compiles and is evaluated by
`scenarioEval`; so does `object.undeclared == 1`, since `object` is declared as a dynamic
value, and its missing field is met at evaluation only. The call `nonExistentFunction()`
does not compile, the function being undeclared; the report is that of cel-go without
its position and source line. Every other expression is refused. -/
def scenarioEnv : cel.Env where
  Compile := fun expression =>
    if expression ∈ scenarioExpressions then none
    else if expression = "nonExistentFunction()" then
      some "undeclared reference to 'nonExistentFunction' (in container '')"
    else some ("expression outside the scenarios: " ++ expression)
  Program := fun _ => none
  Eval := scenarioEval true

/-- A validator over `scenarioEnv` whose context holds an object with the given number
of replicas and the operation `CREATE`. -/
def scenarioValidator (replicas : Int) : PolicyValidator :=
  { celEvaluator := { env := scenarioEnv },
    contextVars :=
      [("object", Value.map [("spec", Value.map [("replicas", Value.num replicas)])]),
       ("operation", Value.str "CREATE")] }

/-- Scenario A: the validation `object.spec.replicas <= 10`, with no reason and no
message. -/
def scenarioAPolicy : ValidatingAdmissionPolicy :=
  { Name := "replica-limit",
    Spec := { Validations := [{ Expression := "object.spec.replicas <= 10" }] } }

/-- Scenario E: two variables and a validation with a messageExpression. -/
def scenarioEPolicy : ValidatingAdmissionPolicy :=
  { Name := "messageexpression-policy",
    Spec :=
      { Variables := [{ Name := "replicaCount", Expression := "object.spec.replicas" },
                      { Name := "maxReplicas", Expression := "10" }],
        Validations :=
          [{ Expression := "variables.replicaCount <= variables.maxReplicas",
             Message := "Too many replicas",
             MessageExpression := "'Replica count ' + string(variables.replicaCount) + ' exceeds maximum of ' + string(variables.maxReplicas)" }] } }

/-- A printer for the scenarios; its renderings are not those of Go. -/
def scenarioPrinter : Printer :=
  { v := fun _ => "?", T := fun _ => "?", typeOf := fun _ => "?" }

end engine

/-! Go `strings` helpers used by the result and the simulator -/

namespace strings

/-- Go `strings.Join`. -/
def Join : List String → String → String
  | [], _ => ""
  | [a], _ => a
  | a :: b :: rest, sep => a ++ sep ++ Join (b :: rest) sep

/-- Go `strings.Split(s, sep)` for a separator `sep` of one character. -/
def SplitChar (s : String) (sep : Char) : List String :=
  (s.data.splitOn sep).map String.mk

end strings

/-- Go `m[k] = v` on a `map[string]bool`. -/
def boolMapSet (m : List (String × Bool)) (k : String) (v : Bool) : List (String × Bool) :=
  (k, v) :: m.filter (fun kv => kv.1 != k)

namespace engine

/-! Package `engine`: result.go, the aggregate reason and message -/

/-- The `reasonMap` built by the loop of `GetReason`, on top of `reasonMap`. -/
def collectReasons (reasonMap : List (String × Bool)) :
    List Violation → List (String × Bool)
  | [] => reasonMap
  | v :: rest =>
    if v.Reason != "" && v.Reason != "FailedValidation" then
      collectReasons (boolMapSet reasonMap v.Reason true) rest
    else collectReasons reasonMap rest

/-- Returns the reason for denial. -/
def validationResult.GetReason (r : validationResult) : String :=
  if r.allowed || r.violations.length == 0 then ""
  else if r.violations.length == 1 then (r.violations.headD { }).Reason
  else
    match collectReasons [] r.violations with
    | [(reason, _)] => reason
    | _ => "MultipleViolations"

/-- The message of one violation in the list built by `GetMessage`. -/
def violationLine (v : Violation) : String :=
  if v.Reason != "" && v.Reason != "FailedValidation" then
    "[" ++ v.Reason ++ "] " ++ v.Message
  else v.Message

/-- Returns the detailed message. -/
def validationResult.GetMessage (r : validationResult) : String :=
  if r.allowed || r.violations.length == 0 then ""
  else if r.violations.length == 1 then (r.violations.headD { }).Message
  else
    "Multiple validation failures (" ++ toString r.violations.length ++ "):\n"
      ++ strings.Join (r.violations.map violationLine) "\n"

end engine

/-! Kubernetes and test API types read by the simulator -/

/-- The elements of a Go slice that may be nil: a nil slice is `none`, has length 0 and
no element. -/
def sliceElems {α : Type} (s : Option (List α)) : List α :=
  s.getD []

/-- Type `admissionregistrationv1.ValidatingAdmissionPolicyBindingSpec`, the fields the
engine reads; a validation action is its string, and a nil `ValidationActions` is
`none`. -/
structure ValidatingAdmissionPolicyBindingSpec where
  PolicyName : String := ""
  MatchResources : Option MatchResources := none
  ValidationActions : Option (List String) := none

/-- Type `admissionregistrationv1.ValidatingAdmissionPolicyBinding`. -/
structure ValidatingAdmissionPolicyBinding where
  Name : String := ""
  Spec : ValidatingAdmissionPolicyBindingSpec := { }

namespace admissionregistrationv1

/-- The validation action `Deny`. -/
def Deny : String := "Deny"

/-- The validation action `Warn`. -/
def Warn : String := "Warn"

/-- The validation action `Audit`. -/
def Audit : String := "Audit"

end admissionregistrationv1

/-- A `runtime.Object`: an `*unstructured.Unstructured` with its content, or an object of
another Go type, known by a name. -/
inductive RuntimeObject where
  | unstructured (content : Object) : RuntimeObject
  | typed (name : String) : RuntimeObject

/-- Type `runtime.RawExtension`; `Raw` holds the bytes. -/
structure RawExtension where
  Raw : String := ""
  Object : Option RuntimeObject := none

/-- The functions of the Go and Kubernetes libraries that the engine calls and that are
not modelled here: `strings.EqualFold`, `strings.ToLower`, `json.Unmarshal` into an
`Unstructured`, `runtime.DefaultUnstructuredConverter.ToUnstructured`, and the accessors
`GroupVersionKind` (group, version, kind), `GetNamespace` and `GetLabels` of an
`Unstructured`, given its content. -/
structure GoLibrary where
  EqualFold : String → String → Bool
  ToLower : String → String
  Unmarshal : String → Except Error Object
  ToUnstructured : RuntimeObject → Except Error Object
  GroupVersionKind : Object → String × String × String
  GetNamespace : Object → String
  GetLabels : Object → List (String × String)

namespace kaptestv1

/-- Defines the expected result of a test. -/
structure ExpectedResult where
  Allowed : Bool := false
  Reason : String := ""
  Message : String := ""
  MessageContains : String := ""

/-- Represents a single test case. -/
structure TestCase where
  Name : String := ""
  Description : String := ""
  Object : RawExtension := { }
  OldObject : Option RawExtension := none
  Operation : String := ""
  Expected : ExpectedResult := { }

/-- The actual response details of policy evaluation. -/
structure ResponseDetails where
  Allowed : Bool := false
  Reason : String := ""
  Message : String := ""
deriving DecidableEq

/-- Represents the evaluation result of a single policy. -/
structure PolicyResult where
  PolicyName : String := ""
  Allowed : Bool := false
  Reason : String := ""
  Message : String := ""
deriving DecidableEq

/-- Represents the result of a single test case. -/
structure TestResult where
  Name : String := ""
  Success : Bool := false
  Details : String := ""
  ActualResponse : Option ResponseDetails := none
  PolicyResults : List PolicyResult := []
  Metadata : List (String × String) := []
deriving DecidableEq

/-- A summary of test execution; the counts are Go `int`s that never exceed the number
of test cases. -/
structure TestSummary where
  Total : Nat := 0
  Successful : Nat := 0
  Failed : Nat := 0
deriving DecidableEq

/-- The status of test execution. -/
structure ValidatingAdmissionPolicyTestStatus where
  Results : List TestResult := []
  Summary : TestSummary := { }
deriving DecidableEq

end kaptestv1

/-! Package `admission`: NewAdmissionTarget -/

namespace admission

/-- Creates a new AdmissionTarget from an unstructured object; a nil object is `none`. -/
def NewAdmissionTarget (lib : GoLibrary) (obj : Option Object) (operation : String) :
    AdmissionTarget :=
  match obj with
  | none => { Operation := operation }
  | some content =>
    { Operation := operation,
      Object := content,
      APIGroup := (lib.GroupVersionKind content).1,
      APIVersion := (lib.GroupVersionKind content).2.1,
      Resource := (lib.GroupVersionKind content).2.2,
      Namespace := lib.GetNamespace content,
      Labels := lib.GetLabels content }

end admission

/-! Package `selector`: the package-level function `Matches` -/

namespace selector

/-- The package-level convenience function `Matches`, which uses the default matcher;
nil arguments are `none`. -/
def MatchesFunc (EqualFold : String → String → Bool) (matchResources : Option MatchResources)
    (admissionTarget : Option admission.AdmissionTarget) : Bool :=
  match matchResources, admissionTarget with
  | some mr, some target => (Matches EqualFold (some mr) target).1
  | _, _ => true

end selector

/-! Package `cel`: the environment built by `cel.NewEnv` -/

namespace cel

/-- The cel-go environment that `cel.NewEnv(cel.OptionalTypes())` builds (external):
`NewEnv`, `Parse` and `Program` give the error they report, if any, and `Eval` is the
evaluation of the parsed expression on the bindings, with `eval.Value()` as its result. -/
structure DynamicEnv where
  NewEnv : Option Error
  Parse : String → Option Error
  Program : String → Option Error
  Eval : String → Object → Except Error Value

end cel

namespace engine

/-! Package `engine`: evaluator.go -/

/-- The default implementation for evaluating CEL expressions; `newEnv` is the
environment that `EvaluateExpression` creates at each call. -/
structure DefaultCELEvaluator where
  celEnv : cel.Env
  newEnv : cel.DynamicEnv

/-- Evaluates a CEL expression on the bindings `vars`; a nil map is `[]`. -/
def DefaultCELEvaluator.EvaluateExpression (fmt : Printer) (e : DefaultCELEvaluator)
    (expression : String) (vars : Object) : Except Error Bool :=
  match e.newEnv.NewEnv with
  | some err => Except.error ("failed to create CEL environment: " ++ err)
  | none =>
    match e.newEnv.Parse expression with
    | some issues => Except.error ("failed to parse expression: " ++ issues)
    | none =>
      match e.newEnv.Program expression with
      | some err => Except.error ("failed to create program: " ++ err)
      | none =>
        match e.newEnv.Eval expression vars with
        | Except.error err => Except.error ("failed to evaluate expression: " ++ err)
        | Except.ok eval =>
          match eval.asBool with
          | none => Except.error ("expression result is not a boolean: " ++ fmt.v eval)
          | some boolResult => Except.ok boolResult

/-- Evaluates MatchCondition (CEL expressions). -/
def DefaultCELEvaluator.evaluateMatchConditions (fmt : Printer) (e : DefaultCELEvaluator)
    (object : Object) : List MatchCondition → Except Error Bool
  | [] => Except.ok true
  | condition :: rest =>
    if condition.Expression == "" then
      DefaultCELEvaluator.evaluateMatchConditions fmt e object rest
    else
      match e.EvaluateExpression fmt condition.Expression [("object", Value.map object)] with
      | Except.error err =>
        if strings.Contains err "no such key" then Except.ok false else Except.error err
      | Except.ok result =>
        if !result then Except.ok false
        else DefaultCELEvaluator.evaluateMatchConditions fmt e object rest

/-- The AdmissionTarget that `MatchesPolicy` builds from the object. -/
def policyTarget (lib : GoLibrary) (object : Object) : admission.AdmissionTarget :=
  let t0 : admission.AdmissionTarget := { Object := object }
  let t1 : admission.AdmissionTarget :=
    match object.lookup "operation" with
    | some (Value.str operation) => { t0 with Operation := operation }
    | _ => t0
  match object.lookup "resource" with
  | some (Value.map resource) =>
    let t2 : admission.AdmissionTarget :=
      match resource.lookup "group" with
      | some (Value.str group) => { t1 with APIGroup := group }
      | _ => t1
    let t3 : admission.AdmissionTarget :=
      match resource.lookup "version" with
      | some (Value.str version) => { t2 with APIVersion := version }
      | _ => t2
    match resource.lookup "resource" with
    | some (Value.str resourceType) => { t3 with Resource := resourceType }
    | _ => t3
  | _ =>
    let t2 : admission.AdmissionTarget :=
      match object.lookup "apiVersion" with
      | some (Value.str apiVersion) =>
        match strings.SplitChar apiVersion '/' with
        | [group, version] => { t1 with APIGroup := group, APIVersion := version }
        | _ => { t1 with APIGroup := "", APIVersion := apiVersion }
      | _ => t1
    match object.lookup "kind" with
    | some (Value.str kind) => { t2 with Resource := lib.ToLower kind ++ "s" }
    | _ => t2

/-- Evaluates the matching conditions of ValidatingAdmissionPolicy; a nil policy is
`none`. -/
def DefaultCELEvaluator.MatchesPolicy (lib : GoLibrary) (fmt : Printer)
    (e : DefaultCELEvaluator) (policy : Option ValidatingAdmissionPolicy) (object : Object) :
    Except Error Bool :=
  match policy with
  | none => Except.error "policy is nil"
  | some policy =>
    let admissionTarget := policyTarget lib object
    let constraints : Except Error Bool :=
      match policy.Spec.MatchConstraints with
      | none => Except.ok true
      | some matchConstraints =>
        match selector.Matches lib.EqualFold (some matchConstraints) admissionTarget with
        | (_, some err) => Except.error ("MatchConstraints evaluation error: " ++ err)
        | (matchConstraintsResult, none) => Except.ok matchConstraintsResult
    match constraints with
    | Except.error err => Except.error err
    | Except.ok false => Except.ok false
    | Except.ok true =>
      if policy.Spec.MatchConditions.length > 0 then
        match e.evaluateMatchConditions fmt object policy.Spec.MatchConditions with
        | Except.error err => Except.error ("MatchConditions evaluation error: " ++ err)
        | Except.ok matchConditionsResult =>
          if !matchConditionsResult then Except.ok false else Except.ok true
      else Except.ok true

/-! Package `engine`: validator.go, SetupEvaluationContext -/

/-- Sets up the evaluation context from objects: the validator with its new context
variables, and the error if a conversion failed; nil `oldObj` and `paramObj` are `none`. -/
def SetupEvaluationContext (lib : GoLibrary) (v : PolicyValidator) (reqObj : Object)
    (oldObj : Option Object) (paramObj : Option RuntimeObject) (operation : String) :
    PolicyValidator × Option Error :=
  match lib.ToUnstructured (RuntimeObject.unstructured reqObj) with
  | Except.error err =>
    ({ v with contextVars := [] }, some ("failed to convert object to map: " ++ err))
  | Except.ok objectMap =>
    let vars1 : Object :=
      mapSet (mapSet [] "object" (Value.map objectMap)) "operation" (Value.str operation)
    let old : Object × Option Error :=
      match oldObj with
      | none => (vars1, none)
      | some oldContent =>
        match lib.ToUnstructured (RuntimeObject.unstructured oldContent) with
        | Except.error err => (vars1, some ("failed to convert old object to map: " ++ err))
        | Except.ok oldObjectMap => (mapSet vars1 "oldObject" (Value.map oldObjectMap), none)
    match old.2 with
    | some err => ({ v with contextVars := old.1 }, some err)
    | none =>
      match paramObj with
      | none => ({ v with contextVars := old.1 }, none)
      | some param =>
        match lib.ToUnstructured param with
        | Except.error err =>
          ({ v with contextVars := old.1 },
            some ("failed to convert parameter object to map: " ++ err))
        | Except.ok paramMap =>
          ({ v with contextVars := mapSet old.1 "params" (Value.map paramMap) }, none)

end engine

namespace engine

/-! Package `engine`: simulator.go -/

/-- Executes policy simulations. -/
structure PolicySimulator where
  validator : PolicyValidator
  evaluator : DefaultCELEvaluator

/-- Converts a RawExtension to an Unstructured object, given by its content. -/
def convertRawExtension (lib : GoLibrary) (raw : RawExtension) : Except Error Object :=
  if raw.Raw.length > 0 then
    match lib.Unmarshal raw.Raw with
    | Except.error err => Except.error ("failed to unmarshal raw extension: " ++ err)
    | Except.ok obj => Except.ok obj
  else
    match raw.Object with
    | some (RuntimeObject.unstructured u) => Except.ok u
    | some other =>
      match lib.ToUnstructured other with
      | Except.error err => Except.error ("failed to convert object to unstructured: " ++ err)
      | Except.ok content => Except.ok content
    | none => Except.error "raw extension has neither raw nor object"

/-- Checks if a binding matches the object. -/
def matchesBinding (lib : GoLibrary) (binding : ValidatingAdmissionPolicyBinding)
    (obj : Object) (operation : String) : Bool :=
  match binding.Spec.MatchResources with
  | none => true
  | some matchResources =>
    selector.MatchesFunc lib.EqualFold (some matchResources)
      (some (admission.NewAdmissionTarget lib (some obj) operation))

/-- Checks if validation should be performed based on validation actions. -/
def shouldValidate (actions : Option (List String)) : Bool :=
  if (sliceElems actions).length == 0 then true
  else (sliceElems actions).any (fun action => action == admissionregistrationv1.Deny)

/-- The beginning shared by the three simulation functions: converts the object and
the old object of the test case and sets up the evaluation context. Gives the converted
object and the validator with its context, or the error the function returns. -/
def prepareTestCase (lib : GoLibrary) (p : PolicySimulator) (paramObj : Option RuntimeObject)
    (testCase : kaptestv1.TestCase) : Except Error (Object × PolicyValidator) :=
  match convertRawExtension lib testCase.Object with
  | Except.error err => Except.error ("failed to convert object: " ++ err)
  | Except.ok reqObj =>
    let old : Except Error (Option Object) :=
      match testCase.OldObject with
      | none => Except.ok none
      | some rawOld =>
        match convertRawExtension lib rawOld with
        | Except.error err => Except.error ("failed to convert old object: " ++ err)
        | Except.ok oldObj => Except.ok (some oldObj)
    match old with
    | Except.error err => Except.error err
    | Except.ok oldObj =>
      match (SetupEvaluationContext lib p.validator reqObj oldObj paramObj
          testCase.Operation).2 with
      | some err => Except.error ("failed to set up evaluation context: " ++ err)
      | none =>
        Except.ok (reqObj,
          (SetupEvaluationContext lib p.validator reqObj oldObj paramObj
            testCase.Operation).1)

/-- The end shared by the three simulation functions: compares the outcome with the
expected result and gives `Success` and `Details`. -/
def compareExpected (allowed : Bool) (reason message : String)
    (expected : kaptestv1.ExpectedResult) : Bool × String :=
  if allowed == expected.Allowed then
    if !allowed then
      let reasonMatch : Bool :=
        expected.Reason == "" || expected.Reason == reason
          || strings.Contains reason expected.Reason
      let messageMatch0 : Bool :=
        if expected.Message != "" then
          expected.Message == message || strings.Contains message expected.Message
        else true
      let messageMatch : Bool :=
        if expected.MessageContains != "" then
          messageMatch0 && strings.Contains message expected.MessageContains
        else messageMatch0
      if reasonMatch && messageMatch then (true, "")
      else
        (false,
          "actual response does not match expected. Expected: (reason=" ++ expected.Reason
            ++ ", message=" ++ expected.Message ++ ", messageContains="
            ++ expected.MessageContains ++ "), Actual: (reason=" ++ reason ++ ", message="
            ++ message ++ ")")
    else (true, "")
  else
    (false,
      "expected result (allowed=" ++ toString expected.Allowed
        ++ ") and actual result (allowed=" ++ toString allowed ++ ") does not match")

/-- Simulates a single test case: the result, the error, and the calls the validator
made. -/
def SimulateTestCase (lib : GoLibrary) (fmt : Printer) (p : PolicySimulator)
    (policy : ValidatingAdmissionPolicy) (paramObj : Option RuntimeObject)
    (testCase : kaptestv1.TestCase) : (kaptestv1.TestResult × Option Error) × List Call :=
  match prepareTestCase lib p paramObj testCase with
  | Except.error err => (({ Name := testCase.Name, Success := false }, some err), [])
  | Except.ok (reqObj, validator) =>
    match lib.ToUnstructured (RuntimeObject.unstructured reqObj) with
    | Except.error err =>
      (({ Name := testCase.Name, Success := false },
        some ("failed to convert object to map: " ++ err)), [])
    | Except.ok objectMap =>
      match p.evaluator.MatchesPolicy lib fmt (some policy) objectMap with
      | Except.error err =>
        (({ Name := testCase.Name, Success := false },
          some ("failed to check policy match: " ++ err)), [])
      | Except.ok matched =>
        if !matched then
          (({ Name := testCase.Name,
              Success :=
                (compareExpected (NewValidationResult true []).IsAllowed
                  (NewValidationResult true []).GetReason
                  (NewValidationResult true []).GetMessage testCase.Expected).1,
              Details :=
                (compareExpected (NewValidationResult true []).IsAllowed
                  (NewValidationResult true []).GetReason
                  (NewValidationResult true []).GetMessage testCase.Expected).2,
              ActualResponse := some { Allowed := true, Reason := "", Message := "" } },
            none), [])
        else
          (({ Name := testCase.Name,
              Success :=
                (compareExpected (ValidatePolicy fmt validator policy true).1.IsAllowed
                  (ValidatePolicy fmt validator policy true).1.GetReason
                  (ValidatePolicy fmt validator policy true).1.GetMessage
                  testCase.Expected).1,
              Details :=
                (compareExpected (ValidatePolicy fmt validator policy true).1.IsAllowed
                  (ValidatePolicy fmt validator policy true).1.GetReason
                  (ValidatePolicy fmt validator policy true).1.GetMessage
                  testCase.Expected).2,
              ActualResponse :=
                some { Allowed := (ValidatePolicy fmt validator policy true).1.IsAllowed,
                       Reason := (ValidatePolicy fmt validator policy true).1.GetReason,
                       Message := (ValidatePolicy fmt validator policy true).1.GetMessage } },
            none), (ValidatePolicy fmt validator policy true).2)

/-- The accumulators of the loops over the policies. -/
structure Aggregate where
  policyResults : List kaptestv1.PolicyResult := []
  finalAllowed : Bool := true
  finalReason : String := ""
  finalMessage : String := ""
deriving DecidableEq

/-- The block that records the validation result of a policy: appends its PolicyResult
and, for a denial, updates the final allowed, reason and message. -/
def recordResult (agg : Aggregate) (policyName : String) (validationResult : validationResult) :
    Aggregate :=
  if !validationResult.IsAllowed then
    { policyResults := agg.policyResults
        ++ [{ PolicyName := policyName, Allowed := validationResult.IsAllowed,
              Reason := validationResult.GetReason, Message := validationResult.GetMessage }],
      finalAllowed := false,
      finalReason :=
        if agg.finalReason == "" then validationResult.GetReason else agg.finalReason,
      finalMessage :=
        if agg.finalMessage == "" then validationResult.GetMessage
        else agg.finalMessage ++ "; " ++ validationResult.GetMessage }
  else
    { agg with
      policyResults := agg.policyResults
        ++ [{ PolicyName := policyName, Allowed := validationResult.IsAllowed,
              Reason := validationResult.GetReason, Message := validationResult.GetMessage }] }

/-- The loop of `SimulateWithPolicyBindings` over the bindings of one policy. -/
def bindingsLoop (lib : GoLibrary) (fmt : Printer) (validator : PolicyValidator)
    (policy : ValidatingAdmissionPolicy) (reqObj : Object) (operation : String)
    (agg : Aggregate) : List ValidatingAdmissionPolicyBinding → Aggregate × List Call
  | [] => (agg, [])
  | binding :: rest =>
    if !matchesBinding lib binding reqObj operation then
      bindingsLoop lib fmt validator policy reqObj operation agg rest
    else if !shouldValidate binding.Spec.ValidationActions then
      bindingsLoop lib fmt validator policy reqObj operation agg rest
    else
      (recordResult agg policy.Name (ValidatePolicy fmt validator policy true).1,
        (ValidatePolicy fmt validator policy true).2)

/-- The bindings that the map `policyBindings` holds under the name of the policy: the
bindings with that `policyName`, in the order given. -/
def relatedBindings (bindings : List ValidatingAdmissionPolicyBinding)
    (policy : ValidatingAdmissionPolicy) : List ValidatingAdmissionPolicyBinding :=
  bindings.filter (fun binding => binding.Spec.PolicyName == policy.Name)

/-- The body of the loop of `SimulateWithPolicyBindings` over the policies, for one
policy. -/
def evaluatePolicy (lib : GoLibrary) (fmt : Printer) (validator : PolicyValidator)
    (bindings : List ValidatingAdmissionPolicyBinding) (reqObj : Object) (operation : String)
    (agg : Aggregate) (policy : ValidatingAdmissionPolicy) : Aggregate × List Call :=
  if (relatedBindings bindings policy).length == 0 then
    (recordResult agg policy.Name (ValidatePolicy fmt validator policy true).1,
      (ValidatePolicy fmt validator policy true).2)
  else
    bindingsLoop lib fmt validator policy reqObj operation agg (relatedBindings bindings policy)

/-- The loop of `SimulateWithPolicyBindings` over the policies. -/
def policiesLoop (lib : GoLibrary) (fmt : Printer) (validator : PolicyValidator)
    (bindings : List ValidatingAdmissionPolicyBinding) (reqObj : Object) (operation : String)
    (agg : Aggregate) : List ValidatingAdmissionPolicy → Aggregate × List Call
  | [] => (agg, [])
  | policy :: rest =>
    ((policiesLoop lib fmt validator bindings reqObj operation
        (evaluatePolicy lib fmt validator bindings reqObj operation agg policy).1 rest).1,
      (evaluatePolicy lib fmt validator bindings reqObj operation agg policy).2
        ++ (policiesLoop lib fmt validator bindings reqObj operation
          (evaluatePolicy lib fmt validator bindings reqObj operation agg policy).1 rest).2)

/-- The test result built from the accumulators and the comparison with the expected
result. -/
def finalResult (testCase : kaptestv1.TestCase) (agg : Aggregate) : kaptestv1.TestResult :=
  { Name := testCase.Name,
    Success :=
      (compareExpected agg.finalAllowed agg.finalReason agg.finalMessage testCase.Expected).1,
    Details :=
      (compareExpected agg.finalAllowed agg.finalReason agg.finalMessage testCase.Expected).2,
    ActualResponse :=
      some { Allowed := agg.finalAllowed, Reason := agg.finalReason,
             Message := agg.finalMessage },
    PolicyResults := agg.policyResults }

/-- Simulates test cases with multiple policies and bindings: the result, the error, and
the calls the validator made. -/
def SimulateWithPolicyBindings (lib : GoLibrary) (fmt : Printer) (p : PolicySimulator)
    (policies : List ValidatingAdmissionPolicy)
    (bindings : List ValidatingAdmissionPolicyBinding) (paramObj : Option RuntimeObject)
    (testCase : kaptestv1.TestCase) : (kaptestv1.TestResult × Option Error) × List Call :=
  match prepareTestCase lib p paramObj testCase with
  | Except.error err => (({ Name := testCase.Name, Success := false }, some err), [])
  | Except.ok (reqObj, validator) =>
    ((finalResult testCase
        (policiesLoop lib fmt validator bindings reqObj testCase.Operation { } policies).1,
      none),
      (policiesLoop lib fmt validator bindings reqObj testCase.Operation { } policies).2)

/-- The loop of `SimulateTestCaseWithMultiPolicies` over the policies. -/
def multiPoliciesLoop (fmt : Printer) (validator : PolicyValidator) (agg : Aggregate) :
    List ValidatingAdmissionPolicy → Aggregate × List Call
  | [] => (agg, [])
  | policy :: rest =>
    ((multiPoliciesLoop fmt validator
        (recordResult agg policy.Name (ValidatePolicy fmt validator policy true).1) rest).1,
      (ValidatePolicy fmt validator policy true).2
        ++ (multiPoliciesLoop fmt validator
          (recordResult agg policy.Name (ValidatePolicy fmt validator policy true).1) rest).2)

/-- Simulates a single test case with multiple policies: the result, the error, and the
calls the validator made. -/
def SimulateTestCaseWithMultiPolicies (lib : GoLibrary) (fmt : Printer) (p : PolicySimulator)
    (policies : List ValidatingAdmissionPolicy) (paramObj : Option RuntimeObject)
    (testCase : kaptestv1.TestCase) : (kaptestv1.TestResult × Option Error) × List Call :=
  match prepareTestCase lib p paramObj testCase with
  | Except.error err => (({ Name := testCase.Name, Success := false }, some err), [])
  | Except.ok (_, validator) =>
    ((finalResult testCase (multiPoliciesLoop fmt validator { } policies).1, none),
      (multiPoliciesLoop fmt validator { } policies).2)

end engine

namespace engine

/-! Spec-side vocabulary of the results and of the simulator -/

/-- The set of the violation reasons other than the empty one and `FailedValidation`. -/
def specReasonSet (violations : List Violation) : Set String :=
  { reason | reason ≠ "" ∧ reason ≠ "FailedValidation" ∧
      ∃ violation ∈ violations, violation.Reason = reason }

/-- The message of a violation in the aggregate message of the specification: prefixed
with `[reason] ` unless the reason is empty or `FailedValidation`. -/
def specViolationLine (violation : Violation) : String :=
  if violation.Reason = "" ∨ violation.Reason = "FailedValidation" then violation.Message
  else "[" ++ violation.Reason ++ "] " ++ violation.Message

/-- The string `sub` is a substring of `s`. -/
def specSubstring (sub s : String) : Prop :=
  sub.data <:+: s.data

/-- The success condition of the specification: the allowed values agree and, for a
denial, each expected text that is given is a substring of the actual one. -/
def specSucceeds (allowed : Bool) (reason message : String)
    (expected : kaptestv1.ExpectedResult) : Prop :=
  allowed = expected.Allowed ∧
  (allowed = false →
    (expected.Reason = "" ∨ specSubstring expected.Reason reason) ∧
    (expected.Message = "" ∨ specSubstring expected.Message message) ∧
    (expected.MessageContains = "" ∨ specSubstring expected.MessageContains message))

/-- The returned test result, when the error is nil, carries an actual response, has
`Success` exactly under the success condition of the specification, and has non-empty
`Details` exactly when `Success` is false. -/
def specCompared (testCase : kaptestv1.TestCase)
    (returned : kaptestv1.TestResult × Option Error) : Prop :=
  returned.2 = none →
    ∃ response : kaptestv1.ResponseDetails,
      returned.1.ActualResponse = some response ∧
      (returned.1.Success = true ↔
        specSucceeds response.Allowed response.Reason response.Message testCase.Expected) ∧
      (returned.1.Details ≠ "" ↔ returned.1.Success = false)

/-- The PolicyResult of the specification for a policy: its name and the allowed value,
reason and message of its `ValidatePolicy` result. -/
def specPolicyResult (fmt : Printer) (validator : PolicyValidator)
    (policy : ValidatingAdmissionPolicy) : kaptestv1.PolicyResult :=
  { PolicyName := policy.Name,
    Allowed := (ValidatePolicy fmt validator policy true).1.IsAllowed,
    Reason := (ValidatePolicy fmt validator policy true).1.GetReason,
    Message := (ValidatePolicy fmt validator policy true).1.GetMessage }

/-- The policies that `ValidatePolicy` denies, in policy order. -/
def specDenying (fmt : Printer) (validator : PolicyValidator)
    (policies : List ValidatingAdmissionPolicy) : List ValidatingAdmissionPolicy :=
  policies.filter (fun policy => !(ValidatePolicy fmt validator policy true).1.IsAllowed)

/-- The binding matches the target and its validation actions call for validation: they
are empty or contain `Deny`. -/
def specValidates (lib : GoLibrary) (reqObj : Object) (operation : String)
    (binding : ValidatingAdmissionPolicyBinding) : Prop :=
  matchesBinding lib binding reqObj operation = true ∧
  (sliceElems binding.Spec.ValidationActions = []
    ∨ "Deny" ∈ sliceElems binding.Spec.ValidationActions)

/-! Library, evaluator and test cases for the scenarios -/

/-- The string with its ASCII letters in lower case. -/
def asciiLower (s : String) : String :=
  ⟨s.data.map Char.toLower⟩

/-- The string at a key of an object, or the empty string. -/
def stringAt (object : Object) (key : String) : String :=
  match object.lookup key with
  | some (Value.str s) => s
  | _ => ""

/-- The accessor `GroupVersionKind` as apimachinery computes it from `apiVersion` and
`kind`. -/
def unstructuredGroupVersionKind (content : Object) : String × String × String :=
  if stringAt content "apiVersion" = "" ∨ stringAt content "apiVersion" = "/" then
    ("", "", stringAt content "kind")
  else
    match strings.SplitChar (stringAt content "apiVersion") '/' with
    | [version] => ("", version, stringAt content "kind")
    | [group, version] => (group, version, stringAt content "kind")
    | _ => ("", "", "")

/-- The string entries of a map. -/
def stringEntries : Object → List (String × String)
  | [] => []
  | (k, Value.str s) :: rest => (k, s) :: stringEntries rest
  | _ :: rest => stringEntries rest

/-- A library for the scenarios: ASCII case folding, no JSON decoding, conversion of
unstructured objects only. -/
def scenarioLibrary : GoLibrary :=
  { EqualFold := fun a b => asciiLower a == asciiLower b,
    ToLower := asciiLower,
    Unmarshal := fun _ => Except.error "unexpected end of JSON input",
    ToUnstructured := fun obj =>
      match obj with
      | RuntimeObject.unstructured content => Except.ok content
      | RuntimeObject.typed name => Except.error ("unsupported type " ++ name),
    GroupVersionKind := unstructuredGroupVersionKind,
    GetNamespace := fun content =>
      match lookupPath (Value.map content) ["metadata", "namespace"] with
      | some (Value.str ns) => ns
      | _ => "",
    GetLabels := fun content =>
      match lookupPath (Value.map content) ["metadata", "labels"] with
      | some (Value.map labels) => stringEntries labels
      | _ => [] }

/-- An environment for `EvaluateExpression`, which parses an expression without
checking it against declarations: the expressions of the scenarios are evaluated by
`scenarioEval`, an identifier missing from the bindings being reported with its whole
path. -/
def scenarioDynamicEnv : cel.DynamicEnv :=
  { NewEnv := none,
    Parse := fun _ => none,
    Program := fun _ => none,
    Eval := scenarioEval false }

/-- A simulator over `scenarioEnv` and `scenarioDynamicEnv`. -/
def scenarioSimulator : PolicySimulator :=
  { validator := { celEvaluator := { env := scenarioEnv } },
    evaluator := { celEnv := scenarioEnv, newEnv := scenarioDynamicEnv } }

/-- A Deployment of the given namespace with the given number of replicas. -/
def scenarioDeployment (ns : String) (replicas : Int) : Object :=
  [("apiVersion", Value.str "apps/v1"), ("kind", Value.str "Deployment"),
   ("metadata", Value.map [("name", Value.str "web"), ("namespace", Value.str ns)]),
   ("spec", Value.map [("replicas", Value.num replicas)])]

/-- The test case that creates a Deployment with the given namespace and replicas. -/
def scenarioTestCase (ns : String) (replicas : Int) (expected : kaptestv1.ExpectedResult) :
    kaptestv1.TestCase :=
  { Name := "deployment",
    Object := { Object := some (RuntimeObject.unstructured (scenarioDeployment ns replicas)) },
    Operation := "CREATE",
    Expected := expected }

/-- The validator of `scenarioSimulator` after `SetupEvaluationContext` on the test case
`scenarioTestCase ns replicas`. -/
def scenarioContext (ns : String) (replicas : Int) : PolicyValidator :=
  { celEvaluator := { env := scenarioEnv },
    contextVars :=
      [("operation", Value.str "CREATE"),
       ("object", Value.map (scenarioDeployment ns replicas))] }

/-- A binding of the policy of scenario A with the given name and validation actions,
matching every resource. -/
def scenarioBinding (name : String) (actions : List String) :
    ValidatingAdmissionPolicyBinding :=
  { Name := name,
    Spec := { PolicyName := "replica-limit", ValidationActions := some actions } }

/-- The policy of scenario A behind the condition of scenario D. -/
def scenarioDPolicy : ValidatingAdmissionPolicy :=
  { Name := "production-only",
    Spec := { MatchConditions := [{ Name := "production",
                                    Expression := "object.metadata.namespace == 'production'" }],
              Validations := [{ Expression := "object.spec.replicas <= 10" }] } }

/-- The policy of scenario A restricted by a resource rule to the creation of
Deployments. -/
def scenarioRulePolicy : ValidatingAdmissionPolicy :=
  { Name := "replica-limit-deployments",
    Spec := { MatchConstraints := some
                { ResourceRules := [{ Operations := ["CREATE"], APIGroups := ["apps"],
                                      APIVersions := ["v1"], Resources := ["deployments"] }] },
              Validations := [{ Expression := "object.spec.replicas <= 10" }] } }

/-- A policy that denies every object with the reason `Prohibited`. -/
def scenarioProhibitedPolicy : ValidatingAdmissionPolicy :=
  { Name := "prohibited",
    Spec := { Validations := [{ Expression := "object.spec.replicas <= 10",
                                Reason := some "Prohibited",
                                Message := "replicas are limited to 10" }] } }

end engine


namespace engine

/-- A binding of the policy of scenario A that selects the namespace `production`. -/
def scenarioProductionBinding : ValidatingAdmissionPolicyBinding :=
  { Name := "production-binding",
    Spec :=
      { PolicyName := "replica-limit",
        MatchResources := some
          { NamespaceSelector := some
              { MatchExpressions :=
                  [{ Key := "kubernetes.io/metadata.name", Operator := "In",
                     Values := ["production"] }] } },
        ValidationActions := some ["Deny"] } }

end engine


namespace engine

/-- The first non-empty string of a list, or the empty string. -/
def specFirstNonEmpty : List String → String
  | [] => ""
  | a :: rest => if a ≠ "" then a else specFirstNonEmpty rest

/-- A policy that allows every object: its validation compares two variables that are
both 10. -/
def scenarioAllowingPolicy : ValidatingAdmissionPolicy :=
  { Name := "always-allowed",
    Spec :=
      { Variables := [{ Name := "replicaCount", Expression := "10" },
                      { Name := "maxReplicas", Expression := "10" }],
        Validations := [{ Expression := "variables.replicaCount <= variables.maxReplicas" }] } }

end engine


namespace admission

/-! Package `admission`: PrepareObject -/

/-- The loop of `PrepareObject` that copies the labels into a fresh map. -/
def labelsLoop (labels : Object) : List (String × String) → Object
  | [] => labels
  | (k, v) :: rest => labelsLoop (mapSet labels k (Value.str v)) rest

/-- Sets the metadata of Object from the Namespace and Labels fields; the receiver after
the call. A nil `Object` and an empty one are both `[]`, so the map created for a nil
`Object` is the map the entry is assigned to. -/
def AdmissionTarget.PrepareObject (a : AdmissionTarget) : AdmissionTarget :=
  if a.Namespace == "" && a.Labels.length == 0 then a
  else
    let metadata0 : KubeVap.Object := []
    let metadata1 : KubeVap.Object :=
      if a.Namespace != "" then mapSet metadata0 "namespace" (Value.str a.Namespace)
      else metadata0
    let metadata2 : KubeVap.Object :=
      if a.Labels.length > 0 then
        mapSet metadata1 "labels" (Value.map (labelsLoop [] a.Labels))
      else metadata1
    { a with Object := mapSet a.Object "metadata" (Value.map metadata2) }

end admission

namespace engine

/-! Package `engine`: evaluator.go, EvaluatePolicyWithBinding -/

/-- The loop of `evaluatePolicyOnly` over the validations. -/
def DefaultCELEvaluator.evaluatePolicyOnlyLoop (fmt : Printer) (e : DefaultCELEvaluator)
    (object : Object) : List Validation → Except Error Bool
  | [] => Except.ok true
  | rule :: rest =>
    if rule.Expression == "" then
      DefaultCELEvaluator.evaluatePolicyOnlyLoop fmt e object rest
    else
      match e.EvaluateExpression fmt rule.Expression [("object", Value.map object)] with
      | Except.error err =>
        if strings.Contains err "no such key" then Except.ok false else Except.error err
      | Except.ok result =>
        if !result then Except.ok false
        else DefaultCELEvaluator.evaluatePolicyOnlyLoop fmt e object rest

/-- Evaluates only the policy (internal use). -/
def DefaultCELEvaluator.evaluatePolicyOnly (fmt : Printer) (e : DefaultCELEvaluator)
    (policy : ValidatingAdmissionPolicy) (object : Object) : Except Error Bool :=
  if policy.Spec.Validations.length == 0 then Except.ok true
  else e.evaluatePolicyOnlyLoop fmt object policy.Spec.Validations

/-- Evaluates a ValidatingAdmissionPolicy and Binding: the allowed value, the message
and the error; nil arguments are `none`. -/
def DefaultCELEvaluator.EvaluatePolicyWithBinding (lib : GoLibrary) (fmt : Printer)
    (e : DefaultCELEvaluator) (policy : Option ValidatingAdmissionPolicy)
    (binding : Option ValidatingAdmissionPolicyBinding) (object : Object) :
    (Bool × String) × Option Error :=
  match policy with
  | none => ((false, "policy is nil"), some "policy is nil")
  | some policy =>
    match binding with
    | none => ((false, "binding is nil"), some "binding is nil")
    | some binding =>
      if binding.Spec.PolicyName != policy.Name then
        ((false, "binding policy name " ++ binding.Spec.PolicyName
            ++ " does not match policy name " ++ policy.Name),
          some ("binding policy name " ++ binding.Spec.PolicyName
            ++ " does not match policy name " ++ policy.Name))
      else
        match e.MatchesPolicy lib fmt (some policy) object with
        | Except.error err => ((false, "policy matching evaluation error: " ++ err), some err)
        | Except.ok policyMatches =>
          if !policyMatches then
            ((true, "resource does not match policy matching conditions, skipping evaluation"),
              none)
          else
            match selector.Matches lib.EqualFold binding.Spec.MatchResources
                ({ Object := object } : admission.AdmissionTarget).PrepareObject with
            | (_, some err) => ((false, "selector evaluation error: " ++ err), some err)
            | (bindingMatches, none) =>
              if !bindingMatches then
                ((true, "resource does not match binding selector, skipping evaluation"), none)
              else
                match e.evaluatePolicyOnly fmt policy object with
                | Except.error err => ((false, "policy evaluation error: " ++ err), some err)
                | Except.ok allowed =>
                  if !allowed then
                    match binding.Spec.ValidationActions with
                    | some actions =>
                      if actions.any (fun action => action == admissionregistrationv1.Deny) then
                        ((false, "policy violation: deny"), none)
                      else
                        ((true, "Policy violation detected but allowed as warning only"), none)
                    | none => ((false, "Policy violation detected"), none)
                  else ((true, ""), none)

/-! Package `engine`: simulator.go, the test runs -/

/-- The loop shared by `RunPolicyTests` and `RunPolicyTestsWithBindings`; `simulate` is
the call of the simulation function on one test case. Every simulation rebuilds the
context of the validator from its test case, so the simulator is the same at each
iteration. -/
def runLoop (simulate : kaptestv1.TestCase → kaptestv1.TestResult × Option Error)
    (status : kaptestv1.ValidatingAdmissionPolicyTestStatus) :
    List kaptestv1.TestCase → Except Error kaptestv1.ValidatingAdmissionPolicyTestStatus
  | [] => Except.ok status
  | testCase :: rest =>
    match simulate testCase with
    | (_, some err) =>
      Except.error ("failed to execute test case '" ++ testCase.Name ++ "': " ++ err)
    | (result, none) =>
      runLoop simulate
        { Results := status.Results ++ [result],
          Summary :=
            if result.Success then
              { status.Summary with Successful := status.Summary.Successful + 1 }
            else { status.Summary with Failed := status.Summary.Failed + 1 } }
        rest

/-- Executes policy tests. -/
def RunPolicyTests (lib : GoLibrary) (fmt : Printer) (p : PolicySimulator)
    (policy : ValidatingAdmissionPolicy) (paramObj : Option RuntimeObject)
    (testCases : List kaptestv1.TestCase) :
    Except Error kaptestv1.ValidatingAdmissionPolicyTestStatus :=
  runLoop (fun testCase => (SimulateTestCase lib fmt p policy paramObj testCase).1)
    { Results := [], Summary := { Total := testCases.length, Successful := 0, Failed := 0 } }
    testCases

/-- Executes tests with policies and bindings. -/
def RunPolicyTestsWithBindings (lib : GoLibrary) (fmt : Printer) (p : PolicySimulator)
    (policies : List ValidatingAdmissionPolicy)
    (bindings : List ValidatingAdmissionPolicyBinding) (paramObj : Option RuntimeObject)
    (testCases : List kaptestv1.TestCase) :
    Except Error kaptestv1.ValidatingAdmissionPolicyTestStatus :=
  runLoop
    (fun testCase =>
      (SimulateWithPolicyBindings lib fmt p policies bindings paramObj testCase).1)
    { Results := [], Summary := { Total := testCases.length, Successful := 0, Failed := 0 } }
    testCases

/-- Executes tests with multiple policies: a wrapper that creates empty bindings. -/
def RunPolicyTestsWithMultiPolicies (lib : GoLibrary) (fmt : Printer) (p : PolicySimulator)
    (policies : List ValidatingAdmissionPolicy) (paramObj : Option RuntimeObject)
    (testCases : List kaptestv1.TestCase) :
    Except Error kaptestv1.ValidatingAdmissionPolicyTestStatus :=
  RunPolicyTestsWithBindings lib fmt p policies [] paramObj testCases

/-! Spec-side vocabulary of the test runs and of the targets -/

/-- The status of the specification for a list of results: the results, their number,
the number of successes and the number of failures. -/
def specStatus (results : List kaptestv1.TestResult) :
    kaptestv1.ValidatingAdmissionPolicyTestStatus :=
  { Results := results,
    Summary :=
      { Total := results.length,
        Successful := (results.filter (fun result => result.Success)).length,
        Failed := (results.filter (fun result => !result.Success)).length } }

/-- The matchConstraints of the policy match the target that `MatchesPolicy` builds from
the object. -/
def specConstraintsMatch (lib : GoLibrary) (policy : ValidatingAdmissionPolicy)
    (object : Object) : Prop :=
  ∀ matchConstraints : MatchResources, policy.Spec.MatchConstraints = some matchConstraints →
    selector.Matches lib.EqualFold (some matchConstraints) (policyTarget lib object)
      = (true, none)

/-- The condition is skipped or holds: its expression is empty or evaluates to true. -/
def specConditionPasses (fmt : Printer) (e : DefaultCELEvaluator) (object : Object)
    (condition : MatchCondition) : Prop :=
  condition.Expression = "" ∨
    e.EvaluateExpression fmt condition.Expression [("object", Value.map object)]
      = Except.ok true

/-! More policies, bindings and objects for the scenarios -/

/-- The policy of scenario A behind a matchCondition that evaluates to a number. -/
def scenarioNonBooleanPolicy : ValidatingAdmissionPolicy :=
  { Name := "non-boolean-condition",
    Spec := { MatchConditions := [{ Name := "replicas", Expression := "object.spec.replicas" }],
              Validations := [{ Expression := "object.spec.replicas <= 10" }] } }

/-- The policy of scenario A restricted by its matchConstraints to the namespace
`production`. -/
def scenarioSelectorPolicy : ValidatingAdmissionPolicy :=
  { Name := "replica-limit-production",
    Spec := { MatchConstraints := some
                { NamespaceSelector := some
                    { MatchExpressions :=
                        [{ Key := "kubernetes.io/metadata.name", Operator := "In",
                           Values := ["production"] }] } },
              Validations := [{ Expression := "object.spec.replicas <= 10" }] } }

/-- The policy of scenario A behind an empty condition and a matchCondition on the labels
of the object, which the Deployment of the scenarios does not have. -/
def scenarioMissingKeyPolicy : ValidatingAdmissionPolicy :=
  { Name := "missing-key-condition",
    Spec := { MatchConditions := [{ Name := "empty", Expression := "" },
                                  { Name := "labelled",
                                    Expression := "object.metadata.labels.app == 'test'" }],
              Validations := [{ Expression := "object.spec.replicas <= 10" }] } }

/-- The policy of scenario A behind a matchCondition that is a string literal. -/
def scenarioLiteralPolicy : ValidatingAdmissionPolicy :=
  { Name := "literal-condition",
    Spec := { MatchConditions := [{ Name := "literal", Expression := "'no such key'" }],
              Validations := [{ Expression := "object.spec.replicas <= 10" }] } }

/-- A printer that renders strings, integers and booleans as Go does; its renderings of
the other values are not those of Go. -/
def scenarioScalarPrinter : Printer :=
  { v := fun val =>
      match val with
      | Value.str s => s
      | Value.num n => toString n
      | Value.bool b => toString b
      | _ => "?",
    T := fun val =>
      match val with
      | Value.str _ => "string"
      | Value.num _ => "int64"
      | Value.bool _ => "bool"
      | _ => "?",
    typeOf := fun val =>
      match val with
      | Value.str _ => "string"
      | Value.num _ => "int64"
      | Value.bool _ => "bool"
      | _ => "?" }

/-- A binding of the policy of scenario A whose validation actions are the given slice,
nil or not. -/
def scenarioActionsBinding (actions : Option (List String)) : ValidatingAdmissionPolicyBinding :=
  { Name := "binding", Spec := { PolicyName := "replica-limit", ValidationActions := actions } }

/-- The Deployment of the scenarios as the map of an admission request, with the
operation beside the fields of the object. -/
def scenarioRequest (ns : String) (replicas : Int) : Object :=
  ("operation", Value.str "CREATE") :: scenarioDeployment ns replicas

end engine


namespace engine

/-- A target with the convenience fields set, over an object that has a name in its
metadata. -/
def scenarioTarget : admission.AdmissionTarget :=
  { Object := [("kind", Value.str "Pod"),
               ("metadata", Value.map [("name", Value.str "web")])],
    Operation := "CREATE",
    Namespace := "default",
    Labels := [("app", "web")] }

end engine

namespace engine

/-- The map that the specification puts under `metadata`: `namespace` when Namespace is
non-empty, then `labels`, a copy of Labels, when Labels is non-empty. -/
def specMetadata (a : admission.AdmissionTarget) : Object :=
  (if a.Labels = [] then []
    else [("labels", Value.map (admission.labelsLoop [] a.Labels))])
  ++ (if a.Namespace = "" then [] else [("namespace", Value.str a.Namespace)])

end engine


/-! Go `strings.Fields` and the length of a string -/

namespace strings

/-- Go `len(s)` of a string: its number of bytes. -/
def len (s : String) : Nat :=
  s.utf8ByteSize

/-- The loop of Go `strings.Fields`: `current` holds the characters of the field being
read. -/
def fieldsLoop (current : List Char) : List Char → List String
  | [] => if current.isEmpty then [] else [String.mk current]
  | c :: cs =>
    if IsSpace c then
      if current.isEmpty then fieldsLoop [] cs else String.mk current :: fieldsLoop [] cs
    else fieldsLoop (current ++ [c]) cs

/-- Go `strings.Fields`: the maximal runs of characters that are not white space. -/
def Fields (s : String) : List String :=
  fieldsLoop [] s.data

end strings

/-! Package `reporter`: output.go -/

namespace reporter

/-- The loop of `wrapText` over the words: the lines and the current line at its end. -/
def wrapLoop (width : Int) (lines : List String) (currentLine : String) :
    List String → List String × String
  | [] => (lines, currentLine)
  | word :: rest =>
    if currentLine == "" then wrapLoop width lines word rest
    else if (strings.len currentLine : Int) + 1 + (strings.len word : Int) ≤ width then
      wrapLoop width lines (currentLine ++ " " ++ word) rest
    else wrapLoop width (lines ++ [currentLine]) word rest

/-- Wraps text to specified width. -/
def wrapText (text : String) (width : Int) : List String :=
  if width ≤ 0 ∨ (strings.len text : Int) ≤ width then [text]
  else
    if (wrapLoop width [] "" (strings.Fields text)).2 != "" then
      (wrapLoop width [] "" (strings.Fields text)).1
        ++ [(wrapLoop width [] "" (strings.Fields text)).2]
    else (wrapLoop width [] "" (strings.Fields text)).1

/-- Go index expression `lines[i]`; an index out of range is a run-time panic, given as
an error. -/
def lineAt (lines : List String) (i : Nat) : Except Error String :=
  match lines.get? i with
  | some line => Except.ok line
  | none =>
    Except.error ("index out of range [" ++ toString i ++ "] with length "
      ++ toString lines.length)

/-- The message cells that `TableReporter.Report` prints for a result in verbose mode
when the message is longer than the message column: the first line of the wrapped
message, read with `lines[0]`, then the lines that follow. -/
def wrappedMessageCells (message : String) (messageWidth : Int) :
    Except Error (List String) :=
  match lineAt (wrapText message messageWidth) 0 with
  | Except.error err => Except.error err
  | Except.ok first => Except.ok (first :: (wrapText message messageWidth).drop 1)

/-- The reporter interface: `Report` returns its error. -/
structure Reporter where
  Report : kaptestv1.ValidatingAdmissionPolicyTestStatus → Option Error

/-- What the commands print: the messages of `PrintInfo`, `PrintWarning` and
`PrintError`, and the status handed to `Report`. -/
inductive Event where
  | info (message : String) : Event
  | warning (message : String) : Event
  | error (message : String) : Event
  | report (status : kaptestv1.ValidatingAdmissionPolicyTestStatus) : Event
deriving DecidableEq

end reporter

/-! Spec-side vocabulary of `wrapText` -/

namespace reporter

/-- The lines are the words of the text in order, cut into groups, each line being the
words of its group with one space between them; a group of more than one word makes a
line of at most `width` bytes. -/
def specWrapped (text : String) (width : Int) (lines : List String) : Prop :=
  ∃ groups : List (List String),
    groups.flatten = strings.Fields text ∧
    lines = groups.map (fun group => strings.Join group " ") ∧
    ∀ group ∈ groups, group ≠ [] ∧
      (1 < group.length → (strings.len (strings.Join group " ") : Int) ≤ width)

end reporter

/-! Test definitions and the loader interface -/

namespace kaptestv1

/-- A unified source for policies, bindings and parameters; the field `Type` of the
source is `Type_`. -/
structure SourceConfig where
  Type_ : String := ""
  Files : List String := []

/-- Type `ValidatingAdmissionPolicyTestSpec`. -/
structure ValidatingAdmissionPolicyTestSpec where
  Source : SourceConfig := { }
  IncludeParameters : Bool := false
  TestCases : List TestCase := []

/-- Type `ValidatingAdmissionPolicyTest`, the field the commands read. -/
structure ValidatingAdmissionPolicyTest where
  Spec : ValidatingAdmissionPolicyTestSpec := { }

end kaptestv1

namespace loader

/-- Type `loader.ResourceSource`; its field `Type` is `Type_`. -/
structure ResourceSource where
  Type_ : String := ""
  Files : List String := []
  KubeconfigPath : String := ""
  Namespace : String := ""

/-- The interface `loader.ResourceLoader`. `LoadPolicyBindings` and `LoadParameter`
return their value beside their error, since the commands go on with the value after an
error. -/
structure ResourceLoader where
  LoadPolicyTest : String → Bool → Except Error kaptestv1.ValidatingAdmissionPolicyTest
  LoadPolicies : ResourceSource → Except Error (List ValidatingAdmissionPolicy)
  LoadPolicyBindings : ResourceSource → List ValidatingAdmissionPolicyBinding × Option Error
  LoadParameter : ResourceSource → Option RuntimeObject × Option Error
  GetResources : String → ResourceSource → Except Error (List RuntimeObject)

end loader

/-! Package `commands` -/

namespace commands

open reporter

/-- What the commands take from the file system, the cluster and the libraries: path
cleaning, the loaders, file reading, `bytes.Split`, the YAML and JSON decoders, the first
eight characters of the n-th fresh UUID, the accessors of an unstructured object, the
reporter of a format and the simulator. -/
structure Host where
  Clean : String → String
  NewLocalResourceLoader : Except Error loader.ResourceLoader
  NewClusterResourceLoader : String → Except Error loader.ResourceLoader
  ReadFile : String → Except Error String
  Split : String → String → List String
  YAMLToJSON : String → Except Error String
  UnmarshalJSON : String → Except Error Object
  NewStringPrefix : Nat → String
  GetKind : Object → String
  GetAPIVersion : Object → String
  GetName : Object → String
  NewReporter : String → Bool → Reporter
  NewPolicySimulator : Except Error engine.PolicySimulator

/-- Options shared by multiple commands. -/
structure CommonOptions where
  OutputFormat : String := "table"
  Quiet : Bool := false
  Verbose : Bool := false
  Kubeconfig : String := ""

/-- Options for run command. -/
structure RunOptions extends CommonOptions where
  Cluster : Bool := false
  SkipBindings : Bool := false

/-- Options for check command. -/
structure CheckOptions extends CommonOptions where
  PolicyFiles : List String := []
  ParamFile : String := ""
  Operation : String := ""
  Namespace : String := ""
  Cluster : Bool := false

/-- The end of `runTestFile`: the error of the test run is printed and returned;
otherwise the status is reported and an error code is returned if any tests failed. -/
def finishRun (rep : Reporter)
    (run : Except Error kaptestv1.ValidatingAdmissionPolicyTestStatus) :
    Option Error × List Event :=
  match run with
  | Except.error err => (some err, [Event.error ("Failed to execute test: " ++ err)])
  | Except.ok status =>
    match rep.Report status with
    | some err =>
      (some err, [Event.report status, Event.error ("Failed to report results: " ++ err)])
    | none =>
      if status.Summary.Failed > 0 then
        (some (toString status.Summary.Failed ++ " tests failed"), [Event.report status])
      else (none, [Event.report status])

/-- The step of `runTestFile` that loads the parameters (optional): the parameter object
and the warning printed. -/
def loadedParameter (test : kaptestv1.ValidatingAdmissionPolicyTest)
    (resourceLoader : loader.ResourceLoader) (resourceSource : loader.ResourceSource) :
    Option RuntimeObject × List Event :=
  if test.Spec.IncludeParameters then
    match resourceLoader.LoadParameter resourceSource with
    | (paramObj, some err) => (paramObj, [Event.warning ("Failed to load parameters: " ++ err)])
    | (paramObj, none) => (paramObj, [])
  else (none, [])

/-- The step of `runTestFile` that loads the policy bindings unless `--skip-bindings` is
specified: the bindings and what is printed. -/
def loadedBindings (opts : RunOptions) (resourceLoader : loader.ResourceLoader)
    (resourceSource : loader.ResourceSource) :
    List ValidatingAdmissionPolicyBinding × List Event :=
  if !opts.SkipBindings then
    ((resourceLoader.LoadPolicyBindings resourceSource).1,
      (match (resourceLoader.LoadPolicyBindings resourceSource).2 with
        | some err => [Event.warning ("Failed to load policy bindings: " ++ err)]
        | none => [])
      ++ (if !opts.Quiet
            && (resourceLoader.LoadPolicyBindings resourceSource).1.length > 0 then
          [Event.info ("Loaded "
            ++ toString (resourceLoader.LoadPolicyBindings resourceSource).1.length
            ++ " policy bindings")]
        else []))
  else
    ([], if !opts.Quiet then [Event.info "Skipping policy bindings (--skip-bindings flag)"]
         else [])

/-- The step of `runTestFile` that executes the tests, with the bindings when there are
some. -/
def executeTests (lib : GoLibrary) (fmt : Printer) (simulator : engine.PolicySimulator)
    (opts : RunOptions) (policies : List ValidatingAdmissionPolicy)
    (bindings : List ValidatingAdmissionPolicyBinding) (paramObj : Option RuntimeObject)
    (testCases : List kaptestv1.TestCase) :
    Except Error kaptestv1.ValidatingAdmissionPolicyTestStatus :=
  if bindings.length > 0 && !opts.SkipBindings then
    engine.RunPolicyTestsWithBindings lib fmt simulator policies bindings paramObj testCases
  else engine.RunPolicyTestsWithMultiPolicies lib fmt simulator policies paramObj testCases

/-- The part of `runTestFile` that loads the policies and the bindings and executes the
tests, once the loader and the source are chosen. -/
def runLoaded (lib : GoLibrary) (fmt : Printer) (simulator : engine.PolicySimulator)
    (rep : Reporter) (opts : RunOptions) (test : kaptestv1.ValidatingAdmissionPolicyTest)
    (resourceLoader : loader.ResourceLoader) (resourceSource : loader.ResourceSource) :
    Option Error × List Event :=
  match resourceLoader.LoadPolicies resourceSource with
  | Except.error err =>
    (some err,
      (loadedParameter test resourceLoader resourceSource).2
        ++ [Event.error ("Failed to load policies: " ++ err)])
  | Except.ok policies =>
    if policies.length == 0 then
      (some "No policies were loaded",
        (loadedParameter test resourceLoader resourceSource).2
          ++ [Event.error "No policies were loaded"])
    else
      ((finishRun rep
          (executeTests lib fmt simulator opts policies
            (loadedBindings opts resourceLoader resourceSource).1
            (loadedParameter test resourceLoader resourceSource).1 test.Spec.TestCases)).1,
        (loadedParameter test resourceLoader resourceSource).2
          ++ (loadedBindings opts resourceLoader resourceSource).2
          ++ (finishRun rep
            (executeTests lib fmt simulator opts policies
              (loadedBindings opts resourceLoader resourceSource).1
              (loadedParameter test resourceLoader resourceSource).1 test.Spec.TestCases)).2)

/-- The part of `runTestFile` that initializes the resource loader of the source type
and goes on with it. -/
def runFromSource (host : Host) (lib : GoLibrary) (fmt : Printer)
    (simulator : engine.PolicySimulator) (rep : Reporter) (opts : RunOptions)
    (test : kaptestv1.ValidatingAdmissionPolicyTest) (sourceType : String) :
    Option Error × List Event :=
  if sourceType == "local" then
    match host.NewLocalResourceLoader with
    | Except.error err =>
      (some err, [Event.error ("Failed to initialize local resource loader: " ++ err)])
    | Except.ok resourceLoader =>
      runLoaded lib fmt simulator rep opts test resourceLoader
        { Type_ := "local", Files := test.Spec.Source.Files }
  else if sourceType == "cluster" then
    match host.NewClusterResourceLoader opts.Kubeconfig with
    | Except.error err =>
      (some err, [Event.error ("Failed to initialize cluster resource loader: " ++ err)])
    | Except.ok resourceLoader =>
      runLoaded lib fmt simulator rep opts test resourceLoader
        { Type_ := "cluster", KubeconfigPath := opts.Kubeconfig }
  else
    (some ("Invalid source type: " ++ sourceType),
      [Event.error ("Invalid source type: " ++ sourceType)])

/-- Runs one test file: the error returned and what is printed. -/
def runTestFile (host : Host) (lib : GoLibrary) (fmt : Printer)
    (simulator : engine.PolicySimulator) (rep : Reporter) (opts : RunOptions)
    (testFilePath : String) : Option Error × List Event :=
  let started : List Event :=
    if !opts.Quiet then [Event.info ("Processing test file: " ++ host.Clean testFilePath)]
    else []
  match host.NewLocalResourceLoader with
  | Except.error err =>
    (some err, started ++ [Event.error ("Failed to initialize resource loader: " ++ err)])
  | Except.ok initialLoader =>
    match initialLoader.LoadPolicyTest (host.Clean testFilePath) true with
    | Except.error err =>
      (some err, started ++ [Event.error ("Failed to load test definition: " ++ err)])
    | Except.ok test =>
      ((runFromSource host lib fmt simulator rep opts test
          (if test.Spec.Source.Type_ == "" then "local" else test.Spec.Source.Type_)).1,
        started ++ (runFromSource host lib fmt simulator rep opts test
          (if test.Spec.Source.Type_ == "" then "local" else test.Spec.Source.Type_)).2)

/-- The loop of the run command over the test files; `lastErr` is the error kept so
far. -/
def runFilesLoop (host : Host) (lib : GoLibrary) (fmt : Printer)
    (simulator : engine.PolicySimulator) (rep : Reporter) (opts : RunOptions)
    (lastErr : Option Error) : List String → Option Error × List Event
  | [] => (lastErr, [])
  | testFilePath :: rest =>
    ((runFilesLoop host lib fmt simulator rep opts
        (match (runTestFile host lib fmt simulator rep opts testFilePath).1 with
          | some err => some err
          | none => lastErr) rest).1,
      (runTestFile host lib fmt simulator rep opts testFilePath).2
        ++ (runFilesLoop host lib fmt simulator rep opts
          (match (runTestFile host lib fmt simulator rep opts testFilePath).1 with
            | some err => some err
            | none => lastErr) rest).2)

/-- The run command on its arguments; the signal handler is left out. -/
def runCommand (host : Host) (lib : GoLibrary) (fmt : Printer) (opts : RunOptions)
    (args : List String) : Option Error × List Event :=
  if opts.OutputFormat != "table" && opts.OutputFormat != "json"
      && opts.OutputFormat != "yaml" then
    (some ("Invalid output format: " ++ opts.OutputFormat
      ++ " (valid values: table, json, yaml)"), [])
  else
    match host.NewPolicySimulator with
    | Except.error err => (some ("Failed to initialize policy simulator: " ++ err), [])
    | Except.ok simulator =>
      runFilesLoop host lib fmt simulator (host.NewReporter opts.OutputFormat opts.Verbose)
        opts none args

/-- The field `result.ActualResponse.Allowed` read by the check command: the response
is never nil on a result returned with a nil error; a nil response counts as a denial. -/
def responseAllowed (result : kaptestv1.TestResult) : Bool :=
  match result.ActualResponse with
  | some response => response.Allowed
  | none => false

/-- The loop of `processManifestFile` over the documents; `index` counts the documents
seen, for the fresh name. -/
def processDocuments (host : Host) (lib : GoLibrary) (fmt : Printer)
    (simulator : engine.PolicySimulator) (policies : List ValidatingAdmissionPolicy)
    (paramObj : Option RuntimeObject) (opts : CheckOptions) (index : Nat) :
    List String → List kaptestv1.TestResult × List Event
  | [] => ([], [])
  | document :: rest =>
    if strings.len (strings.TrimSpace document) == 0 then
      processDocuments host lib fmt simulator policies paramObj opts (index + 1) rest
    else
      match host.YAMLToJSON (strings.TrimSpace document) with
      | Except.error err =>
        ((processDocuments host lib fmt simulator policies paramObj opts (index + 1) rest).1,
          Event.error ("Failed to convert YAML to JSON: " ++ err)
            :: (processDocuments host lib fmt simulator policies paramObj opts (index + 1)
                rest).2)
      | Except.ok jsonData =>
        match host.UnmarshalJSON jsonData with
        | Except.error err =>
          ((processDocuments host lib fmt simulator policies paramObj opts (index + 1) rest).1,
            Event.error ("Failed to convert JSON to Unstructured: " ++ err)
              :: (processDocuments host lib fmt simulator policies paramObj opts (index + 1)
                  rest).2)
        | Except.ok unstructuredObj =>
          let resourceType : String :=
            lib.ToLower (host.GetKind unstructuredObj) ++ "." ++ host.GetAPIVersion unstructuredObj
          let resourceName : String :=
            if host.GetName unstructuredObj == "" then "unnamed-" ++ host.NewStringPrefix index
            else host.GetName unstructuredObj
          let testCase : kaptestv1.TestCase :=
            { Name := resourceType ++ "/" ++ resourceName,
              Operation := opts.Operation,
              Object := { Object := some (RuntimeObject.unstructured unstructuredObj) },
              Expected := { Allowed := true } }
          match (engine.SimulateTestCaseWithMultiPolicies lib fmt simulator policies paramObj
              testCase).1 with
          | (_, some err) =>
            ((processDocuments host lib fmt simulator policies paramObj opts (index + 1)
                rest).1,
              Event.error ("Failed to validate resource (" ++ resourceType ++ "/"
                  ++ resourceName ++ "): " ++ err)
                :: (processDocuments host lib fmt simulator policies paramObj opts (index + 1)
                    rest).2)
          | (result, none) =>
            ({ result with Metadata := [("resourceType", resourceType)] }
                :: (processDocuments host lib fmt simulator policies paramObj opts (index + 1)
                    rest).1,
              (processDocuments host lib fmt simulator policies paramObj opts (index + 1)
                rest).2)

/-- Validates the documents of one manifest file: the results or the error, and what is
printed. -/
def processManifestFile (host : Host) (lib : GoLibrary) (fmt : Printer)
    (simulator : engine.PolicySimulator) (policies : List ValidatingAdmissionPolicy)
    (paramObj : Option RuntimeObject) (opts : CheckOptions) (manifestPath : String) :
    Except Error (List kaptestv1.TestResult) × List Event :=
  match host.ReadFile manifestPath with
  | Except.error err => (Except.error ("Failed to read manifest file: " ++ err), [])
  | Except.ok data =>
    (Except.ok (processDocuments host lib fmt simulator policies paramObj opts 0
        (host.Split data "---\n")).1,
      (processDocuments host lib fmt simulator policies paramObj opts 0
        (host.Split data "---\n")).2)

/-- The results and the counters of the check command. -/
structure Tally where
  allResults : List kaptestv1.TestResult := []
  totalCount : Nat := 0
  successCount : Nat := 0
  failedCount : Nat := 0

/-- The loop of the check command that counts the results and appends them. -/
def tallyResults (tally : Tally) : List kaptestv1.TestResult → Tally
  | [] => tally
  | result :: rest =>
    tallyResults
      { allResults := tally.allResults ++ [result],
        totalCount := tally.totalCount + 1,
        successCount :=
          if responseAllowed result then tally.successCount + 1 else tally.successCount,
        failedCount :=
          if responseAllowed result then tally.failedCount else tally.failedCount + 1 }
      rest

/-- The end of `runLocalCheck` and of `runClusterCheck`: builds the status, reports it,
and returns the error of the report only. -/
def finishCheck (rep : Reporter) (tally : Tally) : Option Error × List Event :=
  let status : kaptestv1.ValidatingAdmissionPolicyTestStatus :=
    { Results := tally.allResults,
      Summary := { Total := tally.totalCount, Successful := tally.successCount,
                   Failed := tally.failedCount } }
  match rep.Report status with
  | some err =>
    (some err, [Event.report status, Event.error ("Failed to report results: " ++ err)])
  | none => (none, [Event.report status])

/-- The loop of `runLocalCheck` over the manifest files. -/
def manifestsLoop (host : Host) (lib : GoLibrary) (fmt : Printer)
    (simulator : engine.PolicySimulator) (policies : List ValidatingAdmissionPolicy)
    (paramObj : Option RuntimeObject) (opts : CheckOptions) (tally : Tally) :
    List String → Tally × List Event
  | [] => (tally, [])
  | manifestPath :: rest =>
    let started : List Event :=
      if !opts.Quiet then
        [Event.info ("Processing manifest file: " ++ host.Clean manifestPath)]
      else []
    match processManifestFile host lib fmt simulator policies paramObj opts
        (host.Clean manifestPath) with
    | (Except.error err, printed) =>
      ((manifestsLoop host lib fmt simulator policies paramObj opts tally rest).1,
        started ++ printed ++ [Event.error err]
          ++ (manifestsLoop host lib fmt simulator policies paramObj opts tally rest).2)
    | (Except.ok results, printed) =>
      ((manifestsLoop host lib fmt simulator policies paramObj opts
          (tallyResults tally results) rest).1,
        started ++ printed
          ++ (manifestsLoop host lib fmt simulator policies paramObj opts
            (tallyResults tally results) rest).2)

/-- The policies and the parameter object that both check functions load, with what
is printed, or the error returned. -/
def loadForCheck (resourceLoader : loader.ResourceLoader) (opts : CheckOptions) :
    Except Error (List ValidatingAdmissionPolicy × Option RuntimeObject) × List Event :=
  match resourceLoader.LoadPolicies { Type_ := "local", Files := opts.PolicyFiles } with
  | Except.error err =>
    (Except.error ("Failed to load policies: " ++ err),
      if !opts.Quiet then [Event.error ("Failed to load policies: " ++ err)] else [])
  | Except.ok policies =>
    let announced : List Event :=
      if !opts.Quiet then
        policies.map
          (fun policy => Event.info ("Using policy '" ++ policy.Name ++ "' for validation"))
      else []
    let param : Option RuntimeObject × List Event :=
      if opts.ParamFile != "" then
        match resourceLoader.LoadParameter { Type_ := "local", Files := [opts.ParamFile] } with
        | (paramObj, some err) =>
          (paramObj,
            if !opts.Quiet then [Event.warning ("Failed to load parameters: " ++ err)] else [])
        | (paramObj, none) => (paramObj, [])
      else (none, [])
    (Except.ok (policies, param.1), announced ++ param.2)

/-- Executes check for local files. -/
def runLocalCheck (host : Host) (lib : GoLibrary) (fmt : Printer) (rep : Reporter)
    (simulator : engine.PolicySimulator) (manifestFiles : List String) (opts : CheckOptions) :
    Option Error × List Event :=
  match host.NewLocalResourceLoader with
  | Except.error err => (some ("Failed to initialize resource loader: " ++ err), [])
  | Except.ok resourceLoader =>
    match loadForCheck resourceLoader opts with
    | (Except.error err, printed) => (some err, printed)
    | (Except.ok (policies, paramObj), printed) =>
      ((finishCheck rep
          (manifestsLoop host lib fmt simulator policies paramObj opts { } manifestFiles).1).1,
        printed
          ++ (manifestsLoop host lib fmt simulator policies paramObj opts { } manifestFiles).2
          ++ (finishCheck rep
            (manifestsLoop host lib fmt simulator policies paramObj opts { }
              manifestFiles).1).2)

/-- The loop of `extractResourceTypesFromPolicies` over the resources of a rule. -/
def collectResources (resourceMap : List (String × Bool)) : List String → List (String × Bool)
  | [] => resourceMap
  | resource :: rest =>
    if resource != "*" then collectResources (boolMapSet resourceMap resource true) rest
    else collectResources resourceMap rest

/-- The loop of `extractResourceTypesFromPolicies` over the rules of a policy. -/
def collectRules (resourceMap : List (String × Bool)) :
    List NamedRuleWithOperations → List (String × Bool)
  | [] => resourceMap
  | rule :: rest => collectRules (collectResources resourceMap rule.Resources) rest

/-- The loop of `extractResourceTypesFromPolicies` over the policies. -/
def collectPolicies (resourceMap : List (String × Bool)) :
    List ValidatingAdmissionPolicy → List (String × Bool)
  | [] => resourceMap
  | policy :: rest =>
    match policy.Spec.MatchConstraints with
    | none => collectPolicies resourceMap rest
    | some matchConstraints =>
      if matchConstraints.ResourceRules.length == 0 then collectPolicies resourceMap rest
      else collectPolicies (collectRules resourceMap matchConstraints.ResourceRules) rest

/-- Extracts target resource types from policies; the order of the result is that of
the model of the map, where Go leaves it unspecified. -/
def extractResourceTypesFromPolicies (policies : List ValidatingAdmissionPolicy) :
    Except Error (List String) :=
  Except.ok ((collectPolicies [] policies).map Prod.fst)

/-- The loop of `runClusterCheck` over the resources of one type. -/
def resourcesLoop (lib : GoLibrary) (fmt : Printer) (host : Host)
    (simulator : engine.PolicySimulator) (policies : List ValidatingAdmissionPolicy)
    (paramObj : Option RuntimeObject) (resourceType : String) (tally : Tally) :
    List RuntimeObject → Tally × List Event
  | [] => (tally, [])
  | resource :: rest =>
    match resource with
    | RuntimeObject.typed name =>
      ((resourcesLoop lib fmt host simulator policies paramObj resourceType tally rest).1,
        Event.error ("Failed to convert resource type: " ++ name)
          :: (resourcesLoop lib fmt host simulator policies paramObj resourceType tally
              rest).2)
    | RuntimeObject.unstructured unstructuredObj =>
      let testCase : kaptestv1.TestCase :=
        { Name := resourceType ++ "/" ++ host.GetName unstructuredObj,
          Operation := "CREATE",
          Object := { Object := some resource },
          Expected := { Allowed := true } }
      match (engine.SimulateTestCaseWithMultiPolicies lib fmt simulator policies paramObj
          testCase).1 with
      | (_, some err) =>
        ((resourcesLoop lib fmt host simulator policies paramObj resourceType tally rest).1,
          Event.error ("Failed to validate resource (" ++ resourceType ++ "/"
              ++ host.GetName unstructuredObj ++ "): " ++ err)
            :: (resourcesLoop lib fmt host simulator policies paramObj resourceType tally
                rest).2)
      | (result, none) =>
        resourcesLoop lib fmt host simulator policies paramObj resourceType
          { allResults :=
              tally.allResults ++ [{ result with Metadata := [("resourceType", resourceType)] }],
            totalCount := tally.totalCount + 1,
            successCount :=
              if responseAllowed result then tally.successCount + 1 else tally.successCount,
            failedCount :=
              if responseAllowed result then tally.failedCount else tally.failedCount + 1 }
          rest

/-- The loop of `runClusterCheck` over the resource types. -/
def resourceTypesLoop (lib : GoLibrary) (fmt : Printer) (host : Host)
    (resourceLoader : loader.ResourceLoader) (simulator : engine.PolicySimulator)
    (policies : List ValidatingAdmissionPolicy) (paramObj : Option RuntimeObject)
    (opts : CheckOptions) (tally : Tally) : List String → Tally × List Event
  | [] => (tally, [])
  | resourceType :: rest =>
    match resourceLoader.GetResources resourceType
        { Type_ := "cluster", Namespace := opts.Namespace } with
    | Except.error err =>
      ((resourceTypesLoop lib fmt host resourceLoader simulator policies paramObj opts tally
          rest).1,
        Event.error ("Failed to fetch resources (" ++ resourceType ++ "): " ++ err)
          :: (resourceTypesLoop lib fmt host resourceLoader simulator policies paramObj opts
              tally rest).2)
    | Except.ok resources =>
      let fetched : List Event :=
        if !opts.Quiet then
          [Event.info ("Fetched resources: " ++ resourceType ++ " ("
            ++ toString resources.length ++ " items)")]
        else []
      ((resourceTypesLoop lib fmt host resourceLoader simulator policies paramObj opts
          (resourcesLoop lib fmt host simulator policies paramObj resourceType tally
            resources).1 rest).1,
        fetched
          ++ (resourcesLoop lib fmt host simulator policies paramObj resourceType tally
              resources).2
          ++ (resourceTypesLoop lib fmt host resourceLoader simulator policies paramObj opts
            (resourcesLoop lib fmt host simulator policies paramObj resourceType tally
              resources).1 rest).2)

/-- Executes check for cluster resources. -/
def runClusterCheck (host : Host) (lib : GoLibrary) (fmt : Printer) (rep : Reporter)
    (simulator : engine.PolicySimulator) (resourceSpecs : List String) (opts : CheckOptions) :
    Option Error × List Event :=
  match host.NewClusterResourceLoader opts.Kubeconfig with
  | Except.error err => (some ("Failed to initialize cluster resource loader: " ++ err), [])
  | Except.ok resourceLoader =>
    match loadForCheck resourceLoader opts with
    | (Except.error err, printed) => (some err, printed)
    | (Except.ok (policies, paramObj), printed) =>
      match (if resourceSpecs.length > 0 then Except.ok resourceSpecs
          else extractResourceTypesFromPolicies policies) with
      | Except.error err =>
        (some ("Failed to extract resource types from policies: " ++ err), printed)
      | Except.ok resourceTypes =>
        let listed : List Event :=
          if !opts.Quiet then
            [Event.info ("Resources to validate: " ++ strings.Join resourceTypes ", ")]
          else []
        if resourceTypes.length == 0 then
          (some "No resources specified for validation", printed ++ listed)
        else
          let fetching : List Event :=
            if !opts.Quiet then [Event.info "Fetching resources from cluster..."] else []
          ((finishCheck rep
              (resourceTypesLoop lib fmt host resourceLoader simulator policies paramObj opts
                { } resourceTypes).1).1,
            printed ++ listed ++ fetching
              ++ (resourceTypesLoop lib fmt host resourceLoader simulator policies paramObj
                  opts { } resourceTypes).2
              ++ (finishCheck rep
                (resourceTypesLoop lib fmt host resourceLoader simulator policies paramObj
                  opts { } resourceTypes).1).2)

end commands

namespace commands

open reporter engine

/-- A loader for the scenarios: a test file with one test case, the policy of scenario
A, no binding, no parameter, and one Deployment of 15 replicas in the cluster. -/
def scenarioLoader : loader.ResourceLoader :=
  { LoadPolicyTest := fun _ _ =>
      Except.ok { Spec := { TestCases := [scenarioTestCase "default" 15 { Allowed := true }] } },
    LoadPolicies := fun _ => Except.ok [scenarioAPolicy],
    LoadPolicyBindings := fun _ => ([], none),
    LoadParameter := fun _ => (none, none),
    GetResources := fun _ _ =>
      Except.ok [RuntimeObject.unstructured (scenarioDeployment "default" 15)] }

/-- A reporter that never fails. -/
def scenarioReporter : Reporter :=
  { Report := fun _ => none }

/-- A host for the scenarios: every manifest file holds one document, the Deployment of
15 replicas. -/
def scenarioHost : Host :=
  { Clean := fun path => path,
    NewLocalResourceLoader := Except.ok scenarioLoader,
    NewClusterResourceLoader := fun _ => Except.ok scenarioLoader,
    ReadFile := fun _ => Except.ok "kind: Deployment",
    Split := fun data _ => [data],
    YAMLToJSON := fun document => Except.ok document,
    UnmarshalJSON := fun _ => Except.ok (scenarioDeployment "default" 15),
    NewStringPrefix := fun _ => "00000000",
    GetKind := fun object => stringAt object "kind",
    GetAPIVersion := fun object => stringAt object "apiVersion",
    GetName := fun object =>
      match lookupPath (Value.map object) ["metadata", "name"] with
      | some (Value.str name) => name
      | _ => "",
    NewReporter := fun _ _ => scenarioReporter,
    NewPolicySimulator := Except.ok scenarioSimulator }

/-- The status that the check command reports for the Deployment of 15 replicas under
the policy of scenario A. -/
def scenarioCheckStatus (name resourceType : String) :
    kaptestv1.ValidatingAdmissionPolicyTestStatus :=
  { Results :=
      [{ Name := name, Success := false,
         Details :=
           "expected result (allowed=true) and actual result (allowed=false) does not match",
         ActualResponse := some
           { Allowed := false, Reason := "FailedValidation",
             Message := "failed expression: object.spec.replicas <= 10" },
         PolicyResults :=
           [{ PolicyName := "replica-limit", Allowed := false, Reason := "FailedValidation",
              Message := "failed expression: object.spec.replicas <= 10" }],
         Metadata := [("resourceType", resourceType)] }],
    Summary := { Total := 1, Successful := 0, Failed := 1 } }

end commands


namespace selector

open admission

/-! Lemmas on the loops -/

theorem cutAt_isPrefix_self (sep l : List Char) : strings.cutAt sep l <+: l := by
  induction l with
  | nil => simp [strings.cutAt]
  | cons c cs ih =>
    unfold strings.cutAt
    split
    · exact List.nil_prefix
    · exact (List.prefix_cons_inj c).2 ih

theorem cutAt_beta_alpha_append (t : List Char) :
    strings.cutAt "beta".data ("alpha".data ++ t) = "alpha".data ++ strings.cutAt "beta".data t := by
  have ha : "alpha".data = ['a', 'l', 'p', 'h', 'a'] := rfl
  have hb : "beta".data = ['b', 'e', 't', 'a'] := rfl
  rw [ha, hb]
  simp [strings.cutAt, List.isPrefixOf]

theorem cutAt_alpha_cutAt_beta (l : List Char) :
    strings.cutAt "alpha".data (strings.cutAt "beta".data l) = cutAtAlphaBeta l := by
  induction l with
  | nil => simp [strings.cutAt, cutAtAlphaBeta]
  | cons c cs ih =>
    by_cases hb : "beta".data.isPrefixOf (c :: cs) = true
    · simp [strings.cutAt, cutAtAlphaBeta, hb]
    · by_cases ha : "alpha".data.isPrefixOf (c :: cs) = true
      · obtain ⟨t, ht⟩ := List.isPrefixOf_iff_prefix.1 ha
        have h1 : strings.cutAt "alpha".data ("alpha".data ++ strings.cutAt "beta".data t) = [] := by
          have ha' : "alpha".data = ['a', 'l', 'p', 'h', 'a'] := rfl
          rw [ha']
          simp [strings.cutAt, List.isPrefixOf]
        rw [← ht, cutAt_beta_alpha_append, h1, ht]
        simp [cutAtAlphaBeta, ha]
      · have hpre : ¬ "alpha".data.isPrefixOf (c :: strings.cutAt "beta".data cs) = true := by
          intro h
          apply ha
          rw [ List.isPrefixOf_iff_prefix] at h ⊢
          exact h.trans ((List.prefix_cons_inj c).2 (cutAt_isPrefix_self _ cs))
        have e1 : strings.cutAt "beta".data (c :: cs) = c :: strings.cutAt "beta".data cs := by
          simp [strings.cutAt, hb]
        have e2 : strings.cutAt "alpha".data (c :: strings.cutAt "beta".data cs)
            = c :: strings.cutAt "alpha".data (strings.cutAt "beta".data cs) := by
          simp only [strings.cutAt, hpre, if_false]
          simp
        rw [e1, e2, ih]
        simp [cutAtAlphaBeta, ha, hb]

theorem hasPrefix_v (a : String) (h : strings.HasPrefix a "v" = true) :
    ∃ rest, a.data = 'v' :: rest := by
  unfold strings.HasPrefix at h
  obtain ⟨t, ht⟩ := List.isPrefixOf_iff_prefix.1 h
  exact ⟨t, ht.symm⟩

theorem specMajorToken_v (rest : List Char) :
    cutAtAlphaBeta ('v' :: rest) = 'v' :: cutAtAlphaBeta rest := by
  have ha : "alpha".data = ['a', 'l', 'p', 'h', 'a'] := rfl
  have hb : "beta".data = ['b', 'e', 't', 'a'] := rfl
  simp [cutAtAlphaBeta, ha, hb, List.isPrefixOf]

theorem areVersionsEquivalent_iff (a b : String) (ha : strings.HasPrefix a "v" = true)
    (hb : strings.HasPrefix b "v" = true) :
    areVersionsEquivalent a b = true ↔ specMajorToken a = specMajorToken b := by
  obtain ⟨ra, hra⟩ := hasPrefix_v a ha
  obtain ⟨rb, hrb⟩ := hasPrefix_v b hb
  have ea : strings.SplitFirst (strings.SplitFirst (strings.sliceFrom1 a) "beta") "alpha"
      = ⟨cutAtAlphaBeta ra⟩ := by
    unfold strings.SplitFirst strings.sliceFrom1
    rw [hra]
    show String.mk (strings.cutAt "alpha".data (strings.cutAt "beta".data ra)) = _
    rw [cutAt_alpha_cutAt_beta]
  have eb : strings.SplitFirst (strings.SplitFirst (strings.sliceFrom1 b) "beta") "alpha"
      = ⟨cutAtAlphaBeta rb⟩ := by
    unfold strings.SplitFirst strings.sliceFrom1
    rw [hrb]
    show String.mk (strings.cutAt "alpha".data (strings.cutAt "beta".data rb)) = _
    rw [cutAt_alpha_cutAt_beta]
  unfold areVersionsEquivalent specMajorToken
  rw [hra, hrb, specMajorToken_v, specMajorToken_v]
  simp only [ha, hb, Bool.and_self, if_true, ea, eb, beq_iff_eq, String.ext_iff,
    List.cons.injEq, true_and]

theorem Matches_policy (mr : MatchResources) :
    (match mr.MatchPolicy with
      | some p => if p == "Equivalent" then Equivalent else Exact
      | none => Exact) = specPolicy mr := by
  unfold specPolicy
  cases h : mr.MatchPolicy with
  | none => simp
  | some p => by_cases hp : p = "Equivalent" <;> simp [hp]

theorem Matches_eq (EqualFold : String → String → Bool) (mr : MatchResources)
    (t : AdmissionTarget) :
    Matches EqualFold (some mr) t =
      (((match mr.NamespaceSelector with
          | some sel => matchesNamespaceSelector sel t.Object
          | none => true)
        && (match mr.ObjectSelector with
          | some sel => matchesObjectSelector sel t.Object
          | none => true)
        && (mr.ResourceRules.isEmpty
          || matchesResourceRules EqualFold mr.ResourceRules t (specPolicy mr))
        && (mr.ExcludeResourceRules.isEmpty
          || !matchesResourceRules EqualFold mr.ExcludeResourceRules t (specPolicy mr))),
       none) := by
  simp only [Matches, Matches_policy]
  cases hn : mr.NamespaceSelector <;> cases ho : mr.ObjectSelector <;>
    cases hr : mr.ResourceRules <;> cases he : mr.ExcludeResourceRules <;>
    simp <;> (repeat' split) <;> simp_all

theorem specAllAxes_iff (EqualFold : String → String → Bool) (mr : MatchResources)
    (t : AdmissionTarget) :
    specAllAxes EqualFold mr t ↔
      ((match mr.NamespaceSelector with
          | some sel => matchesNamespaceSelector sel t.Object
          | none => true)
        && (match mr.ObjectSelector with
          | some sel => matchesObjectSelector sel t.Object
          | none => true)
        && (mr.ResourceRules.isEmpty
          || matchesResourceRules EqualFold mr.ResourceRules t (specPolicy mr))
        && (mr.ExcludeResourceRules.isEmpty
          || !matchesResourceRules EqualFold mr.ExcludeResourceRules t (specPolicy mr)))
        = true := by
  unfold specAllAxes
  cases hn : mr.NamespaceSelector <;> cases ho : mr.ObjectSelector <;>
    simp [List.isEmpty_iff, and_assoc]

theorem matchesOperationTypeLoop_iff (EqualFold : String → String → Bool)
    (operation : String) (operations : List String) :
    matchesOperationTypeLoop EqualFold operation operations = true ↔
      "*" ∈ operations ∨ ∃ op ∈ operations, EqualFold op operation = true := by
  induction operations with
  | nil => simp [matchesOperationTypeLoop]
  | cons op rest ih =>
    simp only [matchesOperationTypeLoop, List.mem_cons, List.exists_mem_cons_iff]
    by_cases h1 : op = "*"
    · simp [h1]
    · by_cases h2 : EqualFold op operation = true
      · simp [h2]
      · have h1' : ¬ "*" = op := fun h => h1 h.symm
        simp [h1, h1', h2, ih]

theorem matchesAPIGroupsLoop_iff (apiGroup : String) (apiGroups : List String) :
    matchesAPIGroupsLoop apiGroup apiGroups = true ↔
      "*" ∈ apiGroups ∨ apiGroup ∈ apiGroups := by
  induction apiGroups with
  | nil => simp [matchesAPIGroupsLoop]
  | cons group rest ih =>
    simp only [matchesAPIGroupsLoop, List.mem_cons]
    by_cases h1 : group = "*"
    · simp [h1]
    · by_cases h2 : group = apiGroup
      · simp [h2]
      · have h1' : ¬ "*" = group := fun h => h1 h.symm
        have h2' : ¬ apiGroup = group := fun h => h2 h.symm
        simp [h1, h1', h2, h2', ih]

theorem matchesResourceRulesLoop_iff (EqualFold : String → String → Bool)
    (t : AdmissionTarget) (p : MatchPolicy) (rules : List NamedRuleWithOperations) :
    matchesResourceRulesLoop EqualFold t p rules = true ↔
      ∃ rule ∈ rules, specRuleMatches EqualFold rule t p := by
  induction rules with
  | nil => simp [matchesResourceRulesLoop]
  | cons rule rest ih =>
    have hop : matchesOperationType EqualFold rule.Operations t.Operation = true ↔
        (rule.Operations = [] ∨ "*" ∈ rule.Operations ∨
          ∃ op ∈ rule.Operations, EqualFold op t.Operation = true) := by
      unfold matchesOperationType
      cases h : rule.Operations with
      | nil => simp
      | cons a l => rw [← h]; simp [h, matchesOperationTypeLoop_iff]
    have hgr : matchesAPIGroups rule.APIGroups t.APIGroup = true ↔
        (rule.APIGroups = [] ∨ "*" ∈ rule.APIGroups ∨ t.APIGroup ∈ rule.APIGroups) := by
      unfold matchesAPIGroups
      cases h : rule.APIGroups with
      | nil => simp
      | cons a l => rw [← h]; simp [h, matchesAPIGroupsLoop_iff]
    have hrule : specRuleMatches EqualFold rule t p ↔
        (matchesOperationType EqualFold rule.Operations t.Operation = true ∧
          matchesAPIGroups rule.APIGroups t.APIGroup = true ∧
          matchesAPIVersions rule.APIVersions t.APIVersion p = true ∧
          matchesResources rule.Resources t.Resource t.SubResource = true) := by
      unfold specRuleMatches
      rw [hop, hgr]
    simp only [matchesResourceRulesLoop, List.exists_mem_cons_iff, hrule, ← ih]
    cases matchesOperationType EqualFold rule.Operations t.Operation <;>
      cases matchesAPIGroups rule.APIGroups t.APIGroup <;>
      cases matchesAPIVersions rule.APIVersions t.APIVersion p <;>
      cases matchesResources rule.Resources t.Resource t.SubResource <;> simp

theorem matchesResourceRules_true_iff (EqualFold : String → String → Bool)
    (rules : List NamedRuleWithOperations) (t : AdmissionTarget) (p : MatchPolicy) :
    matchesResourceRules EqualFold rules t p = true ↔
      t.Resource ≠ "" ∧ t.Operation ≠ "" ∧
        ∃ rule ∈ rules, specRuleMatches EqualFold rule t p := by
  unfold matchesResourceRules
  cases rules with
  | nil => simp
  | cons r rs =>
    by_cases h1 : t.Resource = "" <;> by_cases h2 : t.Operation = "" <;>
      simp [h1, h2, matchesResourceRulesLoop_iff]

theorem append_slash_ne (r s : String) : ¬ r = r ++ "/" ++ s := by
  intro h
  have hl := congrArg String.length h
  simp [String.length_append] at hl
  have : ("/" : String).length = 1 := by decide
  omega

theorem hasPrefix_v_ne_star (a : String) (h : strings.HasPrefix a "v" = true) : a ≠ "*" := by
  obtain ⟨rest, hrest⟩ := hasPrefix_v a h
  intro hs
  rw [hs] at hrest
  have : ("*" : String).data = ['*'] := rfl
  rw [this] at hrest
  simp at hrest

theorem Value.eqString_iff (v : Value) (x : String) :
    v.eqString x = true ↔ v = Value.str x := by
  cases v <;> simp [Value.eqString]

theorem matchesNamespaceSelector_of_namespace (selector : LabelSelector) (object : Object)
    (n : String) (h : namespaceOf object = some n) :
    matchesNamespaceSelector selector object
      = selector.MatchExpressions.all (namespaceExprHolds n) := by
  unfold namespaceOf metadataOf at h
  unfold matchesNamespaceSelector
  cases hlk : List.lookup "metadata" object with
  | none => simp [hlk] at h
  | some v =>
    cases v with
    | map md =>
      simp only [hlk] at h ⊢
      cases hns : List.lookup "namespace" md with
      | none => simp [hns] at h
      | some w => cases w <;> simp_all
    | _ => simp [hlk] at h

theorem matchesNamespaceSelector_of_no_namespace (selector : LabelSelector) (object : Object)
    (h : namespaceOf object = none) :
    matchesNamespaceSelector selector object = (metadataOf object).isSome := by
  unfold namespaceOf at h
  unfold matchesNamespaceSelector
  unfold metadataOf at h ⊢
  cases hlk : List.lookup "metadata" object with
  | none => simp
  | some v =>
    cases v with
    | map md =>
      simp only [hlk] at h ⊢
      cases hns : List.lookup "namespace" md with
      | none => simp
      | some w => cases w <;> simp_all
    | _ => simp

theorem matchesObjectSelector_of_labels (selector : LabelSelector) (object L : Object)
    (h : labelsOf object = some L) :
    matchesObjectSelector selector object
      = (selector.MatchLabels.all (matchLabelHolds L)
          && selector.MatchExpressions.all (objectExprHolds L)) := by
  unfold labelsOf metadataOf at h
  unfold matchesObjectSelector
  cases hlk : List.lookup "metadata" object with
  | none => simp [hlk] at h
  | some v =>
    cases v with
    | map md =>
      simp only [hlk] at h ⊢
      cases hns : List.lookup "labels" md with
      | none => simp [hns] at h
      | some w => cases w <;> simp_all
    | _ => simp [hlk] at h

theorem matchesObjectSelector_of_no_labels (selector : LabelSelector) (object : Object)
    (h : labelsOf object = none) :
    matchesObjectSelector selector object
      = ((metadataOf object).isSome && selector.MatchLabels.isEmpty
          && selector.MatchExpressions.isEmpty) := by
  unfold labelsOf at h
  unfold matchesObjectSelector
  unfold metadataOf at h ⊢
  cases hlk : List.lookup "metadata" object with
  | none => simp
  | some v =>
    cases v with
    | map md =>
      simp only [hlk] at h ⊢
      cases hns : List.lookup "labels" md with
      | none => cases selector.MatchLabels <;> cases selector.MatchExpressions <;> simp
      | some w =>
        cases w <;> first
          | (simp [hns] at h; done)
          | (cases selector.MatchLabels <;> cases selector.MatchExpressions <;> simp)
    | _ => simp

theorem any_eq_iff_mem (n : String) (l : List String) :
    l.any (fun value => n == value) = true ↔ n ∈ l := by
  induction l with
  | nil => simp
  | cons a l ih => simp [List.any_cons, ih]

theorem namespaceExprHolds_iff (n : String) (e : LabelSelectorRequirement) :
    namespaceExprHolds n e = true ↔
      (e.Key = "kubernetes.io/metadata.name" →
        (e.Operator = "In" → n ∈ e.Values) ∧ (e.Operator = "NotIn" → n ∉ e.Values)) := by
  unfold namespaceExprHolds
  by_cases hk : e.Key = "kubernetes.io/metadata.name"
  · by_cases hi : e.Operator = "In"
    · simp [hk, hi, any_eq_iff_mem]
    · by_cases hn : e.Operator = "NotIn"
      · have hany := any_eq_iff_mem n e.Values
        cases hv : e.Values.any (fun value => n == value) <;> simp_all
      · simp [hk, hi, hn]
  · simp [hk]

theorem matchLabelHolds_iff (L : Object) (kv : String × String) :
    matchLabelHolds L kv = true ↔ L.lookup kv.1 = some (Value.str kv.2) := by
  unfold matchLabelHolds
  cases h : List.lookup kv.1 L with
  | none => simp
  | some v => simp [Value.eqString_iff]

theorem objectExprHolds_iff (L : Object) (e : LabelSelectorRequirement) :
    objectExprHolds L e = true ↔ specObjectExprHolds L e := by
  unfold objectExprHolds specObjectExprHolds
  by_cases h1 : e.Operator = "In"
  · cases h : List.lookup e.Key L <;> simp [h1, Value.eqString_iff]
  · by_cases h2 : e.Operator = "NotIn"
    · cases h : List.lookup e.Key L <;> simp [h2, Value.eqString_iff]
    · by_cases h3 : e.Operator = "Exists"
      · cases h : List.lookup e.Key L <;> simp [h3]
      · by_cases h4 : e.Operator = "DoesNotExist"
        · cases h : List.lookup e.Key L <;> simp [h4]
        · simp [h1, h2, h3, h4]

/-! Theorems -/

/-- C1: for a non-nil match specification, `Matches` returns `(true, nil)` exactly when
the namespace-selector, object-selector, resource-rule and exclude-rule axes all hold
(an absent selector or an empty rule list passes its axis), and `(false, nil)` in every
other case. -/
theorem Matches_true_iff_all_axes (EqualFold : String → String → Bool) (mr : MatchResources)
    (t : AdmissionTarget) :
    (Matches EqualFold (some mr) t = (true, none) ↔ specAllAxes EqualFold mr t) ∧
    (¬ specAllAxes EqualFold mr t → Matches EqualFold (some mr) t = (false, none)) := by
  rw [Matches_eq, specAllAxes_iff]
  constructor
  · simp
  · intro h
    simp only [Bool.not_eq_true] at h
    rw [h]

/-- C2: `matchesResourceRules` returns true exactly when the target's resource and
operation are both non-empty and some rule of the list satisfies the operation,
API-group, API-version and resource axes together; it is false whenever the resource or
the operation is empty. -/
theorem matchesResourceRules_spec (EqualFold : String → String → Bool)
    (rules : List NamedRuleWithOperations) (t : AdmissionTarget) (p : MatchPolicy) :
    (matchesResourceRules EqualFold rules t p = true ↔
      t.Resource ≠ "" ∧ t.Operation ≠ "" ∧
        ∃ rule ∈ rules, specRuleMatches EqualFold rule t p) ∧
    (t.Resource = "" ∨ t.Operation = "" →
      matchesResourceRules EqualFold rules t p = false) := by
  refine ⟨matchesResourceRules_true_iff EqualFold rules t p, ?_⟩
  rintro (h | h) <;> simp [matchesResourceRules, h]

/-- C3: on the resource list `["pods", "pods/status"]` and the target `pods/status` the
loop of `matchesResources` returns false at the bare name `pods`, before it reaches the
composed name; the same happens when `"*"` follows the bare name. -/
theorem matchesResources_bare_name_first :
    matchesResources ["pods", "pods/status"] "pods" "status" = false ∧
    matchesResources ["pods", "*"] "pods" "status" = false ∧
    matchesResources ["pods/status", "pods"] "pods" "status" = true ∧
    matchesResources ["*", "pods"] "pods" "status" = true := by
  decide

/-- C4: for a target with a non-empty subresource and a resource other than `"*"` (empty
or not), a
rule whose resource list is exactly the bare resource name fails the resource axis, and a
rule list made only of such rules does not match, whatever the other axes are. -/
theorem matchesResources_bare_name_only (r s : String) (hstar : r ≠ "*") (hs : s ≠ "") :
    matchesResources [r] r s = false ∧
    ∀ (EqualFold : String → String → Bool) (rules : List NamedRuleWithOperations)
      (t : AdmissionTarget) (p : MatchPolicy),
      t.Resource = r → t.SubResource = s → (∀ rule ∈ rules, rule.Resources = [r]) →
      matchesResourceRules EqualFold rules t p = false := by
  have h1 : matchesResources [r] r s = false := by
    simp [matchesResources, matchesResourcesLoop, hs, hstar, append_slash_ne]
  refine ⟨h1, ?_⟩
  intro EqualFold rules t p htr hts hall
  have h2 := matchesResourceRules_true_iff EqualFold rules t p
  cases hm : matchesResourceRules EqualFold rules t p with
  | false => rfl
  | true =>
    obtain ⟨_, _, rule, hmem, hrule⟩ := h2.1 hm
    have := hrule.2.2.2
    rw [hall rule hmem, htr, hts, h1] at this
    exact absurd this (by simp)

/-- Witness of C4: the target `pods/status` against rules listing only `pods`. -/
theorem matchesResources_bare_name_only_witness :
    matchesResources ["pods"] "pods" "status" = false ∧
    matchesResourceRules (fun a b => a == b)
      [{ Operations := ["*"], APIGroups := ["*"], APIVersions := ["*"], Resources := ["pods"] }]
      { Operation := "UPDATE", APIVersion := "v1", Resource := "pods", SubResource := "status" }
      Exact = false :=
  ⟨(matchesResources_bare_name_only "pods" "status" (by decide) (by decide)).1,
   (matchesResources_bare_name_only "pods" "status" (by decide) (by decide)).2
      _ _ _ _ rfl rfl (by simp)⟩

/-- C5: a match specification with an empty `resourceRules` list, no selectors and no
exclude rules matches every target, also one with an empty resource or operation. -/
theorem Matches_empty_resourceRules (EqualFold : String → String → Bool) (mr : MatchResources)
    (t : AdmissionTarget) (hrules : mr.ResourceRules = []) (hns : mr.NamespaceSelector = none)
    (hos : mr.ObjectSelector = none) (hex : mr.ExcludeResourceRules = []) :
    Matches EqualFold (some mr) t = (true, none) := by
  simp [Matches, hrules, hns, hos, hex]

/-- Witness of C5: the empty specification against a target with no resource and no
operation. -/
theorem Matches_empty_resourceRules_witness :
    Matches (fun a b => a == b) (some { ResourceRules := [] }) { } = (true, none) :=
  Matches_empty_resourceRules _ { ResourceRules := [] } { } rfl rfl rfl rfl

/-- C6: for a rule version `a` and a target version `b` that differ, both start with `v`
and have the same major token, `matchesAPIVersions [a] b` is true under `Equivalent` and
false under `Exact`; `Matches` with an unset `matchPolicy` behaves as with `Exact`, so a
specification whose only rule lists `[a]` does not match such a target. -/
theorem matchesAPIVersions_equivalent_vs_exact (a b : String) (hne : a ≠ b)
    (ha : strings.HasPrefix a "v" = true) (hb : strings.HasPrefix b "v" = true)
    (htok : specMajorToken a = specMajorToken b) :
    matchesAPIVersions [a] b Equivalent = true ∧
    matchesAPIVersions [a] b Exact = false ∧
    (∀ (EqualFold : String → String → Bool) (mr : MatchResources) (t : AdmissionTarget),
      mr.MatchPolicy = none →
      Matches EqualFold (some mr) t
        = Matches EqualFold (some { mr with MatchPolicy := some Exact }) t) ∧
    (∀ (EqualFold : String → String → Bool) (mr : MatchResources) (t : AdmissionTarget)
      (rule : NamedRuleWithOperations),
      mr.MatchPolicy = none → mr.ResourceRules = [rule] → rule.APIVersions = [a] →
      t.APIVersion = b → Matches EqualFold (some mr) t = (false, none)) := by
  have hstar : a ≠ "*" := hasPrefix_v_ne_star a ha
  have heq : areVersionsEquivalent a b = true := (areVersionsEquivalent_iff a b ha hb).2 htok
  have hexact : matchesAPIVersions [a] b Exact = false := by
    simp [matchesAPIVersions, matchesAPIVersionsLoop, hstar, hne, Exact, Equivalent]
  refine ⟨?_, hexact, ?_, ?_⟩
  · simp [matchesAPIVersions, matchesAPIVersionsLoop, hstar, hne, heq]
  · intro EqualFold mr t hp
    rw [Matches_eq, Matches_eq]
    simp [specPolicy, hp, Exact]
  · intro EqualFold mr t rule hp hrules hver htv
    rw [Matches_eq]
    have hpol : specPolicy mr = Exact := by simp [specPolicy, hp]
    have hno : matchesResourceRules EqualFold mr.ResourceRules t (specPolicy mr) = false := by
      cases hm : matchesResourceRules EqualFold mr.ResourceRules t (specPolicy mr) with
      | false => rfl
      | true =>
        obtain ⟨_, _, r, hmem, hr⟩ := (matchesResourceRules_true_iff _ _ _ _).1 hm
        rw [hrules, List.mem_singleton] at hmem
        have hv := hr.2.2.1
        rw [hmem, hver, htv, hpol, hexact] at hv
        exact absurd hv (by simp)
    rw [hno, hrules]
    simp

/-- Witness of C6: the rule version `v1beta1` against the target version `v1`. -/
theorem matchesAPIVersions_equivalent_vs_exact_witness :
    matchesAPIVersions ["v1beta1"] "v1" Equivalent = true ∧
    matchesAPIVersions ["v1beta1"] "v1" Exact = false :=
  ⟨(matchesAPIVersions_equivalent_vs_exact "v1beta1" "v1" (by decide) (by decide) (by decide)
      (by decide)).1,
   (matchesAPIVersions_equivalent_vs_exact "v1beta1" "v1" (by decide) (by decide) (by decide)
      (by decide)).2.1⟩

/-- C7, as stated, fails: an object without a `metadata` map carries no namespace, yet
`matchesNamespaceSelector` returns false on it. -/
theorem matchesNamespaceSelector_no_metadata :
    namespaceOf [("apiVersion", Value.str "v1"), ("kind", Value.str "Namespace")] = none ∧
    matchesNamespaceSelector { }
      [("apiVersion", Value.str "v1"), ("kind", Value.str "Namespace")] = false := by
  decide

/-- C7, amended: on an object carrying no namespace, `matchesNamespaceSelector` returns
true when the object has a `metadata` map and false when it has none. -/
theorem matchesNamespaceSelector_no_namespace (selector : LabelSelector) (object : Object)
    (h : namespaceOf object = none) :
    matchesNamespaceSelector selector object = (metadataOf object).isSome :=
  matchesNamespaceSelector_of_no_namespace selector object h

/-- Witness of C7, amended: a cluster-scoped object with a name and no namespace. -/
theorem matchesNamespaceSelector_no_namespace_witness :
    matchesNamespaceSelector
      { MatchExpressions :=
          [{ Key := "kubernetes.io/metadata.name", Operator := "In", Values := ["prod"] }] }
      [("kind", Value.str "Namespace"), ("metadata", Value.map [("name", Value.str "dev")])]
      = true :=
  matchesNamespaceSelector_no_namespace _ _ (by decide)

/-- C8: on an object whose namespace is `n`, `matchesNamespaceSelector` returns true
exactly when every expression on the key `kubernetes.io/metadata.name` with operator `In`
lists `n` and every such expression with operator `NotIn` does not; `matchLabels`,
expressions on other keys and expressions with other operators do not change the
result. -/
theorem matchesNamespaceSelector_iff (selector : LabelSelector) (object : Object) (n : String)
    (h : namespaceOf object = some n) :
    (matchesNamespaceSelector selector object = true ↔
      ∀ e ∈ selector.MatchExpressions, e.Key = "kubernetes.io/metadata.name" →
        (e.Operator = "In" → n ∈ e.Values) ∧ (e.Operator = "NotIn" → n ∉ e.Values)) ∧
    matchesNamespaceSelector selector object
      = matchesNamespaceSelector
          { MatchLabels := [],
            MatchExpressions := selector.MatchExpressions.filter (fun e =>
              e.Key == "kubernetes.io/metadata.name"
                && (e.Operator == "In" || e.Operator == "NotIn")) }
          object := by
  rw [matchesNamespaceSelector_of_namespace _ _ n h, matchesNamespaceSelector_of_namespace _ _ n h]
  constructor
  · simp only [List.all_eq_true, namespaceExprHolds_iff]
  · rw [Bool.eq_iff_iff]
    simp only [List.all_eq_true, namespaceExprHolds_iff, List.mem_filter, Bool.and_eq_true,
      Bool.or_eq_true, beq_iff_eq]
    constructor
    · intro hall e he hk
      exact hall e he.1 hk
    · intro hall e he hk
      refine ⟨fun hi => ((hall e ⟨he, hk, Or.inl hi⟩) hk).1 hi,
        fun hn => ((hall e ⟨he, hk, Or.inr hn⟩) hk).2 hn⟩

/-- Witness of C8: a pod in `default` against a `NotIn` list that names `default`. -/
theorem matchesNamespaceSelector_iff_witness :
    matchesNamespaceSelector
      { MatchLabels := [("team", "a")],
        MatchExpressions :=
          [{ Key := "kubernetes.io/metadata.name", Operator := "NotIn",
             Values := ["kube-system", "default"] }] }
      [("metadata", Value.map [("namespace", Value.str "default")])]
      = matchesNamespaceSelector
          { MatchLabels := [],
            MatchExpressions :=
              [{ Key := "kubernetes.io/metadata.name", Operator := "NotIn",
                 Values := ["kube-system", "default"] }] }
          [("metadata", Value.map [("namespace", Value.str "default")])] :=
  (matchesNamespaceSelector_iff _ _ "default" (by decide)).2

/-- C9: on an object whose labels are `L`, `matchesObjectSelector` returns true exactly
when every `matchLabels` entry `(k, v)` has `k` in `L` with the string value `v` and every
`matchExpression` holds (`In`: key present with its value among the values; `NotIn`: key
absent or its value not among the values; `Exists`: key present; `DoesNotExist`: key
absent). -/
theorem matchesObjectSelector_iff (selector : LabelSelector) (object L : Object)
    (h : labelsOf object = some L) :
    matchesObjectSelector selector object = true ↔
      (∀ kv ∈ selector.MatchLabels, L.lookup kv.1 = some (Value.str kv.2)) ∧
      ∀ e ∈ selector.MatchExpressions, specObjectExprHolds L e := by
  rw [matchesObjectSelector_of_labels _ _ L h]
  simp only [Bool.and_eq_true, List.all_eq_true, matchLabelHolds_iff, objectExprHolds_iff]

/-- Witness of C9: the labels `app=nginx, tier=frontend` against a selector with one
label and one `NotIn` expression. -/
theorem matchesObjectSelector_iff_witness :
    matchesObjectSelector
      { MatchLabels := [("app", "nginx")],
        MatchExpressions := [{ Key := "tier", Operator := "NotIn", Values := ["backend"] }] }
      [("metadata", Value.map [("labels",
        Value.map [("app", Value.str "nginx"), ("tier", Value.str "frontend")])])] = true ↔
      (∀ kv ∈ [(("app", "nginx") : String × String)],
        List.lookup kv.1 [("app", Value.str "nginx"), ("tier", Value.str "frontend")]
          = some (Value.str kv.2)) ∧
      ∀ e ∈ [({ Key := "tier", Operator := "NotIn", Values := ["backend"] } :
          LabelSelectorRequirement)],
        specObjectExprHolds [("app", Value.str "nginx"), ("tier", Value.str "frontend")] e :=
  matchesObjectSelector_iff _ _ _ rfl

/-- C10, as stated, fails: an object without a `metadata` map carries no labels and the
empty selector declares no constraints, yet `matchesObjectSelector` returns false. -/
theorem matchesObjectSelector_no_metadata :
    labelsOf [("apiVersion", Value.str "v1"), ("kind", Value.str "Pod")] = none ∧
    ({ } : LabelSelector).MatchLabels = [] ∧ ({ } : LabelSelector).MatchExpressions = [] ∧
    matchesObjectSelector { }
      [("apiVersion", Value.str "v1"), ("kind", Value.str "Pod")] = false :=
  ⟨rfl, rfl, rfl, rfl⟩

/-- C10, amended: on an object carrying no labels, `matchesObjectSelector` returns true
exactly when the object has a `metadata` map and the selector has no `matchLabels` and no
`matchExpressions`; without a `metadata` map it returns false. -/
theorem matchesObjectSelector_no_labels (selector : LabelSelector) (object : Object)
    (h : labelsOf object = none) :
    (matchesObjectSelector selector object = true ↔
      (metadataOf object).isSome = true ∧
        selector.MatchLabels = [] ∧ selector.MatchExpressions = []) ∧
    (metadataOf object = none → matchesObjectSelector selector object = false) := by
  rw [matchesObjectSelector_of_no_labels selector object h]
  constructor
  · simp [List.isEmpty_iff, and_assoc]
  · intro hm
    simp [hm]

/-- Witness of C10, amended: an object with a name and no labels against the empty
selector. -/
theorem matchesObjectSelector_no_labels_witness :
    matchesObjectSelector { } [("metadata", Value.map [("name", Value.str "web")])] = true :=
  ((matchesObjectSelector_no_labels { }
      [("metadata", Value.map [("name", Value.str "web")])] rfl).1).2 ⟨rfl, rfl, rfl⟩

end selector

namespace engine

/-! Lemmas on the validation pipeline -/

theorem evaluateMatchConditions_append_true (fmt : Printer) (v : PolicyValidator)
    (pre rest : List MatchCondition)
    (hpre : ∀ c ∈ pre,
      v.celEvaluator.Evaluate c.Expression v.contextVars = Except.ok (Value.bool true)) :
    evaluateMatchConditions fmt v (pre ++ rest)
      = ((evaluateMatchConditions fmt v rest).1,
          pre.map (fun c => (c.Expression, v.contextVars))
            ++ (evaluateMatchConditions fmt v rest).2) := by
  induction pre with
  | nil => simp
  | cons c cs ih =>
    have hc := hpre c (List.mem_cons_self c cs)
    have hcs := ih (fun d hd => hpre d (List.mem_cons_of_mem c hd))
    rw [List.cons_append, evaluateMatchConditions, hc]
    simp only [Value.asBool]
    rw [hcs]
    simp

theorem variables_step (v : PolicyValidator) (policy : ValidatingAdmissionPolicy) :
    (if policy.Spec.Variables.length > 0 then evaluateVariables v policy
      else ((some [], none), []))
      = evaluateVariablesLoop v [] policy.Spec.Variables := by
  unfold evaluateVariables
  cases h : policy.Spec.Variables with
  | nil => simp [evaluateVariablesLoop]
  | cons a l => simp

theorem ValidatePolicy_of_conditions_pass (fmt : Printer) (v : PolicyValidator)
    (policy : ValidatingAdmissionPolicy) (collectAllViolations : Bool)
    (h : (evaluateMatchConditions fmt v policy.Spec.MatchConditions).1 = (true, none)) :
    ValidatePolicy fmt v policy collectAllViolations
      = validateAfterMatch fmt v policy collectAllViolations
          (evaluateMatchConditions fmt v policy.Spec.MatchConditions).2 := by
  unfold ValidatePolicy
  cases hc : policy.Spec.MatchConditions with
  | nil => simp [evaluateMatchConditions]
  | cons c cs =>
    rw [hc] at h
    simp [h]

theorem ValidatePolicy_of_reaches (fmt : Printer) (v : PolicyValidator)
    (policy : ValidatingAdmissionPolicy) (collectAllViolations : Bool) (vv : Object)
    (h : specReachesValidations fmt v policy vv) (hval : policy.Spec.Validations ≠ []) :
    ValidatePolicy fmt v policy collectAllViolations
      = (NewValidationResult
          ((validationsLoop fmt v (some vv) collectAllViolations
            policy.Spec.Validations).1.length == 0)
          (validationsLoop fmt v (some vv) collectAllViolations policy.Spec.Validations).1,
        (evaluateMatchConditions fmt v policy.Spec.MatchConditions).2
          ++ (evaluateVariablesLoop v [] policy.Spec.Variables).2
          ++ (validationsLoop fmt v (some vv) collectAllViolations
            policy.Spec.Validations).2) := by
  rw [ValidatePolicy_of_conditions_pass fmt v policy collectAllViolations h.1]
  unfold validateAfterMatch
  have hlen : ¬ policy.Spec.Validations.length = 0 := by
    intro h0
    exact hval (List.length_eq_zero.1 h0)
  simp only [beq_iff_eq, hlen, if_false, variables_step, h.2]

theorem ValidatePolicy_result_of_reaches (fmt : Printer) (v : PolicyValidator)
    (policy : ValidatingAdmissionPolicy) (collectAllViolations : Bool) (vv : Object)
    (h : specReachesValidations fmt v policy vv) :
    (ValidatePolicy fmt v policy collectAllViolations).1
      = NewValidationResult
          ((validationsLoop fmt v (some vv) collectAllViolations
            policy.Spec.Validations).1.length == 0)
          (validationsLoop fmt v (some vv) collectAllViolations policy.Spec.Validations).1 := by
  by_cases hval : policy.Spec.Validations = []
  · rw [ValidatePolicy_of_conditions_pass fmt v policy collectAllViolations h.1]
    simp [validateAfterMatch, hval, validationsLoop]
  · rw [ValidatePolicy_of_reaches fmt v policy collectAllViolations vv h hval]

theorem validationResult_allowed_iff (fmt : Printer) (v : PolicyValidator)
    (policy : ValidatingAdmissionPolicy) (collectAllViolations : Bool) :
    (ValidatePolicy fmt v policy collectAllViolations).1.allowed
      = (ValidatePolicy fmt v policy collectAllViolations).1.violations.isEmpty := by
  have hafter : ∀ calls,
      (validateAfterMatch fmt v policy collectAllViolations calls).1.allowed
        = (validateAfterMatch fmt v policy collectAllViolations calls).1.violations.isEmpty := by
    intro calls
    unfold validateAfterMatch
    split
    · simp [NewValidationResult]
    · simp only [variables_step]
      split
      · simp [NewValidationResult]
      · simp only [NewValidationResult]
        cases (validationsLoop fmt v (evaluateVariablesLoop v [] policy.Spec.Variables).1.1
          collectAllViolations policy.Spec.Validations).1 <;> simp
  unfold ValidatePolicy
  split
  · split
    · simp [NewValidationResult]
    · split
      · simp [NewValidationResult]
      · exact hafter _
  · exact hafter _

theorem bindResults_cons (acc : Object) (var : Variable) (vs : List Variable) (r : Value)
    (rs : List Value) :
    bindResults acc (var :: vs) (r :: rs) = bindResults (mapSet acc var.Name r) vs rs := by
  simp [bindResults]

theorem evaluateVariablesLoop_of_results (v : PolicyValidator) :
    ∀ (vars : List Variable) (acc : Object) (results : List Value),
      results.length ≤ vars.length →
      (∀ i, i < results.length →
        v.celEvaluator.Evaluate (vars.getD i { }).Expression
            (mapSet v.contextVars "variables"
              (Value.map (bindResults acc (vars.take i) (results.take i))))
          = Except.ok (results.getD i Value.null)) →
      evaluateVariablesLoop v acc vars
        = ((evaluateVariablesLoop v (bindResults acc vars results)
              (vars.drop results.length)).1,
            (List.range results.length).map
                (fun i => ((vars.getD i { }).Expression,
                  mapSet v.contextVars "variables"
                    (Value.map (bindResults acc (vars.take i) (results.take i)))))
              ++ (evaluateVariablesLoop v (bindResults acc vars results)
                (vars.drop results.length)).2) := by
  intro vars
  induction vars with
  | nil =>
    intro acc results hlen _
    have hr : results = [] := List.length_eq_zero.1 (Nat.le_zero.1 hlen)
    subst hr
    simp [bindResults]
  | cons var vs ih =>
    intro acc results hlen h
    cases results with
    | nil => simp [bindResults]
    | cons r rs =>
      have h0 := h 0 (by simp)
      simp only [List.getD_cons_zero, List.take_zero, bindResults, List.zip_nil_right,
        List.foldl_nil] at h0
      have hlen' : rs.length ≤ vs.length := by simpa using hlen
      have hrest := ih (mapSet acc var.Name r) rs hlen' (by
        intro i hi
        have hi' := h (i + 1) (by simpa using hi)
        simpa [bindResults_cons] using hi')
      rw [evaluateVariablesLoop, h0]
      simp only [bindResults_cons, List.length_cons, List.drop_succ_cons]
      rw [hrest]
      simp [List.range_succ_eq_map, bindResults_cons, bindResults, Function.comp_def]

theorem drop_eq_getD_cons (vars : List Variable) (n : Nat) (h : n < vars.length) :
    vars.drop n = vars.getD n { } :: vars.drop (n + 1) := by
  rw [List.drop_eq_getElem_cons h]
  simp [List.getD_eq_getElem?_getD, List.getElem?_eq_getElem h]

theorem bindResults_take (acc : Object) (vars : List Variable) (results : List Value) :
    bindResults acc (vars.take results.length) (results.take results.length)
      = bindResults acc vars results := by
  unfold bindResults
  have hz : (vars.take results.length).zip (results.take results.length)
      = (vars.zip results).take results.length := by
    simp only [List.zip, List.take_zipWith]
  rw [hz]
  congr 1
  apply List.take_of_length_le
  simp [List.length_zip]

theorem bindResults_take_left (acc : Object) (vars : List Variable) (results : List Value) :
    bindResults acc (vars.take results.length) results = bindResults acc vars results := by
  have h := bindResults_take acc vars results
  rwa [List.take_length] at h


theorem evaluateValidation_fst (v : PolicyValidator) (validation : Validation) (vv : Object) :
    (evaluateValidation v validation (some vv)).1
      = v.celEvaluator.Evaluate validation.Expression
          (specValidationBindings v.contextVars vv) := rfl

theorem evaluateValidation_snd (v : PolicyValidator) (validation : Validation) (vv : Object) :
    (evaluateValidation v validation (some vv)).2
      = [(validation.Expression, specValidationBindings v.contextVars vv)] := rfl

theorem validationsLoop_true_forall2 (fmt : Printer) (v : PolicyValidator) (vv : Object)
    (validations : List Validation) :
    List.Forall₂
      (fun (validation : Validation) (violation : Violation) =>
        violation.Expression = validation.Expression ∧
          (specValidationIsFalse v vv validation = false →
            violation.Reason = "FailedValidation"))
      (validations.filter (fun validation => !specValidationPasses v vv validation))
      (validationsLoop fmt v (some vv) true validations).1 := by
  induction validations with
  | nil => simp [validationsLoop]
  | cons validation rest ih =>
    rw [validationsLoop, evaluateValidation_fst]
    cases h : v.celEvaluator.Evaluate validation.Expression
        (specValidationBindings v.contextVars vv) with
    | error err =>
      have hp : specValidationPasses v vv validation = false := by
        simp [specValidationPasses, h]
      simp only [List.filter_cons, hp, Bool.not_false, if_true, Bool.not_true,
        Bool.false_eq_true, if_false]
      exact List.Forall₂.cons ⟨rfl, fun _ => rfl⟩ ih
    | ok result =>
      cases result with
      | bool b =>
        cases b with
        | true =>
          have hp : specValidationPasses v vv validation = true := by
            simp [specValidationPasses, h]
          simpa [List.filter_cons, hp, Value.asBool] using ih
        | false =>
          have hp : specValidationPasses v vv validation = false := by
            simp [specValidationPasses, h]
          have hf : specValidationIsFalse v vv validation = true := by
            simp [specValidationIsFalse, h]
          simp only [List.filter_cons, hp, Bool.not_false, if_true, Value.asBool,
            Bool.not_true, Bool.false_eq_true, if_false]
          exact List.Forall₂.cons ⟨rfl, fun hc => by rw [hf] at hc; cases hc⟩ ih
      | null =>
        have hp : specValidationPasses v vv validation = false := by
          simp [specValidationPasses, h]
        simp only [List.filter_cons, hp, Bool.not_false, if_true, Value.asBool,
          Bool.not_true, Bool.false_eq_true, if_false]
        exact List.Forall₂.cons ⟨rfl, fun _ => rfl⟩ ih
      | num n =>
        have hp : specValidationPasses v vv validation = false := by
          simp [specValidationPasses, h]
        simp only [List.filter_cons, hp, Bool.not_false, if_true, Value.asBool,
          Bool.not_true, Bool.false_eq_true, if_false]
        exact List.Forall₂.cons ⟨rfl, fun _ => rfl⟩ ih
      | str s =>
        have hp : specValidationPasses v vv validation = false := by
          simp [specValidationPasses, h]
        simp only [List.filter_cons, hp, Bool.not_false, if_true, Value.asBool,
          Bool.not_true, Bool.false_eq_true, if_false]
        exact List.Forall₂.cons ⟨rfl, fun _ => rfl⟩ ih
      | list xs =>
        have hp : specValidationPasses v vv validation = false := by
          simp [specValidationPasses, h]
        simp only [List.filter_cons, hp, Bool.not_false, if_true, Value.asBool,
          Bool.not_true, Bool.false_eq_true, if_false]
        exact List.Forall₂.cons ⟨rfl, fun _ => rfl⟩ ih
      | map kvs =>
        have hp : specValidationPasses v vv validation = false := by
          simp [specValidationPasses, h]
        simp only [List.filter_cons, hp, Bool.not_false, if_true, Value.asBool,
          Bool.not_true, Bool.false_eq_true, if_false]
        exact List.Forall₂.cons ⟨rfl, fun _ => rfl⟩ ih

theorem validationsLoop_true_calls (fmt : Printer) (v : PolicyValidator) (vv : Object)
    (validations : List Validation) :
    ∀ validation ∈ validations,
      (validation.Expression, specValidationBindings v.contextVars vv)
        ∈ (validationsLoop fmt v (some vv) true validations).2 := by
  induction validations with
  | nil => intro validation h; cases h
  | cons head rest ih =>
    intro validation hmem
    have hhead : (head.Expression, specValidationBindings v.contextVars vv)
        ∈ (validationsLoop fmt v (some vv) true (head :: rest)).2 := by
      rw [validationsLoop]
      split
      · simp [evaluateValidation_snd]
      · split
        · simp [evaluateValidation_snd]
        · split <;> simp [evaluateValidation_snd]
    have htail : ∀ c, c ∈ (validationsLoop fmt v (some vv) true rest).2 →
        c ∈ (validationsLoop fmt v (some vv) true (head :: rest)).2 := by
      intro c hc
      rw [validationsLoop]
      split
      · simp [hc]
      · split
        · simp [hc]
        · split <;> simp [hc]
    rcases List.mem_cons.1 hmem with h | h
    · rw [h]; exact hhead
    · exact htail _ (ih validation h)

theorem validationsLoop_false_take (fmt : Printer) (v : PolicyValidator)
    (variableValues : Option Object) (validations : List Validation) :
    (validationsLoop fmt v variableValues false validations).1
      = (validationsLoop fmt v variableValues true validations).1.take 1 := by
  induction validations with
  | nil => simp [validationsLoop]
  | cons head rest ih =>
    rw [validationsLoop, validationsLoop]
    split
    · simp
    · split
      · simp
      · split
        · simp
        · simpa using ih

theorem validateAfterMatch_false_take (fmt : Printer) (v : PolicyValidator)
    (policy : ValidatingAdmissionPolicy) (calls : List Call) :
    (validateAfterMatch fmt v policy false calls).1.allowed
        = (validateAfterMatch fmt v policy true calls).1.allowed ∧
      (validateAfterMatch fmt v policy false calls).1.violations
        = (validateAfterMatch fmt v policy true calls).1.violations.take 1 := by
  unfold validateAfterMatch
  split
  · simp [NewValidationResult]
  · simp only [variables_step]
    split
    · simp [NewValidationResult]
    · simp only [NewValidationResult, validationsLoop_false_take fmt v _ policy.Spec.Validations]
      cases (validationsLoop fmt v (evaluateVariablesLoop v [] policy.Spec.Variables).1.1 true
        policy.Spec.Validations).1 <;> simp


theorem validationsLoop_true_append (fmt : Printer) (v : PolicyValidator)
    (variableValues : Option Object) (pre rest : List Validation) :
    validationsLoop fmt v variableValues true (pre ++ rest)
      = ((validationsLoop fmt v variableValues true pre).1
            ++ (validationsLoop fmt v variableValues true rest).1,
          (validationsLoop fmt v variableValues true pre).2
            ++ (validationsLoop fmt v variableValues true rest).2) := by
  induction pre with
  | nil => simp [validationsLoop]
  | cons head tail ih =>
    rw [List.cons_append, validationsLoop, validationsLoop, ih]
    split
    · simp
    · split
      · simp
      · split <;> simp

theorem validationsLoop_true_of_false (fmt : Printer) (v : PolicyValidator) (vv : Object)
    (validation : Validation) (post : List Validation)
    (hfalse : v.celEvaluator.Evaluate validation.Expression
        (specValidationBindings v.contextVars vv) = Except.ok (Value.bool false)) :
    (validationsLoop fmt v (some vv) true (validation :: post)).1
      = failedViolation fmt v validation (some vv)
          :: (validationsLoop fmt v (some vv) true post).1 := by
  rw [validationsLoop, evaluateValidation_fst, hfalse]
  simp [Value.asBool]

theorem violations_of_false (fmt : Printer) (v : PolicyValidator)
    (policy : ValidatingAdmissionPolicy) (vv : Object) (pre post : List Validation)
    (validation : Validation)
    (hreach : specReachesValidations fmt v policy vv)
    (hvals : policy.Spec.Validations = pre ++ validation :: post)
    (hfalse : v.celEvaluator.Evaluate validation.Expression
        (specValidationBindings v.contextVars vv) = Except.ok (Value.bool false)) :
    (ValidatePolicy fmt v policy true).1.GetViolations
      = (validationsLoop fmt v (some vv) true pre).1
          ++ failedViolation fmt v validation (some vv)
            :: (validationsLoop fmt v (some vv) true post).1 := by
  rw [ValidatePolicy_result_of_reaches fmt v policy true vv hreach, hvals,
    validationsLoop_true_append, validationsLoop_true_of_false fmt v vv validation post hfalse]
  rfl

theorem first_violation_of_false (fmt : Printer) (v : PolicyValidator)
    (policy : ValidatingAdmissionPolicy) (vv : Object) (pre post : List Validation)
    (validation : Validation)
    (hreach : specReachesValidations fmt v policy vv)
    (hvals : policy.Spec.Validations = pre ++ validation :: post)
    (hfalse : v.celEvaluator.Evaluate validation.Expression
        (specValidationBindings v.contextVars vv) = Except.ok (Value.bool false))
    (hpre : (validationsLoop fmt v (some vv) true pre).1 = []) :
    (ValidatePolicy fmt v policy false).1
      = NewValidationResult false [failedViolation fmt v validation (some vv)] := by
  rw [ValidatePolicy_result_of_reaches fmt v policy false vv hreach,
    validationsLoop_false_take, hvals, validationsLoop_true_append,
    validationsLoop_true_of_false fmt v vv validation post hfalse, hpre]
  rfl

theorem evaluateMessage_of_expression (fmt : Printer) (v : PolicyValidator)
    (validation : Validation) (vv : Object) (h : validation.MessageExpression ≠ "") :
    evaluateMessage fmt v validation (some vv)
      = (match v.celEvaluator.Evaluate validation.MessageExpression
            (specMessageBindings v.contextVars vv) with
          | Except.error err =>
            (Except.error ("failed to evaluate messageExpression: " ++ err),
              [(validation.MessageExpression, specMessageBindings v.contextVars vv)])
          | Except.ok result =>
            match result.asString with
            | none =>
              (Except.error
                  ("messageExpression must evaluate to a string, got " ++ fmt.T result),
                [(validation.MessageExpression, specMessageBindings v.contextVars vv)])
            | some message =>
              if strings.TrimSpace message == "" || strings.Contains message "\n" then
                (Except.error
                  "messageExpression produced invalid message: empty, whitespace-only, or contains line breaks",
                  [(validation.MessageExpression, specMessageBindings v.contextVars vv)])
              else
                (Except.ok message,
                  [(validation.MessageExpression, specMessageBindings v.contextVars vv)])) := by
  unfold evaluateMessage
  simp only [bne_iff_ne, ne_eq, h, not_false_eq_true, if_true]
  rfl

theorem evaluateMessage_fails (fmt : Printer) (v : PolicyValidator)
    (validation : Validation) (vv : Object) (h : validation.MessageExpression ≠ "")
    (hfail : specMessageExpressionFails v vv validation) :
    ∃ err, (evaluateMessage fmt v validation (some vv)).1 = Except.error err := by
  rw [evaluateMessage_of_expression fmt v validation vv h]
  unfold specMessageExpressionFails at hfail
  cases hev : v.celEvaluator.Evaluate validation.MessageExpression
      (specMessageBindings v.contextVars vv) with
  | error err => exact ⟨_, rfl⟩
  | ok result =>
    rw [hev] at hfail
    cases result with
    | str message =>
      simp only [Value.asString]
      simp only at hfail
      have hc : (strings.TrimSpace message == "" || strings.Contains message "\n") = true := by
        rcases hfail with h1 | h1
        · simp [h1]
        · simp [h1]
      rw [if_pos hc]
      exact ⟨_, rfl⟩
    | null => exact ⟨_, rfl⟩
    | bool b => exact ⟨_, rfl⟩
    | num n => exact ⟨_, rfl⟩
    | list xs => exact ⟨_, rfl⟩
    | map kvs => exact ⟨_, rfl⟩

theorem failedViolation_message_fallback (fmt : Printer) (v : PolicyValidator)
    (validation : Validation) (variableValues : Option Object) (err : Error)
    (h : (evaluateMessage fmt v validation variableValues).1 = Except.error err) :
    (failedViolation fmt v validation variableValues).Message
      = specFallbackMessage validation := by
  unfold failedViolation specFallbackMessage
  simp only [h]
  by_cases hm : validation.Message = "" <;> simp [hm]

theorem evaluateMessage_of_no_expression (fmt : Printer) (v : PolicyValidator)
    (validation : Validation) (variableValues : Option Object)
    (h : validation.MessageExpression = "") :
    evaluateMessage fmt v validation variableValues
      = (Except.ok (specFallbackMessage validation), []) := by
  unfold evaluateMessage specFallbackMessage
  by_cases hm : validation.Message = "" <;> simp [h, hm]


theorem evaluateMessage_calls (fmt : Printer) (v : PolicyValidator) (validation : Validation)
    (vv : Object) :
    ∀ call ∈ (evaluateMessage fmt v validation (some vv)).2,
      call = (validation.MessageExpression, specMessageBindings v.contextVars vv) := by
  intro call h
  by_cases hm : validation.MessageExpression = ""
  · rw [evaluateMessage_of_no_expression fmt v validation _ hm] at h
    cases h
  · rw [evaluateMessage_of_expression fmt v validation vv hm] at h
    split at h
    · simpa using h
    · split at h
      · simpa using h
      · split at h <;> simpa using h

theorem validationsLoop_head_call (fmt : Printer) (v : PolicyValidator) (vv : Object)
    (collectAllViolations : Bool) (head : Validation) (rest : List Validation) :
    (head.Expression, specValidationBindings v.contextVars vv)
      ∈ (validationsLoop fmt v (some vv) collectAllViolations (head :: rest)).2 := by
  rw [validationsLoop]
  repeat' split
  all_goals simp [evaluateValidation_snd]

theorem validationsLoop_calls_shape (fmt : Printer) (v : PolicyValidator) (vv : Object)
    (collectAllViolations : Bool) :
    ∀ validations : List Validation,
      ∀ call ∈ (validationsLoop fmt v (some vv) collectAllViolations validations).2,
        ∃ validation ∈ validations,
          call = (validation.Expression, specValidationBindings v.contextVars vv) ∨
          call = (validation.MessageExpression, specMessageBindings v.contextVars vv) := by
  intro validations
  induction validations with
  | nil =>
    intro call h
    simp [validationsLoop] at h
  | cons head rest ih =>
    intro call h
    have hrest : call ∈ (validationsLoop fmt v (some vv) collectAllViolations rest).2 →
        ∃ validation ∈ head :: rest,
          call = (validation.Expression, specValidationBindings v.contextVars vv) ∨
          call = (validation.MessageExpression, specMessageBindings v.contextVars vv) := by
      intro hc
      obtain ⟨w, hw, hor⟩ := ih call hc
      exact ⟨w, List.mem_cons_of_mem _ hw, hor⟩
    have hhead : call ∈ (evaluateValidation v head (some vv)).2 →
        ∃ validation ∈ head :: rest,
          call = (validation.Expression, specValidationBindings v.contextVars vv) ∨
          call = (validation.MessageExpression, specMessageBindings v.contextVars vv) := by
      intro hc
      rw [evaluateValidation_snd] at hc
      exact ⟨head, List.mem_cons_self _ _, Or.inl (List.mem_singleton.1 hc)⟩
    have hmsg : call ∈ (evaluateMessage fmt v head (some vv)).2 →
        ∃ validation ∈ head :: rest,
          call = (validation.Expression, specValidationBindings v.contextVars vv) ∨
          call = (validation.MessageExpression, specMessageBindings v.contextVars vv) :=
      fun hc => ⟨head, List.mem_cons_self _ _, Or.inr (evaluateMessage_calls fmt v head vv call hc)⟩
    rw [validationsLoop] at h
    repeat' split at h
    all_goals
      try simp only [List.mem_append] at h
      first
        | exact hhead h
        | (rcases h with h | h <;> first | exact hhead h | exact hrest h | exact hmsg h)
        | (rcases h with (h | h) | h <;> first | exact hhead h | exact hrest h | exact hmsg h)

theorem validationsLoop_false_calls (fmt : Printer) (v : PolicyValidator) (vv : Object) :
    ∀ validations : List Validation,
      ∀ validation ∈ validations.takeWhile (specValidationPasses v vv)
          ++ (validations.dropWhile (specValidationPasses v vv)).take 1,
        (validation.Expression, specValidationBindings v.contextVars vv)
          ∈ (validationsLoop fmt v (some vv) false validations).2 := by
  intro validations
  induction validations with
  | nil =>
    intro validation h
    simp at h
  | cons head rest ih =>
    intro validation h
    by_cases hp : specValidationPasses v vv head = true
    · have hev : v.celEvaluator.Evaluate head.Expression
          (specValidationBindings v.contextVars vv) = Except.ok (Value.bool true) := by
        unfold specValidationPasses at hp
        split at hp
        · assumption
        · exact absurd hp (by simp)
      rw [List.takeWhile_cons_of_pos hp, List.dropWhile_cons_of_pos hp, List.cons_append] at h
      rcases List.mem_cons.1 h with h | h
      · rw [h]
        exact validationsLoop_head_call fmt v vv false head rest
      · have hin := ih validation h
        rw [validationsLoop, evaluateValidation_fst, hev]
        simp [Value.asBool, hin]
    · rw [List.takeWhile_cons_of_neg hp, List.dropWhile_cons_of_neg hp] at h
      simp only [List.nil_append, List.take_succ_cons, List.take_zero, List.mem_singleton] at h
      rw [h]
      exact validationsLoop_head_call fmt v vv false head rest

theorem validationsLoop_evaluated_calls (fmt : Printer) (v : PolicyValidator) (vv : Object)
    (collectAllViolations : Bool) (validations : List Validation) :
    ∀ validation ∈ specEvaluatedValidations v vv collectAllViolations validations,
      (validation.Expression, specValidationBindings v.contextVars vv)
        ∈ (validationsLoop fmt v (some vv) collectAllViolations validations).2 := by
  cases collectAllViolations with
  | true => exact validationsLoop_true_calls fmt v vv validations
  | false => exact validationsLoop_false_calls fmt v vv validations


/-! Lemmas on the aggregate reason and message -/

theorem boolMapSet_keys (m : List (String × Bool)) (k : String) (b : Bool) :
    (boolMapSet m k b).map Prod.fst = k :: (m.map Prod.fst).filter (fun s => s != k) := by
  unfold boolMapSet
  rw [List.map_cons, List.filter_map]
  rfl

theorem collectReasons_keys (violations : List Violation) :
    ∀ m : List (String × Bool), (m.map Prod.fst).Nodup →
      ((collectReasons m violations).map Prod.fst).Nodup ∧
      ∀ s, s ∈ (collectReasons m violations).map Prod.fst ↔
        s ∈ m.map Prod.fst ∨ s ∈ specReasonSet violations := by
  induction violations with
  | nil =>
    intro m hm
    simp [collectReasons, specReasonSet, hm]
  | cons v rest ih =>
    intro m hm
    unfold collectReasons
    by_cases hv : (v.Reason != "" && v.Reason != "FailedValidation") = true
    · rw [if_pos hv]
      have hv' : v.Reason ≠ "" ∧ v.Reason ≠ "FailedValidation" := by simpa using hv
      have hnodup : ((boolMapSet m v.Reason true).map Prod.fst).Nodup := by
        rw [boolMapSet_keys]
        refine List.nodup_cons.2 ⟨?_, hm.filter _⟩
        simp
      obtain ⟨h1, h2⟩ := ih (boolMapSet m v.Reason true) hnodup
      refine ⟨h1, fun s => ?_⟩
      rw [h2, boolMapSet_keys]
      simp only [specReasonSet, Set.mem_setOf_eq, List.mem_cons, List.mem_filter, bne_iff_ne,
        ne_eq, exists_eq_or_imp]
      constructor
      · rintro ((h | ⟨h, _⟩) | h)
        · right
          subst h
          exact ⟨hv'.1, hv'.2, Or.inl rfl⟩
        · exact Or.inl h
        · exact Or.inr ⟨h.1, h.2.1, Or.inr h.2.2⟩
      · rintro (h | ⟨h1', h2', h3 | h3⟩)
        · by_cases hs : s = v.Reason
          · exact Or.inl (Or.inl hs)
          · exact Or.inl (Or.inr ⟨h, hs⟩)
        · exact Or.inl (Or.inl h3.symm)
        · exact Or.inr ⟨h1', h2', h3⟩
    · rw [if_neg hv]
      obtain ⟨h1, h2⟩ := ih m hm
      refine ⟨h1, fun s => ?_⟩
      rw [h2]
      simp only [specReasonSet, Set.mem_setOf_eq, List.mem_cons, exists_eq_or_imp]
      have hv' : ¬ (v.Reason ≠ "" ∧ v.Reason ≠ "FailedValidation") := by
        intro h
        apply hv
        simpa using h
      constructor
      · rintro (h | h)
        · exact Or.inl h
        · exact Or.inr ⟨h.1, h.2.1, Or.inr h.2.2⟩
      · rintro (h | ⟨h1', h2', h3 | h3⟩)
        · exact Or.inl h
        · exact absurd (by rw [h3]; exact ⟨h1', h2'⟩) hv'
        · exact Or.inr ⟨h1', h2', h3⟩

theorem nodup_singleton_of_mem_iff (l : List String) (r : String) (hl : l.Nodup)
    (h : ∀ s, s ∈ l ↔ s = r) : l = [r] := by
  cases l with
  | nil => exact absurd ((h r).2 rfl) (by simp)
  | cons a t =>
    have ha : a = r := (h a).1 (List.mem_cons_self a t)
    cases t with
    | nil => rw [ha]
    | cons b t' =>
      have hb : b = r := (h b).1 (List.mem_cons_of_mem a (List.mem_cons_self b t'))
      rw [ha, hb] at hl
      simp at hl

theorem GetReason_of_many (violations : List Violation) (hN : 1 < violations.length) :
    (NewValidationResult false violations).GetReason
      = (match collectReasons [] violations with
        | [(reason, _)] => reason
        | _ => "MultipleViolations") := by
  unfold validationResult.GetReason NewValidationResult
  have h0 : ¬ violations.length = 0 := by omega
  have h1 : ¬ violations.length = 1 := by omega
  simp [h0, h1]

theorem GetReason_of_singleton_set (violations : List Violation) (hN : 1 < violations.length)
    (r : String) (hset : specReasonSet violations = {r}) :
    (NewValidationResult false violations).GetReason = r := by
  rw [GetReason_of_many violations hN]
  obtain ⟨hnodup, hmem⟩ := collectReasons_keys violations [] (by simp)
  have hkeys : (collectReasons [] violations).map Prod.fst = [r] := by
    apply nodup_singleton_of_mem_iff _ _ hnodup
    intro s
    rw [hmem, hset]
    simp
  cases hc : collectReasons [] violations with
  | nil => rw [hc] at hkeys; simp at hkeys
  | cons a t =>
    rw [hc] at hkeys
    cases t with
    | nil =>
      obtain ⟨reason, b⟩ := a
      simp only [List.map_cons, List.map_nil, List.cons.injEq, and_true] at hkeys
      simp [hkeys]
    | cons b t' => simp at hkeys

theorem GetReason_of_no_singleton_set (violations : List Violation)
    (hN : 1 < violations.length) (hset : ¬ ∃ r, specReasonSet violations = {r}) :
    (NewValidationResult false violations).GetReason = "MultipleViolations" := by
  rw [GetReason_of_many violations hN]
  obtain ⟨_, hmem⟩ := collectReasons_keys violations [] (by simp)
  cases hc : collectReasons [] violations with
  | nil => rfl
  | cons a t =>
    cases t with
    | cons b t' => rfl
    | nil =>
      exfalso
      apply hset
      refine ⟨a.1, ?_⟩
      ext s
      have := hmem s
      rw [hc] at this
      simp only [List.map_cons, List.map_nil, List.mem_singleton, List.not_mem_nil,
        false_or] at this
      simp [← this]

theorem intercalate_go_append (sep x : String) :
    ∀ (rest : List String) (y : String),
      String.intercalate.go (x ++ y) sep rest = x ++ String.intercalate.go y sep rest := by
  intro rest
  induction rest with
  | nil => intro y; rfl
  | cons c cs ih =>
    intro y
    simp only [String.intercalate.go]
    rw [String.append_assoc, String.append_assoc, ih, ← String.append_assoc]

theorem Join_cons_eq_go (sep : String) :
    ∀ (rest : List String) (a : String),
      strings.Join (a :: rest) sep = String.intercalate.go a sep rest := by
  intro rest
  induction rest with
  | nil => intro a; rfl
  | cons b bs ih =>
    intro a
    rw [strings.Join, ih b]
    simp only [String.intercalate.go]
    rw [intercalate_go_append]

theorem Join_eq_intercalate (elems : List String) (sep : String) :
    strings.Join elems sep = String.intercalate sep elems := by
  cases elems with
  | nil => rfl
  | cons a rest => rw [Join_cons_eq_go]; rfl

theorem violationLine_eq (v : Violation) : violationLine v = specViolationLine v := by
  unfold violationLine specViolationLine
  by_cases h1 : v.Reason = "" <;> by_cases h2 : v.Reason = "FailedValidation" <;> simp [h1, h2]

theorem GetMessage_of_many (violations : List Violation) (hN : 1 < violations.length) :
    (NewValidationResult false violations).GetMessage
      = "Multiple validation failures (" ++ toString violations.length ++ "):\n"
          ++ strings.Join (violations.map violationLine) "\n" := by
  unfold validationResult.GetMessage NewValidationResult
  have h0 : ¬ violations.length = 0 := by omega
  have h1 : ¬ violations.length = 1 := by omega
  simp [h0, h1]


/-! Lemmas on the simulator -/

theorem shouldValidate_iff (actions : Option (List String)) :
    shouldValidate actions = true
      ↔ sliceElems actions = [] ∨ "Deny" ∈ sliceElems actions := by
  unfold shouldValidate admissionregistrationv1.Deny
  cases sliceElems actions with
  | nil => simp
  | cons a rest =>
    simp only [List.length_cons, Nat.add_one_ne_zero, beq_iff_eq, if_false, List.any_eq_true]
    constructor
    · rintro ⟨x, hx, hxd⟩
      rw [← hxd]
      exact Or.inr hx
    · rintro (h | h)
      · exact absurd h (List.cons_ne_nil a rest)
      · exact ⟨"Deny", h, rfl⟩

theorem bindingsLoop_of_not_validates (lib : GoLibrary) (fmt : Printer)
    (validator : PolicyValidator) (policy : ValidatingAdmissionPolicy) (reqObj : Object)
    (operation : String) (agg : Aggregate) (binding : ValidatingAdmissionPolicyBinding)
    (rest : List ValidatingAdmissionPolicyBinding)
    (h : ¬ specValidates lib reqObj operation binding) :
    bindingsLoop lib fmt validator policy reqObj operation agg (binding :: rest)
      = bindingsLoop lib fmt validator policy reqObj operation agg rest := by
  rw [bindingsLoop]
  by_cases hm : matchesBinding lib binding reqObj operation = true
  · have hs : shouldValidate binding.Spec.ValidationActions = false := by
      cases hsv : shouldValidate binding.Spec.ValidationActions with
      | false => rfl
      | true => exact absurd ⟨hm, (shouldValidate_iff _).1 hsv⟩ h
    simp [hm, hs]
  · simp [hm]

theorem bindingsLoop_of_validates (lib : GoLibrary) (fmt : Printer)
    (validator : PolicyValidator) (policy : ValidatingAdmissionPolicy) (reqObj : Object)
    (operation : String) (agg : Aggregate) (binding : ValidatingAdmissionPolicyBinding)
    (rest : List ValidatingAdmissionPolicyBinding)
    (h : specValidates lib reqObj operation binding) :
    bindingsLoop lib fmt validator policy reqObj operation agg (binding :: rest)
      = (recordResult agg policy.Name (ValidatePolicy fmt validator policy true).1,
          (ValidatePolicy fmt validator policy true).2) := by
  rw [bindingsLoop]
  simp [h.1, (shouldValidate_iff _).2 h.2]

theorem bindingsLoop_skip (lib : GoLibrary) (fmt : Printer) (validator : PolicyValidator)
    (policy : ValidatingAdmissionPolicy) (reqObj : Object) (operation : String)
    (agg : Aggregate) (pre rest : List ValidatingAdmissionPolicyBinding)
    (h : ∀ b ∈ pre, ¬ specValidates lib reqObj operation b) :
    bindingsLoop lib fmt validator policy reqObj operation agg (pre ++ rest)
      = bindingsLoop lib fmt validator policy reqObj operation agg rest := by
  induction pre with
  | nil => rfl
  | cons b bs ih =>
    rw [List.cons_append,
      bindingsLoop_of_not_validates lib fmt validator policy reqObj operation agg b _
        (h b (List.mem_cons_self b bs))]
    exact ih (fun c hc => h c (List.mem_cons_of_mem b hc))

theorem bindingsLoop_none (lib : GoLibrary) (fmt : Printer) (validator : PolicyValidator)
    (policy : ValidatingAdmissionPolicy) (reqObj : Object) (operation : String)
    (agg : Aggregate) (related : List ValidatingAdmissionPolicyBinding)
    (h : ∀ b ∈ related, ¬ specValidates lib reqObj operation b) :
    bindingsLoop lib fmt validator policy reqObj operation agg related = (agg, []) := by
  have := bindingsLoop_skip lib fmt validator policy reqObj operation agg related [] h
  rw [List.append_nil] at this
  rw [this]
  rfl

theorem evaluatePolicy_of_related (lib : GoLibrary) (fmt : Printer)
    (validator : PolicyValidator) (bindings : List ValidatingAdmissionPolicyBinding)
    (reqObj : Object) (operation : String) (agg : Aggregate)
    (policy : ValidatingAdmissionPolicy) (h : relatedBindings bindings policy ≠ []) :
    evaluatePolicy lib fmt validator bindings reqObj operation agg policy
      = bindingsLoop lib fmt validator policy reqObj operation agg
          (relatedBindings bindings policy) := by
  unfold evaluatePolicy
  have hlen : ¬ (relatedBindings bindings policy).length = 0 :=
    fun h0 => h (List.length_eq_zero.1 h0)
  simp [hlen]

theorem policiesLoop_append (lib : GoLibrary) (fmt : Printer) (validator : PolicyValidator)
    (bindings : List ValidatingAdmissionPolicyBinding) (reqObj : Object) (operation : String)
    (pre rest : List ValidatingAdmissionPolicy) :
    ∀ agg : Aggregate,
      policiesLoop lib fmt validator bindings reqObj operation agg (pre ++ rest)
        = ((policiesLoop lib fmt validator bindings reqObj operation
              (policiesLoop lib fmt validator bindings reqObj operation agg pre).1 rest).1,
            (policiesLoop lib fmt validator bindings reqObj operation agg pre).2
              ++ (policiesLoop lib fmt validator bindings reqObj operation
                (policiesLoop lib fmt validator bindings reqObj operation agg pre).1 rest).2) := by
  induction pre with
  | nil => intro agg; simp [policiesLoop]
  | cons policy ps ih =>
    intro agg
    rw [List.cons_append, policiesLoop, policiesLoop, ih]
    simp

theorem SimulateWithPolicyBindings_of_prepared (lib : GoLibrary) (fmt : Printer)
    (p : PolicySimulator) (policies : List ValidatingAdmissionPolicy)
    (bindings : List ValidatingAdmissionPolicyBinding) (paramObj : Option RuntimeObject)
    (testCase : kaptestv1.TestCase) (reqObj : Object) (validator : PolicyValidator)
    (hprep : prepareTestCase lib p paramObj testCase = Except.ok (reqObj, validator)) :
    SimulateWithPolicyBindings lib fmt p policies bindings paramObj testCase
      = ((finalResult testCase
            (policiesLoop lib fmt validator bindings reqObj testCase.Operation { } policies).1,
          none),
          (policiesLoop lib fmt validator bindings reqObj testCase.Operation { } policies).2) := by
  unfold SimulateWithPolicyBindings
  rw [hprep]


/-! Lemmas on the comparison with the expected result -/

theorem containsList_iff (sub : List Char) :
    ∀ l : List Char, strings.containsList sub l = true ↔ sub <:+: l := by
  intro l
  induction l with
  | nil =>
    rw [strings.containsList, List.infix_nil, List.isEmpty_iff]
  | cons c cs ih =>
    rw [strings.containsList, Bool.or_eq_true, ih, List.infix_cons_iff,
      List.isPrefixOf_iff_prefix]

theorem Contains_iff (s substr : String) :
    strings.Contains s substr = true ↔ specSubstring substr s := by
  unfold strings.Contains specSubstring
  exact containsList_iff _ _

theorem specSubstring_refl (s : String) : specSubstring s s :=
  List.infix_refl _

theorem append_ne_empty (a b : String) (h : a ≠ "") : a ++ b ≠ "" := by
  intro hab
  apply h
  have hd : (a ++ b).data = [] := by rw [hab]
  rw [String.data_append, List.append_eq_nil] at hd
  exact String.ext hd.1

theorem fst_ite_true (c : Prop) [Decidable c] (s t : String) :
    (if c then (true, s) else (false, t)).1 = true ↔ c := by
  split <;> simp [*]

theorem compareExpected_success_iff (allowed : Bool) (reason message : String)
    (expected : kaptestv1.ExpectedResult) :
    (compareExpected allowed reason message expected).1 = true
      ↔ specSucceeds allowed reason message expected := by
  unfold compareExpected specSucceeds
  by_cases ha : allowed = expected.Allowed
  · cases hall : allowed with
    | true => simp [← ha, hall]
    | false =>
      have hR : expected.Reason = reason → strings.Contains reason expected.Reason = true := by
        intro h
        rw [Contains_iff, h]
        exact specSubstring_refl _
      have hM : expected.Message = message
          → strings.Contains message expected.Message = true := by
        intro h
        rw [Contains_iff, h]
        exact specSubstring_refl _
      by_cases hm : expected.Message = "" <;> by_cases hc : expected.MessageContains = ""
        <;> simp [← ha, hall, hm, hc, fst_ite_true, ← Contains_iff]
        <;> tauto
  · cases hall : allowed <;> cases hexp : expected.Allowed <;> simp_all

theorem compareExpected_details_iff (allowed : Bool) (reason message : String)
    (expected : kaptestv1.ExpectedResult) :
    (compareExpected allowed reason message expected).2 ≠ ""
      ↔ (compareExpected allowed reason message expected).1 = false := by
  have hne : ∀ (c : Prop) [Decidable c] (t : String), t ≠ "" →
      ((if c then (true, "") else (false, t) : Bool × String).2 ≠ ""
        ↔ (if c then (true, "") else (false, t) : Bool × String).1 = false) := by
    intro c _ t ht
    split <;> simp [ht]
  unfold compareExpected
  by_cases h1 : (allowed == expected.Allowed) = true
  · rw [if_pos h1]
    by_cases h2 : (!allowed) = true
    · rw [if_pos h2]
      apply hne
      repeat' apply append_ne_empty
      decide
    · rw [if_neg h2]
      simp
  · rw [if_neg h1]
    simp only [ne_eq, iff_true]
    repeat' apply append_ne_empty
    decide

theorem specCompared_mk (testCase : kaptestv1.TestCase) (name : String) (allowed : Bool)
    (reason message : String) (policyResults : List kaptestv1.PolicyResult) :
    specCompared testCase
      ({ Name := name,
         Success := (compareExpected allowed reason message testCase.Expected).1,
         Details := (compareExpected allowed reason message testCase.Expected).2,
         ActualResponse := some { Allowed := allowed, Reason := reason, Message := message },
         PolicyResults := policyResults }, none) := by
  intro _
  exact ⟨_, rfl, compareExpected_success_iff _ _ _ _, compareExpected_details_iff _ _ _ _⟩

theorem specCompared_of_error (testCase : kaptestv1.TestCase) (result : kaptestv1.TestResult)
    (err : Error) : specCompared testCase (result, some err) := by
  intro h
  exact absurd h (by simp)

theorem SimulateTestCase_compared (lib : GoLibrary) (fmt : Printer) (p : PolicySimulator)
    (policy : ValidatingAdmissionPolicy) (paramObj : Option RuntimeObject)
    (testCase : kaptestv1.TestCase) :
    specCompared testCase (SimulateTestCase lib fmt p policy paramObj testCase).1 := by
  unfold SimulateTestCase
  split
  · exact specCompared_of_error _ _ _
  · split
    · exact specCompared_of_error _ _ _
    · split
      · exact specCompared_of_error _ _ _
      · split
        · exact specCompared_mk testCase _ true "" "" []
        · exact specCompared_mk testCase _ _ _ _ []

theorem finalResult_compared (testCase : kaptestv1.TestCase) (agg : Aggregate) :
    specCompared testCase (finalResult testCase agg, none) :=
  specCompared_mk testCase _ _ _ _ _

theorem SimulateTestCaseWithMultiPolicies_of_prepared (lib : GoLibrary) (fmt : Printer)
    (p : PolicySimulator) (policies : List ValidatingAdmissionPolicy)
    (paramObj : Option RuntimeObject) (testCase : kaptestv1.TestCase) (reqObj : Object)
    (validator : PolicyValidator)
    (hprep : prepareTestCase lib p paramObj testCase = Except.ok (reqObj, validator)) :
    SimulateTestCaseWithMultiPolicies lib fmt p policies paramObj testCase
      = ((finalResult testCase (multiPoliciesLoop fmt validator { } policies).1, none),
          (multiPoliciesLoop fmt validator { } policies).2) := by
  unfold SimulateTestCaseWithMultiPolicies
  rw [hprep]

theorem SimulateTestCaseWithMultiPolicies_compared (lib : GoLibrary) (fmt : Printer)
    (p : PolicySimulator) (policies : List ValidatingAdmissionPolicy)
    (paramObj : Option RuntimeObject) (testCase : kaptestv1.TestCase) :
    specCompared testCase
      (SimulateTestCaseWithMultiPolicies lib fmt p policies paramObj testCase).1 := by
  unfold SimulateTestCaseWithMultiPolicies
  split
  · exact specCompared_of_error _ _ _
  · exact finalResult_compared _ _

theorem SimulateWithPolicyBindings_compared (lib : GoLibrary) (fmt : Printer)
    (p : PolicySimulator) (policies : List ValidatingAdmissionPolicy)
    (bindings : List ValidatingAdmissionPolicyBinding) (paramObj : Option RuntimeObject)
    (testCase : kaptestv1.TestCase) :
    specCompared testCase
      (SimulateWithPolicyBindings lib fmt p policies bindings paramObj testCase).1 := by
  unfold SimulateWithPolicyBindings
  split
  · exact specCompared_of_error _ _ _
  · exact finalResult_compared _ _

theorem SimulateTestCase_of_not_matched (lib : GoLibrary) (fmt : Printer) (p : PolicySimulator)
    (policy : ValidatingAdmissionPolicy) (paramObj : Option RuntimeObject)
    (testCase : kaptestv1.TestCase) (reqObj objectMap : Object) (validator : PolicyValidator)
    (hprep : prepareTestCase lib p paramObj testCase = Except.ok (reqObj, validator))
    (hmap : lib.ToUnstructured (RuntimeObject.unstructured reqObj) = Except.ok objectMap)
    (hmatch : p.evaluator.MatchesPolicy lib fmt (some policy) objectMap = Except.ok false) :
    SimulateTestCase lib fmt p policy paramObj testCase
      = (({ Name := testCase.Name,
            Success := (compareExpected true "" "" testCase.Expected).1,
            Details := (compareExpected true "" "" testCase.Expected).2,
            ActualResponse := some { Allowed := true, Reason := "", Message := "" } },
          none), []) := by
  unfold SimulateTestCase
  rw [hprep]
  dsimp only
  rw [hmap]
  dsimp only
  rw [hmatch]
  rfl

theorem compareExpected_allowed (expected : kaptestv1.ExpectedResult) :
    (compareExpected true "" "" expected).1 = expected.Allowed := by
  unfold compareExpected
  cases expected.Allowed <;> simp

theorem policyTarget_operation (lib : GoLibrary) (object : Object)
    (hop : ∀ operation : String, object.lookup "operation" ≠ some (Value.str operation)) :
    (policyTarget lib object).Operation = "" := by
  unfold policyTarget
  have h1 : (match object.lookup "operation" with
      | some (Value.str operation) =>
        ({ Object := object, Operation := operation } : admission.AdmissionTarget)
      | _ => { Object := object }) = { Object := object } := by
    split
    · rename_i operation h
      exact absurd h (hop operation)
    · rfl
  simp only [h1]
  repeat' split
  all_goals rfl

theorem Matches_of_no_operation (EqualFold : String → String → Bool) (mr : MatchResources)
    (target : admission.AdmissionTarget) (hrules : mr.ResourceRules ≠ [])
    (hop : target.Operation = "") :
    selector.Matches EqualFold (some mr) target = (false, none) := by
  have hlen : mr.ResourceRules.length > 0 := List.length_pos.2 hrules
  have hr : ∀ matchPolicy : admission.MatchPolicy,
      selector.matchesResourceRules EqualFold mr.ResourceRules target matchPolicy = false := by
    intro matchPolicy
    unfold selector.matchesResourceRules
    simp [hop]
  unfold selector.Matches
  dsimp only
  split
  · rfl
  · split
    · rfl
    · rw [hr]
      simp [hlen]

theorem MatchesPolicy_of_resource_rules (lib : GoLibrary) (fmt : Printer)
    (e : DefaultCELEvaluator) (policy : ValidatingAdmissionPolicy) (mr : MatchResources)
    (object : Object) (hmc : policy.Spec.MatchConstraints = some mr)
    (hrules : mr.ResourceRules ≠ [])
    (hop : ∀ operation : String, object.lookup "operation" ≠ some (Value.str operation)) :
    e.MatchesPolicy lib fmt (some policy) object = Except.ok false := by
  unfold DefaultCELEvaluator.MatchesPolicy
  simp only [hmc]
  rw [Matches_of_no_operation lib.EqualFold mr _ hrules (policyTarget_operation lib object hop)]

/-! Lemmas on the aggregate of several policies -/

theorem evaluateMessage_ne_empty (fmt : Printer) (v : PolicyValidator) (validation : Validation)
    (variableValues : Option Object) (message : String)
    (h : (evaluateMessage fmt v validation variableValues).1 = Except.ok message) :
    message ≠ "" := by
  unfold evaluateMessage at h
  split at h
  · dsimp only at h
    split at h
    · exact absurd h (by simp)
    · split at h
      · exact absurd h (by simp)
      · split at h
        · exact absurd h (by simp)
        · rename_i hvalid
          simp only [Except.ok.injEq] at h
          subst h
          intro hempty
          apply hvalid
          rw [hempty]
          decide
  · split at h
    · rename_i hmsg
      simp only [Except.ok.injEq] at h
      subst h
      simpa using hmsg
    · simp only [Except.ok.injEq] at h
      subst h
      exact append_ne_empty _ _ (by decide)

theorem failedViolation_message_ne (fmt : Printer) (v : PolicyValidator)
    (validation : Validation) (variableValues : Option Object) :
    (failedViolation fmt v validation variableValues).Message ≠ "" := by
  unfold failedViolation
  dsimp only
  split
  · rename_i message h
    exact evaluateMessage_ne_empty fmt v validation variableValues message h
  · split
    · exact append_ne_empty _ _ (by decide)
    · rename_i hmsg
      simpa using hmsg

theorem validationsLoop_messages_ne (fmt : Printer) (v : PolicyValidator)
    (variableValues : Option Object) (collectAllViolations : Bool) :
    ∀ validations : List Validation,
      ∀ violation ∈ (validationsLoop fmt v variableValues collectAllViolations validations).1,
        violation.Message ≠ "" := by
  intro validations
  induction validations with
  | nil =>
    intro violation h
    simp [validationsLoop] at h
  | cons validation rest ih =>
    intro violation h
    unfold validationsLoop at h
    split at h
    · split at h
      · rw [List.mem_singleton.1 h]
        exact append_ne_empty _ _ (by decide)
      · rcases List.mem_cons.1 h with h | h
        · rw [h]
          exact append_ne_empty _ _ (by decide)
        · exact ih violation h
    · split at h
      · split at h
        · rw [List.mem_singleton.1 h]
          repeat' apply append_ne_empty
          decide
        · rcases List.mem_cons.1 h with h | h
          · rw [h]
            repeat' apply append_ne_empty
            decide
          · exact ih violation h
      · split at h
        · split at h
          · rw [List.mem_singleton.1 h]
            exact failedViolation_message_ne _ _ _ _
          · rcases List.mem_cons.1 h with h | h
            · rw [h]
              exact failedViolation_message_ne _ _ _ _
            · exact ih violation h
        · exact ih violation h

theorem GetMessage_ne_of_messages (violations : List Violation) (hne : violations ≠ [])
    (hall : ∀ violation ∈ violations, violation.Message ≠ "") :
    (NewValidationResult false violations).GetMessage ≠ "" := by
  unfold validationResult.GetMessage NewValidationResult
  match violations, hne, hall with
  | [a], _, hall =>
    simpa using hall a (List.mem_singleton.2 rfl)
  | a :: b :: rest, _, _ =>
    simp only [Bool.false_or, List.length_cons]
    rw [if_neg (by simp), if_neg (by simp)]
    repeat' apply append_ne_empty
    decide

theorem validateAfterMatch_message_ne (fmt : Printer) (v : PolicyValidator)
    (policy : ValidatingAdmissionPolicy) (collectAllViolations : Bool) (calls : List Call)
    (h : (validateAfterMatch fmt v policy collectAllViolations calls).1.IsAllowed = false) :
    (validateAfterMatch fmt v policy collectAllViolations calls).1.GetMessage ≠ "" := by
  unfold validateAfterMatch at h ⊢
  split
  · rename_i h0
    rw [if_pos h0] at h
    exact absurd h (by simp [NewValidationResult, validationResult.IsAllowed])
  · rename_i h0
    rw [if_neg h0] at h
    dsimp only at h ⊢
    split
    · apply GetMessage_ne_of_messages _ (List.cons_ne_nil _ _)
      intro violation hv
      rw [List.mem_singleton.1 hv]
      exact append_ne_empty _ _ (by decide)
    · rename_i hnone
      rw [hnone] at h
      dsimp only at h
      have hlen : ((validationsLoop fmt v
          (if policy.Spec.Variables.length > 0 then evaluateVariables v policy
            else ((some [], none), [])).1.1 collectAllViolations
          policy.Spec.Validations).1.length == 0) = false := h
      rw [hlen]
      apply GetMessage_ne_of_messages
      · intro hnil
        rw [hnil] at hlen
        simp at hlen
      · exact validationsLoop_messages_ne _ _ _ _ _

theorem ValidatePolicy_message_ne (fmt : Printer) (v : PolicyValidator)
    (policy : ValidatingAdmissionPolicy) (collectAllViolations : Bool)
    (h : (ValidatePolicy fmt v policy collectAllViolations).1.IsAllowed = false) :
    (ValidatePolicy fmt v policy collectAllViolations).1.GetMessage ≠ "" := by
  unfold ValidatePolicy at h ⊢
  split
  · rename_i h0
    rw [if_pos h0] at h
    split
    · apply GetMessage_ne_of_messages _ (List.cons_ne_nil _ _)
      intro violation hv
      rw [List.mem_singleton.1 hv]
      exact append_ne_empty _ _ (by decide)
    · rename_i matched hm
      rw [hm] at h
      dsimp only at h
      split
      · rename_i hmatched
        rw [if_pos hmatched] at h
        exact absurd h (by simp [NewValidationResult, validationResult.IsAllowed])
      · rename_i hmatched
        rw [if_neg hmatched] at h
        exact validateAfterMatch_message_ne _ _ _ _ _ h
  · rename_i h0
    rw [if_neg h0] at h
    exact validateAfterMatch_message_ne _ _ _ _ _ h

theorem recordResult_policyResults (agg : Aggregate) (name : String) (r : validationResult) :
    (recordResult agg name r).policyResults
      = agg.policyResults
          ++ [{ PolicyName := name, Allowed := r.IsAllowed, Reason := r.GetReason,
                Message := r.GetMessage }] := by
  unfold recordResult
  split <;> rfl

theorem recordResult_of_allowed (agg : Aggregate) (name : String) (r : validationResult)
    (h : r.IsAllowed = true) :
    (recordResult agg name r).finalAllowed = agg.finalAllowed ∧
    (recordResult agg name r).finalReason = agg.finalReason ∧
    (recordResult agg name r).finalMessage = agg.finalMessage := by
  unfold recordResult
  simp [h]

theorem recordResult_of_denied (agg : Aggregate) (name : String) (r : validationResult)
    (h : r.IsAllowed = false) :
    (recordResult agg name r).finalAllowed = false ∧
    (recordResult agg name r).finalReason
      = (if agg.finalReason = "" then r.GetReason else agg.finalReason) ∧
    (recordResult agg name r).finalMessage
      = (if agg.finalMessage = "" then r.GetMessage
          else agg.finalMessage ++ "; " ++ r.GetMessage) := by
  unfold recordResult
  simp [h]

theorem Join_merge (a m sep : String) (rest : List String) :
    strings.Join ((a ++ sep ++ m) :: rest) sep = strings.Join (a :: m :: rest) sep := by
  cases rest with
  | nil => rfl
  | cons b bs =>
    rw [strings.Join, strings.Join, strings.Join]
    simp only [String.append_assoc]

theorem multiPoliciesLoop_spec (fmt : Printer) (validator : PolicyValidator) :
    ∀ (policies : List ValidatingAdmissionPolicy) (agg : Aggregate),
      (multiPoliciesLoop fmt validator agg policies).1.policyResults
        = agg.policyResults ++ policies.map (specPolicyResult fmt validator) ∧
      (multiPoliciesLoop fmt validator agg policies).1.finalAllowed
        = (agg.finalAllowed
            && policies.all (fun policy => (ValidatePolicy fmt validator policy true).1.IsAllowed)) ∧
      (multiPoliciesLoop fmt validator agg policies).1.finalReason
        = specFirstNonEmpty (agg.finalReason
            :: (specDenying fmt validator policies).map
                (fun policy => (ValidatePolicy fmt validator policy true).1.GetReason)) ∧
      (multiPoliciesLoop fmt validator agg policies).1.finalMessage
        = strings.Join ((if agg.finalMessage = "" then [] else [agg.finalMessage])
            ++ (specDenying fmt validator policies).map
                (fun policy => (ValidatePolicy fmt validator policy true).1.GetMessage)) "; " := by
  intro policies
  induction policies with
  | nil =>
    intro agg
    refine ⟨by simp [multiPoliciesLoop], by simp [multiPoliciesLoop], ?_, ?_⟩
    · by_cases h : agg.finalReason = "" <;>
        simp [multiPoliciesLoop, specDenying, specFirstNonEmpty, h]
    · by_cases h : agg.finalMessage = "" <;>
        simp [multiPoliciesLoop, specDenying, strings.Join, h]
  | cons policy rest ih =>
    intro agg
    rw [multiPoliciesLoop]
    dsimp only
    obtain ⟨h1, h2, h3, h4⟩ :=
      ih (recordResult agg policy.Name (ValidatePolicy fmt validator policy true).1)
    rw [h1, h2, h3, h4, recordResult_policyResults]
    cases hallowed : (ValidatePolicy fmt validator policy true).1.IsAllowed with
    | true =>
      obtain ⟨r1, r2, r3⟩ := recordResult_of_allowed agg policy.Name _ hallowed
      rw [r1, r2, r3]
      have hden : specDenying fmt validator (policy :: rest) = specDenying fmt validator rest := by
        simp [specDenying, hallowed]
      rw [hden]
      refine ⟨?_, ?_, rfl, rfl⟩
      · simp [specPolicyResult, hallowed]
      · simp [hallowed]
    | false =>
      obtain ⟨r1, r2, r3⟩ := recordResult_of_denied agg policy.Name _ hallowed
      rw [r1, r2, r3]
      have hden : specDenying fmt validator (policy :: rest)
          = policy :: specDenying fmt validator rest := by
        simp [specDenying, hallowed]
      have hmsg := ValidatePolicy_message_ne fmt validator policy true hallowed
      rw [hden]
      refine ⟨?_, ?_, ?_, ?_⟩
      · simp [specPolicyResult, hallowed]
      · simp [hallowed]
      · by_cases h : agg.finalReason = ""
        · simp [specFirstNonEmpty, h]
        · simp [specFirstNonEmpty, h]
      · by_cases h : agg.finalMessage = ""
        · simp [h, hmsg]
        · rw [if_neg h, if_neg h, if_neg (append_ne_empty _ _ (append_ne_empty _ _ h))]
          exact Join_merge _ _ _ _

theorem SimulateTestCaseWithMultiPolicies_response (lib : GoLibrary) (fmt : Printer)
    (p : PolicySimulator) (policies : List ValidatingAdmissionPolicy)
    (paramObj : Option RuntimeObject) (testCase : kaptestv1.TestCase) (reqObj : Object)
    (validator : PolicyValidator)
    (hprep : prepareTestCase lib p paramObj testCase = Except.ok (reqObj, validator)) :
    (SimulateTestCaseWithMultiPolicies lib fmt p policies paramObj testCase).1.2 = none ∧
    (SimulateTestCaseWithMultiPolicies lib fmt p policies paramObj testCase).1.1.PolicyResults
      = policies.map (specPolicyResult fmt validator) ∧
    (SimulateTestCaseWithMultiPolicies lib fmt p policies paramObj testCase).1.1.ActualResponse
      = some
          { Allowed :=
              policies.all (fun policy => (ValidatePolicy fmt validator policy true).1.IsAllowed),
            Reason :=
              specFirstNonEmpty ((specDenying fmt validator policies).map
                (fun policy => (ValidatePolicy fmt validator policy true).1.GetReason)),
            Message :=
              String.intercalate "; " ((specDenying fmt validator policies).map
                (fun policy => (ValidatePolicy fmt validator policy true).1.GetMessage)) } := by
  rw [SimulateTestCaseWithMultiPolicies_of_prepared lib fmt p policies paramObj testCase reqObj
    validator hprep]
  obtain ⟨h1, h2, h3, h4⟩ := multiPoliciesLoop_spec fmt validator policies { }
  refine ⟨rfl, ?_, ?_⟩
  · show (multiPoliciesLoop fmt validator { } policies).1.policyResults = _
    rw [h1]
    rfl
  · show some ({ Allowed := (multiPoliciesLoop fmt validator { } policies).1.finalAllowed,
                 Reason := (multiPoliciesLoop fmt validator { } policies).1.finalReason,
                 Message := (multiPoliciesLoop fmt validator { } policies).1.finalMessage }
                : kaptestv1.ResponseDetails) = _
    rw [h2, h3, h4, Join_eq_intercalate]
    simp [specFirstNonEmpty]


/-! Lemmas on the test runs -/

theorem relatedBindings_nil (policy : ValidatingAdmissionPolicy) :
    relatedBindings [] policy = [] := rfl

theorem policiesLoop_nil_bindings (lib : GoLibrary) (fmt : Printer) (validator : PolicyValidator)
    (reqObj : Object) (operation : String) :
    ∀ (policies : List ValidatingAdmissionPolicy) (agg : Aggregate),
      policiesLoop lib fmt validator [] reqObj operation agg policies
        = multiPoliciesLoop fmt validator agg policies := by
  intro policies
  induction policies with
  | nil => intro agg; rfl
  | cons policy rest ih =>
    intro agg
    have hstep : evaluatePolicy lib fmt validator [] reqObj operation agg policy
        = (recordResult agg policy.Name (ValidatePolicy fmt validator policy true).1,
            (ValidatePolicy fmt validator policy true).2) := by
      unfold evaluatePolicy
      rw [relatedBindings_nil]
      rfl
    rw [policiesLoop, multiPoliciesLoop, hstep, ih]

theorem SimulateWithPolicyBindings_nil_bindings (lib : GoLibrary) (fmt : Printer)
    (p : PolicySimulator) (policies : List ValidatingAdmissionPolicy)
    (paramObj : Option RuntimeObject) (testCase : kaptestv1.TestCase) :
    SimulateWithPolicyBindings lib fmt p policies [] paramObj testCase
      = SimulateTestCaseWithMultiPolicies lib fmt p policies paramObj testCase := by
  unfold SimulateWithPolicyBindings SimulateTestCaseWithMultiPolicies
  split
  · rfl
  · rw [policiesLoop_nil_bindings]

theorem runLoop_of_no_error
    (simulate : kaptestv1.TestCase → kaptestv1.TestResult × Option Error) :
    ∀ (testCases : List kaptestv1.TestCase)
      (status : kaptestv1.ValidatingAdmissionPolicyTestStatus),
      (∀ testCase ∈ testCases, (simulate testCase).2 = none) →
      runLoop simulate status testCases
        = Except.ok
            { Results := status.Results ++ testCases.map (fun testCase => (simulate testCase).1),
              Summary :=
                { Total := status.Summary.Total,
                  Successful := status.Summary.Successful
                    + ((testCases.map (fun testCase => (simulate testCase).1)).filter
                        (fun result => result.Success)).length,
                  Failed := status.Summary.Failed
                    + ((testCases.map (fun testCase => (simulate testCase).1)).filter
                        (fun result => !result.Success)).length } } := by
  intro testCases
  induction testCases with
  | nil =>
    intro status _
    simp [runLoop]
  | cons testCase rest ih =>
    intro status h
    have hnone : (simulate testCase).2 = none := h testCase (List.mem_cons_self _ _)
    have hrest : ∀ tc ∈ rest, (simulate tc).2 = none :=
      fun tc htc => h tc (List.mem_cons_of_mem _ htc)
    have hpair : simulate testCase = ((simulate testCase).1, none) := by
      rw [← hnone]
    rw [runLoop, hpair]
    dsimp only
    rw [ih _ hrest]
    cases hs : (simulate testCase).1.Success <;>
      simp [hs, List.filter_cons, Nat.add_assoc, Nat.add_comm 1]

theorem runLoop_of_error
    (simulate : kaptestv1.TestCase → kaptestv1.TestResult × Option Error) :
    ∀ (pre : List kaptestv1.TestCase) (status : kaptestv1.ValidatingAdmissionPolicyTestStatus)
      (testCase : kaptestv1.TestCase) (post : List kaptestv1.TestCase) (err : Error),
      (∀ tc ∈ pre, (simulate tc).2 = none) → (simulate testCase).2 = some err →
      runLoop simulate status (pre ++ testCase :: post)
        = Except.error ("failed to execute test case '" ++ testCase.Name ++ "': " ++ err) := by
  intro pre
  induction pre with
  | nil =>
    intro status testCase post err _ herr
    have hpair : simulate testCase = ((simulate testCase).1, some err) := by
      rw [← herr]
    rw [List.nil_append, runLoop, hpair]
  | cons tc rest ih =>
    intro status testCase post err h herr
    have hnone : (simulate tc).2 = none := h tc (List.mem_cons_self _ _)
    have hpair : simulate tc = ((simulate tc).1, none) := by
      rw [← hnone]
    rw [List.cons_append, runLoop, hpair]
    dsimp only
    exact ih _ testCase post err (fun x hx => h x (List.mem_cons_of_mem _ hx)) herr

theorem runLoop_initial
    (simulate : kaptestv1.TestCase → kaptestv1.TestResult × Option Error)
    (testCases : List kaptestv1.TestCase)
    (h : ∀ testCase ∈ testCases, (simulate testCase).2 = none) :
    runLoop simulate
        { Results := [],
          Summary := { Total := testCases.length, Successful := 0, Failed := 0 } } testCases
      = Except.ok (specStatus (testCases.map (fun testCase => (simulate testCase).1))) := by
  rw [runLoop_of_no_error simulate testCases _ h]
  simp [specStatus]

theorem specStatus_counts (results : List kaptestv1.TestResult) :
    (specStatus results).Summary.Successful + (specStatus results).Summary.Failed
      = (specStatus results).Summary.Total ∧
    (specStatus results).Summary.Total = (specStatus results).Results.length := by
  refine ⟨?_, rfl⟩
  show (results.filter (fun result => result.Success)).length
      + (results.filter (fun result => !result.Success)).length = results.length
  induction results with
  | nil => rfl
  | cons r rest ih =>
    cases hs : r.Success <;> simp [List.filter_cons, hs] <;> omega

theorem SimulateTestCase_name (lib : GoLibrary) (fmt : Printer) (p : PolicySimulator)
    (policy : ValidatingAdmissionPolicy) (paramObj : Option RuntimeObject)
    (testCase : kaptestv1.TestCase) :
    (SimulateTestCase lib fmt p policy paramObj testCase).1.1.Name = testCase.Name := by
  unfold SimulateTestCase
  repeat' split
  all_goals rfl

theorem SimulateTestCaseWithMultiPolicies_name (lib : GoLibrary) (fmt : Printer)
    (p : PolicySimulator) (policies : List ValidatingAdmissionPolicy)
    (paramObj : Option RuntimeObject) (testCase : kaptestv1.TestCase) :
    (SimulateTestCaseWithMultiPolicies lib fmt p policies paramObj testCase).1.1.Name
      = testCase.Name := by
  unfold SimulateTestCaseWithMultiPolicies
  split <;> rfl

theorem SimulateWithPolicyBindings_name (lib : GoLibrary) (fmt : Printer)
    (p : PolicySimulator) (policies : List ValidatingAdmissionPolicy)
    (bindings : List ValidatingAdmissionPolicyBinding) (paramObj : Option RuntimeObject)
    (testCase : kaptestv1.TestCase) :
    (SimulateWithPolicyBindings lib fmt p policies bindings paramObj testCase).1.1.Name
      = testCase.Name := by
  unfold SimulateWithPolicyBindings
  split <;> rfl

theorem prepareTestCase_context (lib : GoLibrary) (p : PolicySimulator)
    (paramObj : Option RuntimeObject) (testCase : kaptestv1.TestCase) (contextVars : Object) :
    (prepareTestCase lib { p with validator := { p.validator with contextVars := contextVars } }
        paramObj testCase)
      = prepareTestCase lib p paramObj testCase := by
  unfold prepareTestCase SetupEvaluationContext
  rfl

theorem prepareTestCase_converts (lib : GoLibrary) (p : PolicySimulator)
    (paramObj : Option RuntimeObject) (testCase : kaptestv1.TestCase) (reqObj : Object)
    (validator : PolicyValidator)
    (hprep : prepareTestCase lib p paramObj testCase = Except.ok (reqObj, validator)) :
    ∃ objectMap : Object,
      lib.ToUnstructured (RuntimeObject.unstructured reqObj) = Except.ok objectMap := by
  unfold prepareTestCase at hprep
  split at hprep
  · exact absurd hprep (by simp)
  · rename_i reqObj0 _
    dsimp only at hprep
    split at hprep
    · exact absurd hprep (by simp)
    · split at hprep
      · exact absurd hprep (by simp)
      · rename_i oldObj _ hsetup
        simp only [Except.ok.injEq, Prod.mk.injEq] at hprep
        obtain ⟨hreq, _⟩ := hprep
        subst hreq
        cases hconv : lib.ToUnstructured (RuntimeObject.unstructured reqObj0) with
        | ok objectMap => exact ⟨objectMap, rfl⟩
        | error err =>
          unfold SetupEvaluationContext at hsetup
          rw [hconv] at hsetup
          exact absurd hsetup (by simp)

theorem GetReason_of_allowed (r : validationResult) (h : r.IsAllowed = true) :
    r.GetReason = "" ∧ r.GetMessage = "" := by
  unfold validationResult.IsAllowed at h
  unfold validationResult.GetReason validationResult.GetMessage
  simp [h]

theorem SimulateTestCase_of_matched (lib : GoLibrary) (fmt : Printer) (p : PolicySimulator)
    (policy : ValidatingAdmissionPolicy) (paramObj : Option RuntimeObject)
    (testCase : kaptestv1.TestCase) (reqObj objectMap : Object) (validator : PolicyValidator)
    (hprep : prepareTestCase lib p paramObj testCase = Except.ok (reqObj, validator))
    (hmap : lib.ToUnstructured (RuntimeObject.unstructured reqObj) = Except.ok objectMap)
    (hmatch : p.evaluator.MatchesPolicy lib fmt (some policy) objectMap = Except.ok true) :
    SimulateTestCase lib fmt p policy paramObj testCase
      = (({ Name := testCase.Name,
            Success :=
              (compareExpected (ValidatePolicy fmt validator policy true).1.IsAllowed
                (ValidatePolicy fmt validator policy true).1.GetReason
                (ValidatePolicy fmt validator policy true).1.GetMessage testCase.Expected).1,
            Details :=
              (compareExpected (ValidatePolicy fmt validator policy true).1.IsAllowed
                (ValidatePolicy fmt validator policy true).1.GetReason
                (ValidatePolicy fmt validator policy true).1.GetMessage testCase.Expected).2,
            ActualResponse :=
              some { Allowed := (ValidatePolicy fmt validator policy true).1.IsAllowed,
                     Reason := (ValidatePolicy fmt validator policy true).1.GetReason,
                     Message := (ValidatePolicy fmt validator policy true).1.GetMessage } },
          none), (ValidatePolicy fmt validator policy true).2) := by
  unfold SimulateTestCase
  rw [hprep]
  dsimp only
  rw [hmap]
  dsimp only
  rw [hmatch]
  rfl

theorem SimulateTestCase_of_match_error (lib : GoLibrary) (fmt : Printer) (p : PolicySimulator)
    (policy : ValidatingAdmissionPolicy) (paramObj : Option RuntimeObject)
    (testCase : kaptestv1.TestCase) (reqObj objectMap : Object) (validator : PolicyValidator)
    (err : Error)
    (hprep : prepareTestCase lib p paramObj testCase = Except.ok (reqObj, validator))
    (hmap : lib.ToUnstructured (RuntimeObject.unstructured reqObj) = Except.ok objectMap)
    (hmatch : p.evaluator.MatchesPolicy lib fmt (some policy) objectMap = Except.error err) :
    SimulateTestCase lib fmt p policy paramObj testCase
      = (({ Name := testCase.Name, Success := false },
          some ("failed to check policy match: " ++ err)), []) := by
  unfold SimulateTestCase
  rw [hprep]
  dsimp only
  rw [hmap]
  dsimp only
  rw [hmatch]

theorem multiPoliciesLoop_singleton (fmt : Printer) (validator : PolicyValidator)
    (policy : ValidatingAdmissionPolicy) :
    multiPoliciesLoop fmt validator { } [policy]
      = (recordResult { } policy.Name (ValidatePolicy fmt validator policy true).1,
          (ValidatePolicy fmt validator policy true).2) := by
  simp [multiPoliciesLoop]

theorem recordResult_initial (name : String) (r : validationResult) :
    (recordResult { } name r).finalAllowed = r.IsAllowed ∧
    (recordResult { } name r).finalReason = r.GetReason ∧
    (recordResult { } name r).finalMessage = r.GetMessage := by
  cases h : r.IsAllowed with
  | true =>
    obtain ⟨h1, h2, h3⟩ := recordResult_of_allowed { } name r h
    obtain ⟨g1, g2⟩ := GetReason_of_allowed r h
    rw [h1, h2, h3, g1, g2]
    exact ⟨rfl, rfl, rfl⟩
  | false =>
    obtain ⟨h1, h2, h3⟩ := recordResult_of_denied { } name r h
    rw [h1, h2, h3]
    exact ⟨rfl, rfl, rfl⟩

theorem SimulateTestCase_eq_multi_of_matched (lib : GoLibrary) (fmt : Printer)
    (p : PolicySimulator) (policy : ValidatingAdmissionPolicy) (paramObj : Option RuntimeObject)
    (testCase : kaptestv1.TestCase) (reqObj objectMap : Object) (validator : PolicyValidator)
    (hprep : prepareTestCase lib p paramObj testCase = Except.ok (reqObj, validator))
    (hmap : lib.ToUnstructured (RuntimeObject.unstructured reqObj) = Except.ok objectMap)
    (hmatch : p.evaluator.MatchesPolicy lib fmt (some policy) objectMap = Except.ok true) :
    (SimulateTestCase lib fmt p policy paramObj testCase).1.1.ActualResponse
      = (SimulateTestCaseWithMultiPolicies lib fmt p [policy] paramObj
          testCase).1.1.ActualResponse ∧
    (SimulateTestCase lib fmt p policy paramObj testCase).1.1.Success
      = (SimulateTestCaseWithMultiPolicies lib fmt p [policy] paramObj testCase).1.1.Success ∧
    (SimulateTestCase lib fmt p policy paramObj testCase).1.1.Details
      = (SimulateTestCaseWithMultiPolicies lib fmt p [policy] paramObj testCase).1.1.Details ∧
    (SimulateTestCase lib fmt p policy paramObj testCase).1.2
      = (SimulateTestCaseWithMultiPolicies lib fmt p [policy] paramObj testCase).1.2 ∧
    (SimulateTestCase lib fmt p policy paramObj testCase).2
      = (SimulateTestCaseWithMultiPolicies lib fmt p [policy] paramObj testCase).2 := by
  rw [SimulateTestCase_of_matched lib fmt p policy paramObj testCase reqObj objectMap validator
      hprep hmap hmatch,
    SimulateTestCaseWithMultiPolicies_of_prepared lib fmt p [policy] paramObj testCase reqObj
      validator hprep,
    multiPoliciesLoop_singleton]
  obtain ⟨h1, h2, h3⟩ :=
    recordResult_initial policy.Name (ValidatePolicy fmt validator policy true).1
  unfold finalResult
  dsimp only
  rw [h1, h2, h3]
  exact ⟨rfl, rfl, rfl, rfl, rfl⟩

/-! Lemmas on the gate of the single-policy mode -/

theorem evaluateMatchConditions_filter (fmt : Printer) (e : DefaultCELEvaluator)
    (object : Object) :
    ∀ conditions : List MatchCondition,
      e.evaluateMatchConditions fmt object conditions
        = e.evaluateMatchConditions fmt object
            (conditions.filter (fun c => c.Expression != "")) := by
  intro conditions
  induction conditions with
  | nil => rfl
  | cons c rest ih =>
    by_cases hc : c.Expression = ""
    · rw [DefaultCELEvaluator.evaluateMatchConditions, if_pos (by simp [hc]), ih,
        List.filter_cons_of_neg (by simp [hc])]
    · rw [List.filter_cons_of_pos (by simp [hc]),
        DefaultCELEvaluator.evaluateMatchConditions, if_neg (by simp [hc]),
        DefaultCELEvaluator.evaluateMatchConditions, if_neg (by simp [hc]), ih]

theorem evaluateMatchConditions_skip (fmt : Printer) (e : DefaultCELEvaluator)
    (object : Object) :
    ∀ (pre rest : List MatchCondition),
      (∀ c ∈ pre, specConditionPasses fmt e object c) →
      e.evaluateMatchConditions fmt object (pre ++ rest)
        = e.evaluateMatchConditions fmt object rest := by
  intro pre
  induction pre with
  | nil => intro rest _; rfl
  | cons c cs ih =>
    intro rest h
    have hrest := ih rest (fun x hx => h x (List.mem_cons_of_mem _ hx))
    rw [List.cons_append, DefaultCELEvaluator.evaluateMatchConditions]
    by_cases hc : c.Expression = ""
    · rw [if_pos (by simp [hc]), hrest]
    · rw [if_neg (by simp [hc])]
      rcases h c (List.mem_cons_self _ _) with hempty | htrue
      · exact absurd hempty hc
      · rw [htrue]
        simp [hrest]

theorem evaluateMatchConditions_of_error (fmt : Printer) (e : DefaultCELEvaluator)
    (object : Object) (condition : MatchCondition) (post : List MatchCondition) (err : Error)
    (hne : condition.Expression ≠ "")
    (herr : e.EvaluateExpression fmt condition.Expression [("object", Value.map object)]
      = Except.error err) :
    e.evaluateMatchConditions fmt object (condition :: post)
      = (if strings.Contains err "no such key" then Except.ok false else Except.error err) := by
  rw [DefaultCELEvaluator.evaluateMatchConditions, if_neg (by simp [hne]), herr]

theorem MatchesPolicy_of_constraints (lib : GoLibrary) (fmt : Printer)
    (e : DefaultCELEvaluator) (policy : ValidatingAdmissionPolicy) (object : Object)
    (hcons : specConstraintsMatch lib policy object)
    (hlen : policy.Spec.MatchConditions ≠ []) :
    e.MatchesPolicy lib fmt (some policy) object
      = (match e.evaluateMatchConditions fmt object policy.Spec.MatchConditions with
          | Except.error err => Except.error ("MatchConditions evaluation error: " ++ err)
          | Except.ok matchConditionsResult =>
            if !matchConditionsResult then Except.ok false else Except.ok true) := by
  have hpos : policy.Spec.MatchConditions.length > 0 := List.length_pos.2 hlen
  unfold DefaultCELEvaluator.MatchesPolicy
  cases hmc : policy.Spec.MatchConstraints with
  | none =>
    simp only [hmc]
    simp only [hpos, if_true]
  | some mr =>
    have h := hcons mr hmc
    simp only [hmc, h]
    simp only [hpos, if_true]

theorem MatchesPolicy_of_condition_error (lib : GoLibrary) (fmt : Printer)
    (e : DefaultCELEvaluator) (policy : ValidatingAdmissionPolicy) (object : Object)
    (pre post : List MatchCondition) (condition : MatchCondition) (err : Error)
    (hcons : specConstraintsMatch lib policy object)
    (hsplit : policy.Spec.MatchConditions = pre ++ condition :: post)
    (hpre : ∀ c ∈ pre, specConditionPasses fmt e object c)
    (hne : condition.Expression ≠ "")
    (herr : e.EvaluateExpression fmt condition.Expression [("object", Value.map object)]
      = Except.error err) :
    (strings.Contains err "no such key" = true →
      e.MatchesPolicy lib fmt (some policy) object = Except.ok false) ∧
    (strings.Contains err "no such key" = false →
      e.MatchesPolicy lib fmt (some policy) object
        = Except.error ("MatchConditions evaluation error: " ++ err)) := by
  have hlen : policy.Spec.MatchConditions ≠ [] := by
    rw [hsplit]
    simp
  rw [MatchesPolicy_of_constraints lib fmt e policy object hcons hlen, hsplit,
    evaluateMatchConditions_skip fmt e object pre _ hpre,
    evaluateMatchConditions_of_error fmt e object condition post err hne herr]
  constructor
  · intro h
    rw [if_pos h]
    rfl
  · intro h
    rw [if_neg (by simp [h])]


/-! Lemmas on the admission targets -/

theorem SplitChar_singleton (s x : String) (sep : Char)
    (h : strings.SplitChar s sep = [x]) : x = s := by
  unfold strings.SplitChar at h
  have hint := List.intercalate_splitOn s.data sep
  cases hsplit : s.data.splitOn sep with
  | nil => rw [hsplit] at h; simp at h
  | cons a rest =>
    rw [hsplit] at h hint
    simp only [List.map_cons, List.cons.injEq, List.map_eq_nil_iff] at h
    obtain ⟨ha, hrest⟩ := h
    rw [hrest] at hint
    simp only [List.intercalate, List.intersperse_singleton, List.flatten_cons,
      List.flatten_nil, List.append_nil] at hint
    rw [← ha]
    exact String.ext hint

theorem stringAt_of_lookup (object : Object) (key value : String)
    (h : object.lookup key = some (Value.str value)) : stringAt object key = value := by
  unfold stringAt
  rw [h]

theorem policyTarget_of_object (lib : GoLibrary) (object : Object) (apiVersion kind : String)
    (hapi : object.lookup "apiVersion" = some (Value.str apiVersion))
    (hkind : object.lookup "kind" = some (Value.str kind))
    (hres : ∀ resource : Object, object.lookup "resource" ≠ some (Value.map resource)) :
    (policyTarget lib object).Resource = lib.ToLower kind ++ "s" ∧
    (policyTarget lib object).APIGroup
      = (match strings.SplitChar apiVersion '/' with
          | [group, _] => group
          | _ => "") ∧
    (policyTarget lib object).APIVersion
      = (match strings.SplitChar apiVersion '/' with
          | [_, version] => version
          | _ => apiVersion) := by
  unfold policyTarget
  dsimp only
  split
  · rename_i resource h
    exact absurd h (hres resource)
  · rw [hapi, hkind]
    dsimp only
    rcases strings.SplitChar apiVersion '/' with _ | ⟨a, _ | ⟨b, _ | ⟨c, rest⟩⟩⟩ <;>
      exact ⟨rfl, rfl, rfl⟩

theorem targets_agree (lib : GoLibrary) (object : Object) (operation apiVersion kind : String)
    (hapi : object.lookup "apiVersion" = some (Value.str apiVersion))
    (hkind : object.lookup "kind" = some (Value.str kind))
    (hres : ∀ resource : Object, object.lookup "resource" ≠ some (Value.map resource))
    (hgvk : lib.GroupVersionKind object = unstructuredGroupVersionKind object)
    (hslash : (strings.SplitChar apiVersion '/').length ≤ 2) :
    (admission.NewAdmissionTarget lib (some object) operation).APIGroup
      = (policyTarget lib object).APIGroup ∧
    (admission.NewAdmissionTarget lib (some object) operation).APIVersion
      = (policyTarget lib object).APIVersion ∧
    (admission.NewAdmissionTarget lib (some object) operation).Resource = kind ∧
    (policyTarget lib object).Resource = lib.ToLower kind ++ "s" ∧
    (admission.NewAdmissionTarget lib (some object) operation).Operation = operation := by
  obtain ⟨h1, h2, h3⟩ := policyTarget_of_object lib object apiVersion kind hapi hkind hres
  rw [h1, h2, h3]
  unfold admission.NewAdmissionTarget
  dsimp only
  rw [hgvk]
  unfold unstructuredGroupVersionKind
  rw [stringAt_of_lookup object "apiVersion" apiVersion hapi,
    stringAt_of_lookup object "kind" kind hkind]
  by_cases hempty : apiVersion = ""
  · subst hempty
    have hs : strings.SplitChar "" '/' = [""] := by decide
    simp [hs]
  · by_cases hone : apiVersion = "/"
    · subst hone
      have hs : strings.SplitChar "/" '/' = ["", ""] := by decide
      simp [hs]
    · rw [if_neg (by simp [hempty, hone])]
      rcases hs : strings.SplitChar apiVersion '/' with _ | ⟨a, _ | ⟨b, _ | ⟨c, rest⟩⟩⟩
      · have hint := List.intercalate_splitOn apiVersion.data '/'
        unfold strings.SplitChar at hs
        rw [List.map_eq_nil_iff] at hs
        rw [hs] at hint
        exact absurd (String.ext hint.symm) hempty
      · have hv := SplitChar_singleton apiVersion a '/' hs
        exact ⟨rfl, hv, rfl, rfl, rfl⟩
      · exact ⟨rfl, rfl, rfl, rfl, rfl⟩
      · rw [hs] at hslash
        simp at hslash

theorem PrepareObject_of_empty (a : admission.AdmissionTarget)
    (hns : a.Namespace = "") (hlabels : a.Labels = []) : a.PrepareObject = a := by
  unfold admission.AdmissionTarget.PrepareObject
  simp [hns, hlabels]

theorem EvaluatePolicyWithBinding_of_failed (lib : GoLibrary) (fmt : Printer)
    (e : DefaultCELEvaluator) (policy : ValidatingAdmissionPolicy)
    (binding : ValidatingAdmissionPolicyBinding) (object : Object)
    (hname : binding.Spec.PolicyName = policy.Name)
    (hpolicy : e.MatchesPolicy lib fmt (some policy) object = Except.ok true)
    (hbinding : selector.Matches lib.EqualFold binding.Spec.MatchResources
      { Object := object } = (true, none))
    (hfailed : e.evaluatePolicyOnly fmt policy object = Except.ok false) :
    e.EvaluatePolicyWithBinding lib fmt (some policy) (some binding) object
      = (match binding.Spec.ValidationActions with
          | some actions =>
            if "Deny" ∈ actions then ((false, "policy violation: deny"), none)
            else ((true, "Policy violation detected but allowed as warning only"), none)
          | none => ((false, "Policy violation detected"), none)) := by
  unfold DefaultCELEvaluator.EvaluatePolicyWithBinding
  have hprep : ({ Object := object } : admission.AdmissionTarget).PrepareObject
      = { Object := object } := PrepareObject_of_empty _ rfl rfl
  simp only [hname, bne_self_eq_false, Bool.false_eq_true, if_false, hpolicy, Bool.not_true,
    hprep, hbinding, hfailed, Bool.not_false, if_true]
  cases binding.Spec.ValidationActions with
  | none => rfl
  | some actions =>
    by_cases hd : "Deny" ∈ actions
    · have hany : actions.any (fun action => action == admissionregistrationv1.Deny) = true := by
        rw [List.any_eq_true]
        exact ⟨"Deny", hd, by decide⟩
      simp [hany, hd]
    · have hany : actions.any (fun action => action == admissionregistrationv1.Deny) = false := by
        cases hc : actions.any (fun action => action == admissionregistrationv1.Deny) with
        | false => rfl
        | true =>
          rw [List.any_eq_true] at hc
          obtain ⟨x, hx, hxd⟩ := hc
          have hxd2 : x = "Deny" := by simpa [admissionregistrationv1.Deny] using hxd
          exact absurd (hxd2 ▸ hx) hd
      simp [hany, hd]

/-! Lemmas on PrepareObject -/

theorem lookup_filter_ne (m : Object) (k key : String) (h : key ≠ k) :
    (m.filter (fun kv => kv.1 != k)).lookup key = m.lookup key := by
  induction m with
  | nil => rfl
  | cons kv rest ih =>
    obtain ⟨a, b⟩ := kv
    by_cases ha : a = k
    · subst ha
      have hne : (key == a) = false := by simpa using h
      rw [List.filter_cons_of_neg (by simp), ih, List.lookup_cons, hne]
    · rw [List.filter_cons_of_pos (by simpa using ha), List.lookup_cons, List.lookup_cons, ih]

theorem lookup_mapSet_self (m : Object) (k : String) (v : Value) :
    (mapSet m k v).lookup k = some v := by
  unfold mapSet
  rw [List.lookup_cons]
  simp

theorem lookup_mapSet_ne (m : Object) (k key : String) (v : Value) (h : key ≠ k) :
    (mapSet m k v).lookup key = m.lookup key := by
  unfold mapSet
  have hne : (key == k) = false := by simpa using h
  rw [List.lookup_cons, hne]
  exact lookup_filter_ne m k key h

theorem mapSet_mapSet (m : Object) (k : String) (v : Value) :
    mapSet (mapSet m k v) k v = mapSet m k v := by
  unfold mapSet
  simp [List.filter_cons, List.filter_filter]

theorem labelsLoop_lookup :
    ∀ (labels : List (String × String)) (acc : Object) (key : String),
      (labels.map Prod.fst).Nodup →
      (admission.labelsLoop acc labels).lookup key
        = (match labels.lookup key with
            | some v => some (Value.str v)
            | none => acc.lookup key) := by
  intro labels
  induction labels with
  | nil => intro acc key _; rfl
  | cons kv rest ih =>
    intro acc key hnodup
    obtain ⟨k, v⟩ := kv
    rw [List.map_cons, List.nodup_cons] at hnodup
    obtain ⟨hk, hrest⟩ := hnodup
    rw [admission.labelsLoop, ih _ key hrest, List.lookup_cons]
    by_cases hkey : key = k
    · subst hkey
      have hnone : rest.lookup key = none := by
        rw [List.lookup_eq_none_iff]
        intro p hp
        rw [bne_iff_ne]
        intro hpk
        apply hk
        rw [List.mem_map]
        exact ⟨p, hp, hpk.symm⟩
      rw [hnone]
      simp [lookup_mapSet_self]
    · have hne : (key == k) = false := by simpa using hkey
      rw [hne]
      cases rest.lookup key with
      | some w => rfl
      | none => exact lookup_mapSet_ne acc k key (Value.str v) hkey

theorem PrepareObject_of_nonempty (a : admission.AdmissionTarget)
    (h : ¬ (a.Namespace = "" ∧ a.Labels = [])) :
    a.PrepareObject
      = { a with Object := mapSet a.Object "metadata" (Value.map (specMetadata a)) } := by
  unfold admission.AdmissionTarget.PrepareObject specMetadata
  have hguard : (a.Namespace == "" && a.Labels.length == 0) = false := by
    cases hb : (a.Namespace == "" && a.Labels.length == 0) with
    | false => rfl
    | true =>
      rw [Bool.and_eq_true, beq_iff_eq, beq_iff_eq, List.length_eq_zero] at hb
      exact absurd hb h
  rw [hguard]
  by_cases hns : a.Namespace = "" <;> by_cases hl : a.Labels = []
  · exact absurd ⟨hns, hl⟩ h
  · have hpos : a.Labels.length > 0 := List.length_pos.2 hl
    simp [hns, hl, hpos, mapSet]
  · simp [hns, hl, mapSet]
  · have hpos : a.Labels.length > 0 := List.length_pos.2 hl
    simp [hns, hl, hpos, mapSet]

theorem specMetadata_lookup (a : admission.AdmissionTarget) :
    (specMetadata a).lookup "namespace"
      = (if a.Namespace = "" then none else some (Value.str a.Namespace)) ∧
    (a.Labels = [] → (specMetadata a).lookup "labels" = none) ∧
    (a.Labels ≠ [] → (specMetadata a).lookup "labels"
      = some (Value.map (admission.labelsLoop [] a.Labels))) ∧
    (∀ key : String, key ≠ "namespace" → key ≠ "labels" →
      (specMetadata a).lookup key = none) := by
  unfold specMetadata
  refine ⟨?_, ?_, ?_, ?_⟩
  · by_cases hns : a.Namespace = "" <;> by_cases hl : a.Labels = [] <;>
      simp [hns, hl, List.lookup_cons]
  · intro hl
    by_cases hns : a.Namespace = "" <;> simp [hns, hl, List.lookup_cons]
  · intro hl
    by_cases hns : a.Namespace = "" <;> simp [hns, hl, List.lookup_cons]
  · intro key h1 h2
    have e1 : (key == "namespace") = false := by simpa using h1
    have e2 : (key == "labels") = false := by simpa using h2
    by_cases hns : a.Namespace = "" <;> by_cases hl : a.Labels = [] <;>
      simp [hns, hl, List.lookup_cons, e1, e2]


end engine

namespace reporter

/-! Lemmas on wrapText -/

theorem len_append (a b : String) : strings.len (a ++ b) = strings.len a + strings.len b := by
  cases a with
  | mk as =>
    cases b with
    | mk bs =>
      show String.utf8ByteSize (⟨as⟩ ++ ⟨bs⟩) = String.utf8ByteSize ⟨as⟩ + String.utf8ByteSize ⟨bs⟩
      have happ : (⟨as⟩ ++ ⟨bs⟩ : String) = ⟨as ++ bs⟩ := rfl
      rw [happ, String.utf8ByteSize_mk, String.utf8ByteSize_mk, String.utf8ByteSize_mk,
        String.utf8Len_append]

theorem len_space : strings.len " " = 1 := by decide

theorem mk_ne_empty (cs : List Char) (h : cs ≠ []) : String.mk cs ≠ "" := by
  intro hc
  apply h
  have hd : (String.mk cs).data = [] := by rw [hc]
  exact hd

theorem fieldsLoop_ne_empty :
    ∀ (l current : List Char), ∀ w ∈ strings.fieldsLoop current l, w ≠ "" := by
  intro l
  induction l with
  | nil =>
    intro current w hw
    unfold strings.fieldsLoop at hw
    split at hw
    · simp at hw
    · rename_i hne
      rw [List.mem_singleton.1 hw]
      exact mk_ne_empty current (by simpa using hne)
  | cons c cs ih =>
    intro current w hw
    unfold strings.fieldsLoop at hw
    split at hw
    · split at hw
      · exact ih [] w hw
      · rename_i hne
        rcases List.mem_cons.1 hw with h | h
        · rw [h]
          exact mk_ne_empty current (by simpa using hne)
        · exact ih [] w h
    · exact ih _ w hw

theorem Join_ne_empty (group : List String) (hne : group ≠ [])
    (hwords : ∀ w ∈ group, w ≠ "") : strings.Join group " " ≠ "" := by
  match group, hne with
  | [a], _ =>
    exact hwords a (List.mem_singleton.2 rfl)
  | a :: b :: rest, _ =>
    rw [strings.Join]
    exact engine.append_ne_empty _ _ (engine.append_ne_empty _ _ (hwords a (List.mem_cons_self _ _)))

theorem Join_snoc (group : List String) (word : String) (hne : group ≠ []) :
    strings.Join (group ++ [word]) " " = strings.Join group " " ++ " " ++ word := by
  induction group with
  | nil => exact absurd rfl hne
  | cons a rest ih =>
    cases rest with
    | nil => rfl
    | cons b bs =>
      have hstep := ih (List.cons_ne_nil b bs)
      rw [List.cons_append, List.cons_append, strings.Join, ← List.cons_append, hstep,
        strings.Join]
      simp only [String.append_assoc]

theorem wrapLoop_groups (width : Int) :
    ∀ (words : List String) (groups : List (List String)) (group : List String),
      (∀ w ∈ words, w ≠ "") → (∀ w ∈ group, w ≠ "") →
      (∀ x ∈ groups, x ≠ [] ∧
        (1 < x.length → (strings.len (strings.Join x " ") : Int) ≤ width)) →
      (1 < group.length → (strings.len (strings.Join group " ") : Int) ≤ width) →
      ∃ (groups2 : List (List String)) (group2 : List String),
        wrapLoop width (groups.map (fun x => strings.Join x " ")) (strings.Join group " ") words
          = (groups2.map (fun x => strings.Join x " "), strings.Join group2 " ") ∧
        groups2.flatten ++ group2 = groups.flatten ++ group ++ words ∧
        (∀ w ∈ group2, w ≠ "") ∧
        (∀ x ∈ groups2, x ≠ [] ∧
          (1 < x.length → (strings.len (strings.Join x " ") : Int) ≤ width)) ∧
        (1 < group2.length → (strings.len (strings.Join group2 " ") : Int) ≤ width) := by
  intro words
  induction words with
  | nil =>
    intro groups group _ hg hgs hlen
    exact ⟨groups, group, rfl, by simp, hg, hgs, hlen⟩
  | cons word rest ih =>
    intro groups group hwords hg hgs hlen
    have hword : word ≠ "" := hwords word (List.mem_cons_self _ _)
    have hrest : ∀ w ∈ rest, w ≠ "" := fun w hw => hwords w (List.mem_cons_of_mem _ hw)
    have hsingle : ∀ w ∈ [word], w ≠ "" := by
      intro w hw
      rw [List.mem_singleton.1 hw]
      exact hword
    rw [wrapLoop]
    by_cases hempty : group = []
    · subst hempty
      have hj : strings.Join [] " " = "" := rfl
      rw [hj, if_pos (by decide)]
      obtain ⟨groups2, group2, h1, h2, h3, h4, h5⟩ :=
        ih groups [word] hrest hsingle hgs (by simp)
      have hjw : strings.Join [word] " " = word := rfl
      rw [hjw] at h1
      exact ⟨groups2, group2, h1, by simpa using h2, h3, h4, h5⟩
    · have hcur : strings.Join group " " ≠ "" := Join_ne_empty group hempty hg
      rw [if_neg (by simpa using hcur)]
      by_cases hfits : (strings.len (strings.Join group " ") : Int) + 1 + (strings.len word : Int)
          ≤ width
      · rw [if_pos hfits]
        have hg2 : ∀ w ∈ group ++ [word], w ≠ "" := by
          intro w hw
          rcases List.mem_append.1 hw with h | h
          · exact hg w h
          · exact hsingle w h
        have hlen2 : 1 < (group ++ [word]).length →
            (strings.len (strings.Join (group ++ [word]) " ") : Int) ≤ width := by
          intro _
          rw [Join_snoc group word hempty, len_append, len_append, len_space]
          push_cast
          exact hfits
        obtain ⟨groups2, group2, h1, h2, h3, h4, h5⟩ :=
          ih groups (group ++ [word]) hrest hg2 hgs hlen2
        rw [Join_snoc group word hempty] at h1
        exact ⟨groups2, group2, h1, by simpa using h2, h3, h4, h5⟩
      · rw [if_neg hfits]
        have hgs2 : ∀ x ∈ groups ++ [group], x ≠ [] ∧
            (1 < x.length → (strings.len (strings.Join x " ") : Int) ≤ width) := by
          intro x hx
          rcases List.mem_append.1 hx with h | h
          · exact hgs x h
          · rw [List.mem_singleton.1 h]
            exact ⟨hempty, hlen⟩
        obtain ⟨groups2, group2, h1, h2, h3, h4, h5⟩ :=
          ih (groups ++ [group]) [word] hrest hsingle hgs2 (by simp)
        have hj : strings.Join [word] " " = word := rfl
        rw [hj, List.map_append] at h1
        exact ⟨groups2, group2, h1, by simpa using h2, h3, h4, h5⟩

theorem wrapText_of_fits (text : String) (width : Int)
    (h : width ≤ 0 ∨ (strings.len text : Int) ≤ width) : wrapText text width = [text] := by
  unfold wrapText
  rw [if_pos h]

theorem wrapText_wrapped (text : String) (width : Int)
    (h : ¬ (width ≤ 0 ∨ (strings.len text : Int) ≤ width)) :
    specWrapped text width (wrapText text width) := by
  unfold wrapText
  rw [if_neg h]
  obtain ⟨groups2, group2, h1, h2, h3, h4, h5⟩ :=
    wrapLoop_groups width (strings.Fields text) [] []
      (fieldsLoop_ne_empty text.data []) (by simp) (by simp) (by simp)
  have hj : strings.Join [] " " = "" := rfl
  rw [List.map_nil, hj] at h1
  rw [h1]
  dsimp only
  by_cases hempty : group2 = []
  · subst hempty
    rw [hj, if_neg (by decide)]
    refine ⟨groups2, ?_, rfl, h4⟩
    simpa using h2
  · have hcur : strings.Join group2 " " ≠ "" := Join_ne_empty group2 hempty h3
    rw [if_pos (by simpa using hcur)]
    refine ⟨groups2 ++ [group2], ?_, by simp, ?_⟩
    · simpa using h2
    · intro x hx
      rcases List.mem_append.1 hx with hx1 | hx1
      · exact h4 x hx1
      · rw [List.mem_singleton.1 hx1]
        exact ⟨hempty, h5⟩

theorem wrapText_eq_nil_iff (text : String) (width : Int) :
    wrapText text width = []
      ↔ (0 < width ∧ width < (strings.len text : Int) ∧ strings.Fields text = []) := by
  by_cases h : width ≤ 0 ∨ (strings.len text : Int) ≤ width
  · rw [wrapText_of_fits text width h]
    constructor
    · intro hnil
      exact absurd hnil (by simp)
    · rintro ⟨h1, h2, _⟩
      rcases h with h | h <;> omega
  · have hguard : 0 < width ∧ width < (strings.len text : Int) := by
      constructor
      · by_contra hc
        exact h (Or.inl (by omega))
      · by_contra hc
        exact h (Or.inr (by omega))
    obtain ⟨groups, hflat, hlines, hgroups⟩ := wrapText_wrapped text width h
    constructor
    · intro hnil
      refine ⟨hguard.1, hguard.2, ?_⟩
      rw [hnil] at hlines
      have hg : groups = [] := by
        cases groups with
        | nil => rfl
        | cons a rest => simp at hlines
      rw [← hflat, hg]
      rfl
    · rintro ⟨_, _, hfields⟩
      rw [hlines]
      cases groups with
      | nil => rfl
      | cons a rest =>
        have ha := (hgroups a (List.mem_cons_self _ _)).1
        rw [hfields] at hflat
        cases a with
        | nil => exact absurd rfl ha
        | cons w ws => simp at hflat

end reporter

namespace commands

open reporter

/-! Lemmas on the commands -/

theorem finishRun_failed (rep : Reporter)
    (run : Except Error kaptestv1.ValidatingAdmissionPolicyTestStatus)
    (status : kaptestv1.ValidatingAdmissionPolicyTestStatus)
    (hmem : Event.report status ∈ (finishRun rep run).2)
    (hfailed : 0 < status.Summary.Failed) : (finishRun rep run).1 ≠ none := by
  unfold finishRun at hmem ⊢
  split
  · simp
  · rename_i reported
    dsimp only at hmem ⊢
    split
    · simp
    · rename_i hrep
      rw [hrep] at hmem
      dsimp only at hmem
      by_cases hf : reported.Summary.Failed > 0
      · rw [if_pos hf]
        simp
      · rw [if_neg hf] at hmem
        simp only [List.mem_singleton, Event.report.injEq] at hmem
        rw [hmem] at hfailed
        exact absurd hfailed hf

theorem loadedParameter_no_report (test : kaptestv1.ValidatingAdmissionPolicyTest)
    (resourceLoader : loader.ResourceLoader) (resourceSource : loader.ResourceSource)
    (status : kaptestv1.ValidatingAdmissionPolicyTestStatus) :
    Event.report status ∉ (loadedParameter test resourceLoader resourceSource).2 := by
  unfold loadedParameter
  split
  · split <;> simp
  · simp

theorem loadedBindings_no_report (opts : RunOptions) (resourceLoader : loader.ResourceLoader)
    (resourceSource : loader.ResourceSource)
    (status : kaptestv1.ValidatingAdmissionPolicyTestStatus) :
    Event.report status ∉ (loadedBindings opts resourceLoader resourceSource).2 := by
  unfold loadedBindings
  split
  · dsimp only
    rw [List.mem_append]
    rintro (h | h)
    · revert h
      split <;> simp
    · revert h
      split <;> simp
  · dsimp only
    split <;> simp

theorem runLoaded_failed (lib : GoLibrary) (fmt : Printer) (simulator : engine.PolicySimulator)
    (rep : Reporter) (opts : RunOptions) (test : kaptestv1.ValidatingAdmissionPolicyTest)
    (resourceLoader : loader.ResourceLoader) (resourceSource : loader.ResourceSource)
    (status : kaptestv1.ValidatingAdmissionPolicyTestStatus)
    (hmem : Event.report status
      ∈ (runLoaded lib fmt simulator rep opts test resourceLoader resourceSource).2)
    (hfailed : 0 < status.Summary.Failed) :
    (runLoaded lib fmt simulator rep opts test resourceLoader resourceSource).1 ≠ none := by
  unfold runLoaded at hmem ⊢
  cases hpol : resourceLoader.LoadPolicies resourceSource with
  | error err => simp
  | ok policies =>
    rw [hpol] at hmem
    dsimp only at hmem ⊢
    by_cases hlen : (policies.length == 0) = true
    · rw [if_pos hlen]
      simp
    · rw [if_neg hlen] at hmem ⊢
      dsimp only at hmem ⊢
      rw [List.mem_append, List.mem_append] at hmem
      rcases hmem with (hm | hm) | hm
      · exact absurd hm (loadedParameter_no_report _ _ _ _)
      · exact absurd hm (loadedBindings_no_report _ _ _ _)
      · exact finishRun_failed rep _ status hm hfailed

theorem runFromSource_failed (host : Host) (lib : GoLibrary) (fmt : Printer)
    (simulator : engine.PolicySimulator) (rep : Reporter) (opts : RunOptions)
    (test : kaptestv1.ValidatingAdmissionPolicyTest) (sourceType : String)
    (status : kaptestv1.ValidatingAdmissionPolicyTestStatus)
    (hmem : Event.report status
      ∈ (runFromSource host lib fmt simulator rep opts test sourceType).2)
    (hfailed : 0 < status.Summary.Failed) :
    (runFromSource host lib fmt simulator rep opts test sourceType).1 ≠ none := by
  unfold runFromSource at hmem ⊢
  by_cases hlocal : (sourceType == "local") = true
  · rw [if_pos hlocal] at hmem ⊢
    cases hloader : host.NewLocalResourceLoader with
    | error err => simp
    | ok resourceLoader =>
      rw [hloader] at hmem
      exact runLoaded_failed lib fmt simulator rep opts test resourceLoader _ status hmem
        hfailed
  · rw [if_neg hlocal] at hmem ⊢
    by_cases hcluster : (sourceType == "cluster") = true
    · rw [if_pos hcluster] at hmem ⊢
      cases hloader : host.NewClusterResourceLoader opts.Kubeconfig with
      | error err => simp
      | ok resourceLoader =>
        rw [hloader] at hmem
        exact runLoaded_failed lib fmt simulator rep opts test resourceLoader _ status hmem
          hfailed
    · rw [if_neg hcluster]
      simp

theorem runTestFile_failed (host : Host) (lib : GoLibrary) (fmt : Printer)
    (simulator : engine.PolicySimulator) (rep : Reporter) (opts : RunOptions)
    (testFilePath : String) (status : kaptestv1.ValidatingAdmissionPolicyTestStatus)
    (hmem : Event.report status
      ∈ (runTestFile host lib fmt simulator rep opts testFilePath).2)
    (hfailed : 0 < status.Summary.Failed) :
    (runTestFile host lib fmt simulator rep opts testFilePath).1 ≠ none := by
  have hstarted : Event.report status ∉
      (if !opts.Quiet then [Event.info ("Processing test file: " ++ host.Clean testFilePath)]
        else []) := by
    split <;> simp
  unfold runTestFile at hmem ⊢
  dsimp only at hmem ⊢
  cases hloader : host.NewLocalResourceLoader with
  | error err => simp
  | ok initialLoader =>
    rw [hloader] at hmem
    dsimp only at hmem ⊢
    cases htest : initialLoader.LoadPolicyTest (host.Clean testFilePath) true with
    | error err => simp
    | ok test =>
      rw [htest] at hmem
      dsimp only at hmem ⊢
      rw [List.mem_append] at hmem
      rcases hmem with hm | hm
      · exact absurd hm hstarted
      · exact runFromSource_failed host lib fmt simulator rep opts test _ status hm hfailed

theorem runFilesLoop_keeps_error (host : Host) (lib : GoLibrary) (fmt : Printer)
    (simulator : engine.PolicySimulator) (rep : Reporter) (opts : RunOptions) :
    ∀ (args : List String) (lastErr : Option Error), lastErr ≠ none →
      (runFilesLoop host lib fmt simulator rep opts lastErr args).1 ≠ none := by
  intro args
  induction args with
  | nil => intro lastErr h; exact h
  | cons path rest ih =>
    intro lastErr h
    rw [runFilesLoop]
    apply ih
    cases (runTestFile host lib fmt simulator rep opts path).1 with
    | none => exact h
    | some err => simp

theorem runFilesLoop_error (host : Host) (lib : GoLibrary) (fmt : Printer)
    (simulator : engine.PolicySimulator) (rep : Reporter) (opts : RunOptions) :
    ∀ (args : List String) (lastErr : Option Error),
      (∃ path ∈ args, (runTestFile host lib fmt simulator rep opts path).1 ≠ none) →
      (runFilesLoop host lib fmt simulator rep opts lastErr args).1 ≠ none := by
  intro args
  induction args with
  | nil =>
    rintro lastErr ⟨path, hpath, _⟩
    simp at hpath
  | cons first rest ih =>
    rintro lastErr ⟨path, hpath, herr⟩
    rw [runFilesLoop]
    rcases List.mem_cons.1 hpath with h | h
    · subst h
      apply runFilesLoop_keeps_error
      cases hrun : (runTestFile host lib fmt simulator rep opts path).1 with
      | none => exact absurd hrun herr
      | some err => simp
    · exact ih _ ⟨path, h, herr⟩

theorem runFilesLoop_events (host : Host) (lib : GoLibrary) (fmt : Printer)
    (simulator : engine.PolicySimulator) (rep : Reporter) (opts : RunOptions) :
    ∀ (args : List String) (lastErr : Option Error) (event : Event),
      event ∈ (runFilesLoop host lib fmt simulator rep opts lastErr args).2 →
      ∃ path ∈ args, event ∈ (runTestFile host lib fmt simulator rep opts path).2 := by
  intro args
  induction args with
  | nil =>
    intro lastErr event h
    simp [runFilesLoop] at h
  | cons first rest ih =>
    intro lastErr event h
    rw [runFilesLoop] at h
    dsimp only at h
    rcases List.mem_append.1 h with h1 | h1
    · exact ⟨first, List.mem_cons_self _ _, h1⟩
    · obtain ⟨path, hpath, hev⟩ := ih _ event h1
      exact ⟨path, List.mem_cons_of_mem _ hpath, hev⟩

theorem runCommand_failed (host : Host) (lib : GoLibrary) (fmt : Printer) (opts : RunOptions)
    (args : List String) (status : kaptestv1.ValidatingAdmissionPolicyTestStatus)
    (hmem : Event.report status ∈ (runCommand host lib fmt opts args).2)
    (hfailed : 0 < status.Summary.Failed) :
    (runCommand host lib fmt opts args).1 ≠ none := by
  unfold runCommand at hmem ⊢
  split
  · simp
  · split
    · simp
    · rename_i hformat _ simulator hsim
      rw [if_neg hformat, hsim] at hmem
      dsimp only at hmem
      obtain ⟨path, hpath, hev⟩ := runFilesLoop_events host lib fmt simulator _ opts args none
        _ hmem
      exact runFilesLoop_error host lib fmt simulator _ opts args none
        ⟨path, hpath, runTestFile_failed host lib fmt simulator _ opts path status hev hfailed⟩

theorem finishCheck_error (rep : Reporter) (tally : Tally) :
    (finishCheck rep tally).1
      = rep.Report
          { Results := tally.allResults,
            Summary := { Total := tally.totalCount, Successful := tally.successCount,
                         Failed := tally.failedCount } } ∧
    Event.report
        { Results := tally.allResults,
          Summary := { Total := tally.totalCount, Successful := tally.successCount,
                       Failed := tally.failedCount } } ∈ (finishCheck rep tally).2 := by
  unfold finishCheck
  dsimp only
  cases hrep : rep.Report
      { Results := tally.allResults,
        Summary := { Total := tally.totalCount, Successful := tally.successCount,
                     Failed := tally.failedCount } } with
  | none => simp
  | some err => simp

theorem runLocalCheck_of_loaded (host : Host) (lib : GoLibrary) (fmt : Printer)
    (rep : Reporter) (simulator : engine.PolicySimulator) (manifestFiles : List String)
    (opts : CheckOptions) (resourceLoader : loader.ResourceLoader)
    (policies : List ValidatingAdmissionPolicy)
    (hloader : host.NewLocalResourceLoader = Except.ok resourceLoader)
    (hpolicies : resourceLoader.LoadPolicies { Type_ := "local", Files := opts.PolicyFiles }
      = Except.ok policies) :
    ∃ status : kaptestv1.ValidatingAdmissionPolicyTestStatus,
      Event.report status
        ∈ (runLocalCheck host lib fmt rep simulator manifestFiles opts).2 ∧
      (runLocalCheck host lib fmt rep simulator manifestFiles opts).1 = rep.Report status := by
  unfold runLocalCheck
  rw [hloader]
  dsimp only
  unfold loadForCheck
  rw [hpolicies]
  dsimp only
  exact ⟨_, List.mem_append_right _ (finishCheck_error rep _).2, (finishCheck_error rep _).1⟩

theorem runClusterCheck_of_loaded (host : Host) (lib : GoLibrary) (fmt : Printer)
    (rep : Reporter) (simulator : engine.PolicySimulator) (resourceSpecs : List String)
    (opts : CheckOptions) (resourceLoader : loader.ResourceLoader)
    (policies : List ValidatingAdmissionPolicy)
    (hloader : host.NewClusterResourceLoader opts.Kubeconfig = Except.ok resourceLoader)
    (hpolicies : resourceLoader.LoadPolicies { Type_ := "local", Files := opts.PolicyFiles }
      = Except.ok policies)
    (hspecs : resourceSpecs ≠ []) :
    ∃ status : kaptestv1.ValidatingAdmissionPolicyTestStatus,
      Event.report status
        ∈ (runClusterCheck host lib fmt rep simulator resourceSpecs opts).2 ∧
      (runClusterCheck host lib fmt rep simulator resourceSpecs opts).1
        = rep.Report status := by
  have hpos : resourceSpecs.length > 0 := List.length_pos.2 hspecs
  have hzero : ¬ (resourceSpecs.length == 0) = true := by
    simp only [beq_iff_eq]
    omega
  unfold runClusterCheck
  rw [hloader]
  dsimp only
  unfold loadForCheck
  rw [hpolicies]
  dsimp only
  rw [if_pos hpos]
  dsimp only
  rw [if_neg hzero]
  exact ⟨_, List.mem_append_right _ (finishCheck_error rep _).2, (finishCheck_error rep _).1⟩

end commands

namespace engine


/-! Theorems on the validation pipeline -/

/-- C11, as stated, fails: a matchCondition that calls an undeclared function does not
compile, and `ValidatePolicy` denies with one violation of reason
`MatchConditionEvaluationError` instead of skipping the policy, although the validation
holds on the object. -/
theorem ValidatePolicy_condition_compile_error :
    ∃ report : Error,
      scenarioEnv.Compile "nonExistentFunction()" = some report ∧
      (ValidatePolicy scenarioPrinter (scenarioValidator 5)
          { Spec := { MatchConditions := [{ Name := "c", Expression := "nonExistentFunction()" }],
                      Validations := [{ Expression := "object.spec.replicas <= 10" }] } }
          true).1
        = NewValidationResult false
            [{ Reason := "MatchConditionEvaluationError",
               Message := "Failed to evaluate matchConditions: failed to evaluate matchCondition c: failed to compile expression: "
                 ++ report }] :=
  ⟨_, rfl, rfl⟩

/-- C11, amended: when the evaluation of a matchCondition fails with an error that is not
a trap on a missing map key, all earlier conditions being true, `ValidatePolicy` denies
with exactly one violation, of reason `MatchConditionEvaluationError`, and evaluates
nothing after that condition. -/
theorem ValidatePolicy_condition_error (fmt : Printer) (v : PolicyValidator)
    (policy : ValidatingAdmissionPolicy) (collectAllViolations : Bool)
    (pre post : List MatchCondition) (c : MatchCondition) (err : Error)
    (hconds : policy.Spec.MatchConditions = pre ++ c :: post)
    (hpre : ∀ d ∈ pre,
      v.celEvaluator.Evaluate d.Expression v.contextVars = Except.ok (Value.bool true))
    (hc : v.celEvaluator.Evaluate c.Expression v.contextVars = Except.error err)
    (_hkey : strings.Contains err "no such key" = false) :
    ValidatePolicy fmt v policy collectAllViolations
      = (NewValidationResult false
          [{ Reason := "MatchConditionEvaluationError",
             Message := "Failed to evaluate matchConditions: "
               ++ ("failed to evaluate matchCondition " ++ c.Name ++ ": " ++ err) }],
        (pre ++ [c]).map (fun d => (d.Expression, v.contextVars))) := by
  have hemc := evaluateMatchConditions_append_true fmt v pre (c :: post) hpre
  rw [← hconds] at hemc
  have hlen : policy.Spec.MatchConditions.length > 0 := by simp [hconds]
  unfold ValidatePolicy
  rw [if_pos hlen, hemc]
  simp [evaluateMatchConditions, hc, String.append_assoc]

/-- Witness of C11, amended: a condition that calls an undeclared function, after a
condition that holds: the policy is denied with the report of the compilation, and the
validation is not evaluated. -/
theorem ValidatePolicy_condition_error_witness :
    ∃ report : Error,
      scenarioEnv.Compile "nonExistentFunction()" = some report ∧
      ValidatePolicy scenarioPrinter (scenarioValidator 5)
          { Spec := { MatchConditions := [{ Name := "small", Expression := "object.spec.replicas <= 10" },
                                          { Name := "c", Expression := "nonExistentFunction()" }],
                      Validations := [{ Expression := "object.spec.replicas <= 10" }] } }
          false
        = (NewValidationResult false
            [{ Reason := "MatchConditionEvaluationError",
               Message := "Failed to evaluate matchConditions: "
                 ++ ("failed to evaluate matchCondition " ++ "c" ++ ": "
                 ++ ("failed to compile expression: " ++ report)) }],
          [("object.spec.replicas <= 10", (scenarioValidator 5).contextVars),
           ("nonExistentFunction()", (scenarioValidator 5).contextVars)]) :=
  ⟨_, rfl,
    ValidatePolicy_condition_error scenarioPrinter (scenarioValidator 5) _ false
      [{ Name := "small", Expression := "object.spec.replicas <= 10" }] []
      { Name := "c", Expression := "nonExistentFunction()" } _ rfl
      (by intro d hd; rw [List.mem_singleton.1 hd]; rfl) rfl (by decide)⟩

/-- A condition that traps on a missing key of the object is an error for `ValidatePolicy`
like any other: the policy is denied with the reason `MatchConditionEvaluationError`,
where `MatchesPolicy` counts such a condition as false. -/
theorem ValidatePolicy_condition_missing_key :
    (scenarioValidator 5).celEvaluator.Evaluate "object.undeclared == 1"
        (scenarioValidator 5).contextVars
      = Except.error "failed to evaluate expression: no such key: undeclared" ∧
    (ValidatePolicy scenarioPrinter (scenarioValidator 5)
        { Spec := { MatchConditions := [{ Name := "c", Expression := "object.undeclared == 1" }],
                    Validations := [{ Expression := "object.spec.replicas <= 10" }] } }
        true).1
      = NewValidationResult false
          [{ Reason := "MatchConditionEvaluationError",
             Message := "Failed to evaluate matchConditions: failed to evaluate matchCondition c: failed to evaluate expression: no such key: undeclared" }] :=
  ⟨rfl, by decide⟩

/-- C12: when a matchCondition evaluates to false and all earlier ones to true,
`ValidatePolicy` returns allowed with no violations, and the only expressions it has
evaluated are the conditions up to and including that one. -/
theorem ValidatePolicy_condition_false (fmt : Printer) (v : PolicyValidator)
    (policy : ValidatingAdmissionPolicy) (collectAllViolations : Bool)
    (pre post : List MatchCondition) (c : MatchCondition)
    (hconds : policy.Spec.MatchConditions = pre ++ c :: post)
    (hpre : ∀ d ∈ pre,
      v.celEvaluator.Evaluate d.Expression v.contextVars = Except.ok (Value.bool true))
    (hc : v.celEvaluator.Evaluate c.Expression v.contextVars = Except.ok (Value.bool false)) :
    ValidatePolicy fmt v policy collectAllViolations
      = (NewValidationResult true [],
        (pre ++ [c]).map (fun d => (d.Expression, v.contextVars))) := by
  have hemc := evaluateMatchConditions_append_true fmt v pre (c :: post) hpre
  rw [← hconds] at hemc
  have hlen : policy.Spec.MatchConditions.length > 0 := by simp [hconds]
  unfold ValidatePolicy
  rw [if_pos hlen, hemc]
  simp [evaluateMatchConditions, hc, Value.asBool]

/-- Witness of C12: fifteen replicas against the condition `object.spec.replicas <= 10`,
followed by a condition and a validation that are not evaluated. -/
theorem ValidatePolicy_condition_false_witness :
    ValidatePolicy scenarioPrinter (scenarioValidator 15)
        { Spec := { MatchConditions := [{ Name := "small", Expression := "object.spec.replicas <= 10" },
                                        { Name := "c", Expression := "object.undeclared == 1" }],
                    Validations := [{ Expression := "object.spec.replicas" }] } }
        true
      = (NewValidationResult true [],
        (([] : List MatchCondition)
            ++ [({ Name := "small", Expression := "object.spec.replicas <= 10" } : MatchCondition)]).map
          (fun d => (d.Expression, (scenarioValidator 15).contextVars))) :=
  ValidatePolicy_condition_false scenarioPrinter (scenarioValidator 15) _ true []
    [{ Name := "c", Expression := "object.undeclared == 1" }]
    { Name := "small", Expression := "object.spec.replicas <= 10" } rfl
    (by intro d hd; cases hd) rfl

/-- C13, as stated, fails: a policy with no validations whose matchCondition returns a
number is denied with one violation. -/
theorem ValidatePolicy_no_validations_denied :
    ({ Spec := { MatchConditions := [{ Name := "n", Expression := "object.spec.replicas" }] } } :
        ValidatingAdmissionPolicy).Spec.Validations = [] ∧
    (ValidatePolicy scenarioPrinter (scenarioValidator 15)
        { Spec := { MatchConditions := [{ Name := "n", Expression := "object.spec.replicas" }] } }
        false).1
      = NewValidationResult false
          [{ Reason := "MatchConditionEvaluationError",
             Message := "Failed to evaluate matchConditions: matchCondition n did not return a boolean: ? (type: ?)" }] :=
  ⟨rfl, by decide⟩

/-- C13, amended: a policy with zero validations whose matchConditions are evaluated
without an error is allowed with no violations, whatever its variables are; none of its
variables is evaluated. -/
theorem ValidatePolicy_no_validations (fmt : Printer) (v : PolicyValidator)
    (policy : ValidatingAdmissionPolicy) (collectAllViolations : Bool)
    (hval : policy.Spec.Validations = [])
    (hconds : (evaluateMatchConditions fmt v policy.Spec.MatchConditions).1.2 = none) :
    ValidatePolicy fmt v policy collectAllViolations
      = (NewValidationResult true [],
        (evaluateMatchConditions fmt v policy.Spec.MatchConditions).2) := by
  unfold ValidatePolicy validateAfterMatch
  cases hc : policy.Spec.MatchConditions with
  | nil => simp [hval, evaluateMatchConditions]
  | cons c cs =>
    rw [hc] at hconds
    generalize evaluateMatchConditions fmt v (c :: cs) = r at hconds ⊢
    obtain ⟨⟨b, e⟩, calls⟩ := r
    simp only at hconds
    subst hconds
    cases b <;> simp [hval]

/-- Witness of C13, amended: a policy with one condition, one variable that traps on a
missing key and no validation. -/
theorem ValidatePolicy_no_validations_witness :
    ValidatePolicy scenarioPrinter (scenarioValidator 5)
        { Spec := { MatchConditions := [{ Name := "small", Expression := "object.spec.replicas <= 10" }],
                    Variables := [{ Name := "x", Expression := "object.undeclared" }] } }
        true
      = (NewValidationResult true [],
        (evaluateMatchConditions scenarioPrinter (scenarioValidator 5)
          [{ Name := "small", Expression := "object.spec.replicas <= 10" }]).2) :=
  ValidatePolicy_no_validations scenarioPrinter (scenarioValidator 5) _ true rfl rfl

/-- C14: the result of `ValidatePolicy` is allowed exactly when it has no violations,
for every policy, context, evaluator and `collectAllViolations` flag. -/
theorem ValidatePolicy_allowed_iff_no_violations (fmt : Printer) (v : PolicyValidator)
    (policy : ValidatingAdmissionPolicy) (collectAllViolations : Bool) :
    (ValidatePolicy fmt v policy collectAllViolations).1.IsAllowed
      = (ValidatePolicy fmt v policy collectAllViolations).1.GetViolations.isEmpty :=
  validationResult_allowed_iff fmt v policy collectAllViolations

/-- C15: with at least one validation and passing matchConditions, `ValidatePolicy`
evaluates the variables in declaration order, the `i`-th one against the context
variables plus `variables` mapped to the results of the variables before it; when all
succeed, the calls that follow those of the variables hold, for every validation that is
evaluated (all of them when violations are collected, otherwise those up to the first
that does not pass), the call of its expression on the context variables plus
`variables` mapped to all the variable results, and every call made there is that of a
validation or of its messageExpression on all the variable results; when the next
variable fails, the result is a denial with the single violation
`VariableEvaluationError` and nothing is evaluated after that variable. -/
theorem ValidatePolicy_variables_in_order (fmt : Printer) (v : PolicyValidator)
    (policy : ValidatingAdmissionPolicy) (collectAllViolations : Bool) (results : List Value)
    (hval : policy.Spec.Validations ≠ [])
    (hconds : (evaluateMatchConditions fmt v policy.Spec.MatchConditions).1 = (true, none))
    (hres : specVariablesEvaluateTo v policy.Spec.Variables results) :
    (results.length = policy.Spec.Variables.length →
      ValidatePolicy fmt v policy collectAllViolations
        = (NewValidationResult
            ((validationsLoop fmt v (some (bindResults [] policy.Spec.Variables results))
              collectAllViolations policy.Spec.Validations).1.length == 0)
            (validationsLoop fmt v (some (bindResults [] policy.Spec.Variables results))
              collectAllViolations policy.Spec.Validations).1,
          (evaluateMatchConditions fmt v policy.Spec.MatchConditions).2
            ++ specVariableCalls v.contextVars policy.Spec.Variables results
                policy.Spec.Variables.length
            ++ (validationsLoop fmt v (some (bindResults [] policy.Spec.Variables results))
              collectAllViolations policy.Spec.Validations).2)) ∧
    (results.length = policy.Spec.Variables.length →
      ∃ validationCalls : List Call,
        (ValidatePolicy fmt v policy collectAllViolations).2
          = (evaluateMatchConditions fmt v policy.Spec.MatchConditions).2
            ++ specVariableCalls v.contextVars policy.Spec.Variables results
                policy.Spec.Variables.length
            ++ validationCalls ∧
        (∀ validation ∈ specEvaluatedValidations v
              (bindResults [] policy.Spec.Variables results) collectAllViolations
              policy.Spec.Validations,
          (validation.Expression,
            specValidationBindings v.contextVars
              (bindResults [] policy.Spec.Variables results)) ∈ validationCalls) ∧
        (∀ first : Validation, policy.Spec.Validations.head? = some first →
          (first.Expression,
            specValidationBindings v.contextVars
              (bindResults [] policy.Spec.Variables results)) ∈ validationCalls) ∧
        (∀ call ∈ validationCalls, ∃ validation ∈ policy.Spec.Validations,
          call = (validation.Expression,
              specValidationBindings v.contextVars
                (bindResults [] policy.Spec.Variables results)) ∨
          call = (validation.MessageExpression,
              specMessageBindings v.contextVars
                (bindResults [] policy.Spec.Variables results)))) ∧
    (∀ err : Error, results.length < policy.Spec.Variables.length →
      v.celEvaluator.Evaluate (policy.Spec.Variables.getD results.length { }).Expression
          (specVariableBindings v.contextVars policy.Spec.Variables results results.length)
        = Except.error err →
      ValidatePolicy fmt v policy collectAllViolations
        = (NewValidationResult false
            [{ Reason := "VariableEvaluationError",
               Message := "Variable evaluation error: "
                 ++ ("failed to evaluate variable "
                   ++ (policy.Spec.Variables.getD results.length { }).Name ++ ": " ++ err) }],
          (evaluateMatchConditions fmt v policy.Spec.MatchConditions).2
            ++ specVariableCalls v.contextVars policy.Spec.Variables results
                (results.length + 1))) := by
  have hloop := evaluateVariablesLoop_of_results v policy.Spec.Variables [] results hres.1 hres.2
  have hlenv : ¬ policy.Spec.Validations.length = 0 := fun h0 => hval (List.length_eq_zero.1 h0)
  have hall : results.length = policy.Spec.Variables.length →
      ValidatePolicy fmt v policy collectAllViolations
        = (NewValidationResult
            ((validationsLoop fmt v (some (bindResults [] policy.Spec.Variables results))
              collectAllViolations policy.Spec.Validations).1.length == 0)
            (validationsLoop fmt v (some (bindResults [] policy.Spec.Variables results))
              collectAllViolations policy.Spec.Validations).1,
          (evaluateMatchConditions fmt v policy.Spec.MatchConditions).2
            ++ specVariableCalls v.contextVars policy.Spec.Variables results
                policy.Spec.Variables.length
            ++ (validationsLoop fmt v (some (bindResults [] policy.Spec.Variables results))
              collectAllViolations policy.Spec.Validations).2) := by
    intro hall
    rw [hall, List.drop_length] at hloop
    have hreach : specReachesValidations fmt v policy
        (bindResults [] policy.Spec.Variables results) := by
      refine ⟨hconds, ?_⟩
      rw [hloop]
      rfl
    rw [ValidatePolicy_of_reaches fmt v policy collectAllViolations _ hreach hval, hloop]
    simp [evaluateVariablesLoop, specVariableCalls, specVariableBindings]
  refine ⟨hall, ?_, ?_⟩
  · intro hlen
    refine ⟨(validationsLoop fmt v (some (bindResults [] policy.Spec.Variables results))
      collectAllViolations policy.Spec.Validations).2, ?_, ?_, ?_, ?_⟩
    · rw [hall hlen]
    · exact validationsLoop_evaluated_calls fmt v _ collectAllViolations policy.Spec.Validations
    · intro first hfirst
      cases hvs : policy.Spec.Validations with
      | nil => exact absurd hvs hval
      | cons head rest =>
        rw [hvs] at hfirst
        simp only [List.head?_cons, Option.some.injEq] at hfirst
        rw [← hfirst]
        exact validationsLoop_head_call fmt v _ collectAllViolations head rest
    · exact validationsLoop_calls_shape fmt v _ collectAllViolations policy.Spec.Validations
  · intro err hlt herr
    rw [drop_eq_getD_cons _ _ hlt] at hloop
    unfold specVariableBindings at herr
    rw [bindResults_take] at herr
    rw [evaluateVariablesLoop, herr] at hloop
    dsimp only at hloop
    rw [ValidatePolicy_of_conditions_pass fmt v policy collectAllViolations hconds]
    unfold validateAfterMatch
    simp only [beq_iff_eq, hlenv, if_false, variables_step, hloop]
    simp [specVariableCalls, specVariableBindings, List.range_succ, bindResults_take_left,
      String.append_assoc]

/-- Witness of C15: scenario E, whose two variables evaluate to 15 and 10: the variables
are called in order, the second one seeing the result of the first, and the validation
is called on both results. -/
theorem ValidatePolicy_variables_in_order_witness :
    ∃ validationCalls : List Call,
      (ValidatePolicy scenarioPrinter (scenarioValidator 15) scenarioEPolicy true).2
        = [("object.spec.replicas",
              specValidationBindings (scenarioValidator 15).contextVars []),
           ("10",
              specValidationBindings (scenarioValidator 15).contextVars
                [("replicaCount", Value.num 15)])]
          ++ validationCalls ∧
      ("variables.replicaCount <= variables.maxReplicas",
          specValidationBindings (scenarioValidator 15).contextVars
            [("maxReplicas", Value.num 10), ("replicaCount", Value.num 15)])
        ∈ validationCalls := by
  obtain ⟨validationCalls, hcalls, hmem, _, _⟩ :=
    (ValidatePolicy_variables_in_order scenarioPrinter (scenarioValidator 15) scenarioEPolicy
      true [Value.num 15, Value.num 10] (List.cons_ne_nil _ _) rfl
      ⟨by decide, by
        intro i hi
        have hi2 : i < 2 := hi
        interval_cases i <;> rfl⟩).2.1 rfl
  exact ⟨validationCalls, hcalls,
    hmem { Expression := "variables.replicaCount <= variables.maxReplicas",
           Message := "Too many replicas",
           MessageExpression := "'Replica count ' + string(variables.replicaCount) + ' exceeds maximum of ' + string(variables.maxReplicas)" }
      (List.Mem.head _)⟩


/-- C16: with `collectAllViolations` set, matchConditions and variables passing, the
violations of `ValidatePolicy` correspond one to one, in order, to the validations that do
not evaluate to true; each carries the expression of its validation, with the reason
`FailedValidation` when the validation errored or returned a non-boolean; and every
validation has been evaluated. -/
theorem ValidatePolicy_collects_all (fmt : Printer) (v : PolicyValidator)
    (policy : ValidatingAdmissionPolicy) (vv : Object)
    (hreach : specReachesValidations fmt v policy vv) :
    List.Forall₂
      (fun (validation : Validation) (violation : Violation) =>
        violation.Expression = validation.Expression ∧
          (specValidationIsFalse v vv validation = false →
            violation.Reason = "FailedValidation"))
      (policy.Spec.Validations.filter (fun validation => !specValidationPasses v vv validation))
      (ValidatePolicy fmt v policy true).1.GetViolations ∧
    ∀ validation ∈ policy.Spec.Validations,
      (validation.Expression, specValidationBindings v.contextVars vv)
        ∈ (ValidatePolicy fmt v policy true).2 := by
  constructor
  · rw [ValidatePolicy_result_of_reaches fmt v policy true vv hreach]
    exact validationsLoop_true_forall2 fmt v vv policy.Spec.Validations
  · intro validation hmem
    have hval : policy.Spec.Validations ≠ [] := List.ne_nil_of_mem hmem
    rw [ValidatePolicy_of_reaches fmt v policy true vv hreach hval]
    exact List.mem_append_right _
      (validationsLoop_true_calls fmt v vv policy.Spec.Validations validation hmem)

/-- Witness of C16: a validation that traps on a missing key, followed by the validation
of scenario A on fifteen replicas, which is still evaluated. -/
theorem ValidatePolicy_collects_all_witness :
    ("object.spec.replicas <= 10",
        specValidationBindings (scenarioValidator 15).contextVars [])
      ∈ (ValidatePolicy scenarioPrinter (scenarioValidator 15)
          { Spec := { Validations := [{ Expression := "object.undeclared" },
                                      { Expression := "object.spec.replicas <= 10" }] } }
          true).2 :=
  (ValidatePolicy_collects_all scenarioPrinter (scenarioValidator 15)
    { Spec := { Validations := [{ Expression := "object.undeclared" },
                                { Expression := "object.spec.replicas <= 10" }] } }
    [] ⟨rfl, rfl⟩).2 { Expression := "object.spec.replicas <= 10" }
    (List.Mem.tail _ (List.Mem.head _))

/-- C17: `ValidatePolicy` without `collectAllViolations` returns the same allowed value as
with it, and its violations are the first violation of the collect-all list, if any; so
it holds at most one violation. -/
theorem ValidatePolicy_first_violation (fmt : Printer) (v : PolicyValidator)
    (policy : ValidatingAdmissionPolicy) :
    (ValidatePolicy fmt v policy false).1.IsAllowed
        = (ValidatePolicy fmt v policy true).1.IsAllowed ∧
    (ValidatePolicy fmt v policy false).1.GetViolations
        = (ValidatePolicy fmt v policy true).1.GetViolations.take 1 ∧
    (ValidatePolicy fmt v policy false).1.GetViolations.length ≤ 1 := by
  have key : (ValidatePolicy fmt v policy false).1.allowed
        = (ValidatePolicy fmt v policy true).1.allowed ∧
      (ValidatePolicy fmt v policy false).1.violations
        = (ValidatePolicy fmt v policy true).1.violations.take 1 := by
    unfold ValidatePolicy
    split
    · split
      · simp [NewValidationResult]
      · split
        · simp [NewValidationResult]
        · exact validateAfterMatch_false_take fmt v policy _
    · exact validateAfterMatch_false_take fmt v policy _
  refine ⟨key.1, key.2, ?_⟩
  show (ValidatePolicy fmt v policy false).1.violations.length ≤ 1
  rw [key.2]
  simp [List.length_take]


/-- C18: a validation that evaluates to false yields, in the collect-all list, a
violation with the validation's expression and with its declared reason, or
`FailedValidation` when none is declared; it is the only violation of the first-violation
mode when no earlier validation fails; a policy whose single validation has no reason and
evaluates to false is denied with exactly one violation, of reason `FailedValidation`. -/
theorem ValidatePolicy_false_validation (fmt : Printer) (v : PolicyValidator)
    (policy : ValidatingAdmissionPolicy) (vv : Object) (pre post : List Validation)
    (validation : Validation)
    (hreach : specReachesValidations fmt v policy vv)
    (hvals : policy.Spec.Validations = pre ++ validation :: post)
    (hfalse : v.celEvaluator.Evaluate validation.Expression
        (specValidationBindings v.contextVars vv) = Except.ok (Value.bool false)) :
    (∃ violation : Violation,
      (ValidatePolicy fmt v policy true).1.GetViolations
        = (validationsLoop fmt v (some vv) true pre).1
            ++ violation :: (validationsLoop fmt v (some vv) true post).1 ∧
      ((validationsLoop fmt v (some vv) true pre).1 = [] →
        (ValidatePolicy fmt v policy false).1 = NewValidationResult false [violation]) ∧
      violation.Expression = validation.Expression ∧
      violation.Reason
        = (match validation.Reason with
          | some reason => reason
          | none => "FailedValidation")) ∧
    (pre = [] → post = [] → validation.Reason = none →
      ∀ collectAllViolations : Bool, ∃ violation : Violation,
        (ValidatePolicy fmt v policy collectAllViolations).1
          = NewValidationResult false [violation] ∧
        violation.Expression = validation.Expression ∧
        violation.Reason = "FailedValidation") := by
  have hall := violations_of_false fmt v policy vv pre post validation hreach hvals hfalse
  constructor
  · exact ⟨failedViolation fmt v validation (some vv), hall,
      first_violation_of_false fmt v policy vv pre post validation hreach hvals hfalse,
      rfl, rfl⟩
  · intro hpre hpost hreason collectAllViolations
    refine ⟨failedViolation fmt v validation (some vv), ?_, rfl, ?_⟩
    · cases collectAllViolations with
      | false =>
        apply first_violation_of_false fmt v policy vv pre post validation hreach hvals hfalse
        rw [hpre]
        rfl
      | true =>
        rw [ValidatePolicy_result_of_reaches fmt v policy true vv hreach, hvals, hpre, hpost,
          List.nil_append,
          validationsLoop_true_of_false fmt v vv validation [] hfalse]
        rfl
    · simp [failedViolation, hreason]

/-- Witness of C18: scenario A, fifteen replicas against `object.spec.replicas <= 10`. -/
theorem ValidatePolicy_false_validation_witness :
    ∃ violation : Violation,
      (ValidatePolicy scenarioPrinter (scenarioValidator 15) scenarioAPolicy false).1
        = NewValidationResult false [violation] ∧
      violation.Expression = "object.spec.replicas <= 10" ∧
      violation.Reason = "FailedValidation" :=
  (ValidatePolicy_false_validation scenarioPrinter (scenarioValidator 15) scenarioAPolicy []
    [] [] { Expression := "object.spec.replicas <= 10" } ⟨rfl, rfl⟩ rfl rfl).2 rfl rfl rfl false

/-- C19: when a validation evaluates to false and its messageExpression errors, yields a
non-string, or yields a string that is empty after trimming or holds a newline, the
violation is still recorded, its message is the static message when non-empty and
`failed expression: <expression>` otherwise, and with `collectAllViolations` the later
validations are still evaluated. -/
theorem ValidatePolicy_message_fallback (fmt : Printer) (v : PolicyValidator)
    (policy : ValidatingAdmissionPolicy) (vv : Object) (pre post : List Validation)
    (validation : Validation)
    (hreach : specReachesValidations fmt v policy vv)
    (hvals : policy.Spec.Validations = pre ++ validation :: post)
    (hfalse : v.celEvaluator.Evaluate validation.Expression
        (specValidationBindings v.contextVars vv) = Except.ok (Value.bool false))
    (hexpr : validation.MessageExpression ≠ "")
    (hfail : specMessageExpressionFails v vv validation) :
    (∃ violation : Violation,
      (ValidatePolicy fmt v policy true).1.GetViolations
        = (validationsLoop fmt v (some vv) true pre).1
            ++ violation :: (validationsLoop fmt v (some vv) true post).1 ∧
      ((validationsLoop fmt v (some vv) true pre).1 = [] →
        (ValidatePolicy fmt v policy false).1 = NewValidationResult false [violation]) ∧
      violation.Expression = validation.Expression ∧
      violation.Message = specFallbackMessage validation) ∧
    ∀ later ∈ post,
      (later.Expression, specValidationBindings v.contextVars vv)
        ∈ (ValidatePolicy fmt v policy true).2 := by
  obtain ⟨err, herr⟩ := evaluateMessage_fails fmt v validation vv hexpr hfail
  constructor
  · exact ⟨failedViolation fmt v validation (some vv),
      violations_of_false fmt v policy vv pre post validation hreach hvals hfalse,
      first_violation_of_false fmt v policy vv pre post validation hreach hvals hfalse,
      rfl, failedViolation_message_fallback fmt v validation (some vv) err herr⟩
  · intro later hlater
    have hmem : later ∈ policy.Spec.Validations := by
      rw [hvals]
      exact List.mem_append_right _ (List.mem_cons_of_mem _ hlater)
    rw [ValidatePolicy_of_reaches fmt v policy true vv hreach (List.ne_nil_of_mem hmem)]
    exact List.mem_append_right _
      (validationsLoop_true_calls fmt v vv policy.Spec.Validations later hmem)

/-- Witness of C19: a messageExpression that does not compile, with a static message,
followed by a second validation, which is still evaluated. -/
theorem ValidatePolicy_message_fallback_witness :
    ("object.spec.replicas", specValidationBindings (scenarioValidator 15).contextVars [])
      ∈ (ValidatePolicy scenarioPrinter (scenarioValidator 15)
          { Spec := { Validations :=
              [{ Expression := "object.spec.replicas <= 10",
                 Message := "Static fallback message",
                 MessageExpression := "nonExistentFunction()" },
               { Expression := "object.spec.replicas" }] } }
          true).2 :=
  (ValidatePolicy_message_fallback scenarioPrinter (scenarioValidator 15)
    { Spec := { Validations :=
        [{ Expression := "object.spec.replicas <= 10",
           Message := "Static fallback message",
           MessageExpression := "nonExistentFunction()" },
         { Expression := "object.spec.replicas" }] } }
    [] [] [{ Expression := "object.spec.replicas" }]
    { Expression := "object.spec.replicas <= 10", Message := "Static fallback message",
      MessageExpression := "nonExistentFunction()" }
    ⟨rfl, rfl⟩ rfl rfl (by decide) trivial).2 { Expression := "object.spec.replicas" }
    (List.Mem.head _)

/-- C20: for a validation that evaluates to false, a messageExpression that evaluates to
a string, non-empty after trimming and without a newline, gives the violation exactly
that string as its message, whatever the static message is; without a messageExpression
the message is the static message when non-empty and `failed expression: <expression>`
otherwise; `evaluateMessage` returns these messages with a nil error. -/
theorem ValidatePolicy_message (fmt : Printer) (v : PolicyValidator)
    (policy : ValidatingAdmissionPolicy) (vv : Object) (pre post : List Validation)
    (validation : Validation)
    (hreach : specReachesValidations fmt v policy vv)
    (hvals : policy.Spec.Validations = pre ++ validation :: post)
    (hfalse : v.celEvaluator.Evaluate validation.Expression
        (specValidationBindings v.contextVars vv) = Except.ok (Value.bool false)) :
    ∃ violation : Violation,
      (ValidatePolicy fmt v policy true).1.GetViolations
        = (validationsLoop fmt v (some vv) true pre).1
            ++ violation :: (validationsLoop fmt v (some vv) true post).1 ∧
      ((validationsLoop fmt v (some vv) true pre).1 = [] →
        (ValidatePolicy fmt v policy false).1 = NewValidationResult false [violation]) ∧
      (∀ message : String, validation.MessageExpression ≠ "" →
        v.celEvaluator.Evaluate validation.MessageExpression
            (specMessageBindings v.contextVars vv) = Except.ok (Value.str message) →
        strings.TrimSpace message ≠ "" → strings.Contains message "\n" = false →
        (evaluateMessage fmt v validation (some vv)).1 = Except.ok message ∧
          violation.Message = message) ∧
      (validation.MessageExpression = "" →
        (evaluateMessage fmt v validation (some vv)).1
            = Except.ok (specFallbackMessage validation) ∧
          violation.Message = specFallbackMessage validation) := by
  refine ⟨failedViolation fmt v validation (some vv),
    violations_of_false fmt v policy vv pre post validation hreach hvals hfalse,
    first_violation_of_false fmt v policy vv pre post validation hreach hvals hfalse, ?_, ?_⟩
  · intro message hexpr heval htrim hnewline
    have hmsg : (evaluateMessage fmt v validation (some vv)).1 = Except.ok message := by
      rw [evaluateMessage_of_expression fmt v validation vv hexpr, heval]
      simp [Value.asString, htrim, hnewline]
    refine ⟨hmsg, ?_⟩
    simp [failedViolation, hmsg]
  · intro hexpr
    have hmsg := evaluateMessage_of_no_expression fmt v validation (some vv) hexpr
    refine ⟨by rw [hmsg], ?_⟩
    simp [failedViolation, hmsg]

/-- Witness of C20: scenario E, whose messageExpression builds
`Replica count 15 exceeds maximum of 10`. -/
theorem ValidatePolicy_message_witness :
    ∃ violation : Violation,
      (ValidatePolicy scenarioPrinter (scenarioValidator 15) scenarioEPolicy false).1
        = NewValidationResult false [violation] ∧
      violation.Message = "Replica count 15 exceeds maximum of 10" := by
  obtain ⟨violation, _, hfirst, hmessage, _⟩ :=
    ValidatePolicy_message scenarioPrinter (scenarioValidator 15) scenarioEPolicy
      [("maxReplicas", Value.num 10), ("replicaCount", Value.num 15)] [] []
      { Expression := "variables.replicaCount <= variables.maxReplicas",
        Message := "Too many replicas",
        MessageExpression := "'Replica count ' + string(variables.replicaCount) + ' exceeds maximum of ' + string(variables.maxReplicas)" }
      ⟨rfl, rfl⟩ rfl rfl
  exact ⟨violation, hfirst rfl,
    (hmessage "Replica count 15 exceeds maximum of 10" (by decide) rfl (by decide)
      (by decide)).2⟩


/-- C21: for a denied result with more than one violation, `GetReason` returns `r` when
the set of the violation reasons other than the empty one and `FailedValidation` is
`{r}`, and `MultipleViolations` when that set is not a singleton. -/
theorem GetReason_multiple_violations (violations : List Violation)
    (hN : 1 < violations.length) :
    (∀ r : String, specReasonSet violations = {r} →
      (NewValidationResult false violations).GetReason = r) ∧
    ((¬ ∃ r : String, specReasonSet violations = {r}) →
      (NewValidationResult false violations).GetReason = "MultipleViolations") :=
  ⟨fun r hset => GetReason_of_singleton_set violations hN r hset,
    fun hset => GetReason_of_no_singleton_set violations hN hset⟩

/-- Witness of C21: three violations, all with the default reason. -/
theorem GetReason_multiple_violations_witness :
    (NewValidationResult false
      [{ Reason := "FailedValidation", Message := "a" }, { Reason := "", Message := "b" },
       { Reason := "FailedValidation", Message := "c" }]).GetReason = "MultipleViolations" :=
  (GetReason_multiple_violations
    [{ Reason := "FailedValidation", Message := "a" }, { Reason := "", Message := "b" },
     { Reason := "FailedValidation", Message := "c" }] (by decide)).2
    (by
      rintro ⟨r, hr⟩
      have hmem : r ∈ specReasonSet
          [{ Reason := "FailedValidation", Message := "a" }, { Reason := "", Message := "b" },
           { Reason := "FailedValidation", Message := "c" }] := by
        rw [hr]
        exact Set.mem_singleton r
      obtain ⟨h1, h2, violation, hv, hreason⟩ := hmem
      simp only [List.mem_cons, List.mem_singleton, List.not_mem_nil, or_false] at hv
      rcases hv with h | h | h <;> rw [h] at hreason <;> simp at hreason <;>
        first
          | exact h2 hreason.symm
          | exact h1 hreason.symm)

/-- C22: for a denied result with `N > 1` violations, `GetMessage` returns the header
`Multiple validation failures (N):`, a newline, and the messages of the violations in
order joined by newlines, each prefixed with `[reason] ` exactly when its reason is
neither empty nor `FailedValidation`. -/
theorem GetMessage_multiple_violations (violations : List Violation)
    (hN : 1 < violations.length) :
    (NewValidationResult false violations).GetMessage
      = "Multiple validation failures (" ++ toString violations.length ++ "):" ++ "\n"
          ++ String.intercalate "\n" (violations.map specViolationLine) := by
  rw [GetMessage_of_many violations hN, Join_eq_intercalate]
  have hmap : violations.map violationLine = violations.map specViolationLine :=
    List.map_congr_left (fun v _ => violationLine_eq v)
  rw [hmap]
  simp [String.append_assoc]

/-- Witness of C22: a violation with a reason, one with the default reason and one with
no reason. -/
theorem GetMessage_multiple_violations_witness :
    (NewValidationResult false
      [{ Reason := "Forbidden", Message := "a" }, { Reason := "FailedValidation", Message := "b" },
       { Reason := "", Message := "c" }]).GetMessage
      = "Multiple validation failures (" ++ toString 3 ++ "):" ++ "\n"
          ++ String.intercalate "\n"
            ([({ Reason := "Forbidden", Message := "a" } : Violation),
              { Reason := "FailedValidation", Message := "b" },
              { Reason := "", Message := "c" }].map specViolationLine) :=
  GetMessage_multiple_violations
    [{ Reason := "Forbidden", Message := "a" }, { Reason := "FailedValidation", Message := "b" },
     { Reason := "", Message := "c" }] (by decide)

/-- C23: `GetReason` and `GetMessage` return the empty string when the result is allowed
or has no violation, and the reason and the message of the violation when the result is
denied with exactly one; `IsAllowed` and `GetViolations` return the arguments of
`NewValidationResult`. -/
theorem NewValidationResult_accessors (allowed : Bool) (violations : List Violation) :
    (allowed = true ∨ violations = [] →
      (NewValidationResult allowed violations).GetReason = "" ∧
      (NewValidationResult allowed violations).GetMessage = "") ∧
    (∀ violation : Violation, allowed = false → violations = [violation] →
      (NewValidationResult allowed violations).GetReason = violation.Reason ∧
      (NewValidationResult allowed violations).GetMessage = violation.Message) ∧
    (NewValidationResult allowed violations).IsAllowed = allowed ∧
    (NewValidationResult allowed violations).GetViolations = violations := by
  refine ⟨?_, ?_, rfl, rfl⟩
  · rintro (h | h)
    · simp [validationResult.GetReason, validationResult.GetMessage, NewValidationResult, h]
    · simp [validationResult.GetReason, validationResult.GetMessage, NewValidationResult, h]
  · intro violation ha hv
    simp [validationResult.GetReason, validationResult.GetMessage, NewValidationResult, ha, hv]


/-- C24, as stated, fails: the first binding that matches has only `Warn`, yet the later
binding with `Deny` is tried and the policy is validated, records a PolicyResult and
denies. -/
theorem SimulateWithPolicyBindings_later_deny_binding :
    matchesBinding scenarioLibrary (scenarioBinding "warn" ["Warn"])
        (scenarioDeployment "default" 15) "CREATE" = true ∧
    shouldValidate (scenarioBinding "warn" ["Warn"]).Spec.ValidationActions = false ∧
    (SimulateWithPolicyBindings scenarioLibrary scenarioPrinter scenarioSimulator
        [scenarioAPolicy] [scenarioBinding "warn" ["Warn"], scenarioBinding "deny" ["Deny"]]
        none (scenarioTestCase "default" 15 { Allowed := false })).1
      = ({ Name := "deployment", Success := true, Details := "",
           ActualResponse := some
             { Allowed := false, Reason := "FailedValidation",
               Message := "failed expression: object.spec.replicas <= 10" },
           PolicyResults :=
             [{ PolicyName := "replica-limit", Allowed := false, Reason := "FailedValidation",
                Message := "failed expression: object.spec.replicas <= 10" }] },
         none) := by
  decide

/-- C24, amended: for a policy that has bindings, the first binding that both matches
the target and has validation actions that are empty or contain `Deny` decides: the policy
is validated once, whatever bindings follow; a matching binding without `Deny` before it
is passed over. When no binding both matches and validates, the policy records nothing
and is not validated. -/
theorem evaluatePolicy_first_validating_binding (lib : GoLibrary) (fmt : Printer)
    (validator : PolicyValidator) (bindings : List ValidatingAdmissionPolicyBinding)
    (reqObj : Object) (operation : String) (agg : Aggregate)
    (policy : ValidatingAdmissionPolicy) (hrel : relatedBindings bindings policy ≠ []) :
    (∀ (pre post : List ValidatingAdmissionPolicyBinding)
      (binding : ValidatingAdmissionPolicyBinding),
      relatedBindings bindings policy = pre ++ binding :: post →
      (∀ b ∈ pre, ¬ specValidates lib reqObj operation b) →
      specValidates lib reqObj operation binding →
      evaluatePolicy lib fmt validator bindings reqObj operation agg policy
        = (recordResult agg policy.Name (ValidatePolicy fmt validator policy true).1,
            (ValidatePolicy fmt validator policy true).2)) ∧
    ((∀ b ∈ relatedBindings bindings policy, ¬ specValidates lib reqObj operation b) →
      evaluatePolicy lib fmt validator bindings reqObj operation agg policy = (agg, [])) := by
  rw [evaluatePolicy_of_related lib fmt validator bindings reqObj operation agg policy hrel]
  constructor
  · intro pre post binding hsplit hpre hb
    rw [hsplit, bindingsLoop_skip lib fmt validator policy reqObj operation agg pre _ hpre,
      bindingsLoop_of_validates lib fmt validator policy reqObj operation agg binding post hb]
  · intro hnone
    exact bindingsLoop_none lib fmt validator policy reqObj operation agg _ hnone

/-- Witness of C24, amended: the policy of scenario A with a `Warn` binding followed by a
`Deny` binding. -/
theorem evaluatePolicy_first_validating_binding_witness :
    evaluatePolicy scenarioLibrary scenarioPrinter (scenarioContext "default" 15)
        [scenarioBinding "warn" ["Warn"], scenarioBinding "deny" ["Deny"]]
        (scenarioDeployment "default" 15) "CREATE" { } scenarioAPolicy
      = (recordResult { } scenarioAPolicy.Name
          (ValidatePolicy scenarioPrinter (scenarioContext "default" 15) scenarioAPolicy true).1,
          (ValidatePolicy scenarioPrinter (scenarioContext "default" 15) scenarioAPolicy true).2) :=
  (evaluatePolicy_first_validating_binding scenarioLibrary scenarioPrinter
    (scenarioContext "default" 15)
    [scenarioBinding "warn" ["Warn"], scenarioBinding "deny" ["Deny"]]
    (scenarioDeployment "default" 15) "CREATE" { } scenarioAPolicy
    (List.cons_ne_nil _ _)).1 [scenarioBinding "warn" ["Warn"]] []
    (scenarioBinding "deny" ["Deny"]) rfl
    (by
      intro b hb hv
      rw [List.mem_singleton.1 hb] at hv
      rcases hv.2 with h | h
      · exact absurd h (by decide)
      · exact absurd h (by decide))
    ⟨rfl, Or.inr (by decide)⟩

/-- C25: for a policy with exactly one binding, which matches the target, the policy is
validated when the validation actions of the binding are empty or contain `Deny`, and is
not validated and records nothing otherwise; a test case with only that policy then ends
allowed, with empty reason and message and no PolicyResult. -/
theorem evaluatePolicy_single_binding (lib : GoLibrary) (fmt : Printer) (p : PolicySimulator)
    (bindings : List ValidatingAdmissionPolicyBinding) (paramObj : Option RuntimeObject)
    (testCase : kaptestv1.TestCase) (reqObj : Object) (validator : PolicyValidator)
    (policy : ValidatingAdmissionPolicy) (binding : ValidatingAdmissionPolicyBinding)
    (hprep : prepareTestCase lib p paramObj testCase = Except.ok (reqObj, validator))
    (hrel : relatedBindings bindings policy = [binding])
    (hmatch : matchesBinding lib binding reqObj testCase.Operation = true) :
    (sliceElems binding.Spec.ValidationActions = []
        ∨ "Deny" ∈ sliceElems binding.Spec.ValidationActions →
      ∀ agg : Aggregate,
        evaluatePolicy lib fmt validator bindings reqObj testCase.Operation agg policy
          = (recordResult agg policy.Name (ValidatePolicy fmt validator policy true).1,
              (ValidatePolicy fmt validator policy true).2)) ∧
    (¬ (sliceElems binding.Spec.ValidationActions = []
        ∨ "Deny" ∈ sliceElems binding.Spec.ValidationActions) →
      (∀ agg : Aggregate,
        evaluatePolicy lib fmt validator bindings reqObj testCase.Operation agg policy
          = (agg, [])) ∧
      (SimulateWithPolicyBindings lib fmt p [policy] bindings paramObj testCase).1.1.ActualResponse
        = some { Allowed := true, Reason := "", Message := "" } ∧
      (SimulateWithPolicyBindings lib fmt p [policy] bindings paramObj testCase).1.1.PolicyResults
        = [] ∧
      (SimulateWithPolicyBindings lib fmt p [policy] bindings paramObj testCase).2 = []) := by
  have hne : relatedBindings bindings policy ≠ [] := by rw [hrel]; exact List.cons_ne_nil _ _
  constructor
  · intro hact agg
    rw [evaluatePolicy_of_related lib fmt validator bindings reqObj _ agg policy hne, hrel,
      bindingsLoop_of_validates lib fmt validator policy reqObj _ agg binding [] ⟨hmatch, hact⟩]
  · intro hact
    have hstep : ∀ agg : Aggregate,
        evaluatePolicy lib fmt validator bindings reqObj testCase.Operation agg policy
          = (agg, []) := by
      intro agg
      rw [evaluatePolicy_of_related lib fmt validator bindings reqObj _ agg policy hne, hrel]
      apply bindingsLoop_none
      intro b hb hv
      rw [List.mem_singleton.1 hb] at hv
      exact hact hv.2
    refine ⟨hstep, ?_⟩
    rw [SimulateWithPolicyBindings_of_prepared lib fmt p [policy] bindings paramObj testCase
      reqObj validator hprep]
    simp [policiesLoop, hstep, finalResult]

/-- Witness of C25: scenario B, a denying policy whose only binding has `Warn`. -/
theorem evaluatePolicy_single_binding_witness :
    (SimulateWithPolicyBindings scenarioLibrary scenarioPrinter scenarioSimulator
        [scenarioAPolicy] [scenarioBinding "warn" ["Warn"]] none
        (scenarioTestCase "default" 15 { Allowed := true })).1.1.ActualResponse
      = some { Allowed := true, Reason := "", Message := "" } :=
  ((evaluatePolicy_single_binding scenarioLibrary scenarioPrinter scenarioSimulator
    [scenarioBinding "warn" ["Warn"]] none (scenarioTestCase "default" 15 { Allowed := true })
    (scenarioDeployment "default" 15) (scenarioContext "default" 15) scenarioAPolicy
    (scenarioBinding "warn" ["Warn"]) rfl rfl rfl).2
    (by
      rintro (h | h)
      · exact absurd h (by decide)
      · exact absurd h (by decide))).2.1

/-- C26: a policy that has bindings, none of which matches the target, is not validated
and records nothing; the simulation gives the same result as without that policy. -/
theorem evaluatePolicy_no_matching_binding (lib : GoLibrary) (fmt : Printer)
    (p : PolicySimulator) (bindings : List ValidatingAdmissionPolicyBinding)
    (paramObj : Option RuntimeObject) (testCase : kaptestv1.TestCase) (reqObj : Object)
    (validator : PolicyValidator) (policy : ValidatingAdmissionPolicy)
    (hprep : prepareTestCase lib p paramObj testCase = Except.ok (reqObj, validator))
    (hrel : relatedBindings bindings policy ≠ [])
    (hnone : ∀ b ∈ relatedBindings bindings policy,
      matchesBinding lib b reqObj testCase.Operation = false) :
    (∀ agg : Aggregate,
      evaluatePolicy lib fmt validator bindings reqObj testCase.Operation agg policy
        = (agg, [])) ∧
    ∀ pre post : List ValidatingAdmissionPolicy,
      SimulateWithPolicyBindings lib fmt p (pre ++ policy :: post) bindings paramObj testCase
        = SimulateWithPolicyBindings lib fmt p (pre ++ post) bindings paramObj testCase := by
  have hstep : ∀ agg : Aggregate,
      evaluatePolicy lib fmt validator bindings reqObj testCase.Operation agg policy
        = (agg, []) := by
    intro agg
    rw [evaluatePolicy_of_related lib fmt validator bindings reqObj _ agg policy hrel]
    apply bindingsLoop_none
    intro b hb hv
    have hm := hv.1
    rw [hnone b hb] at hm
    exact absurd hm (by simp)
  refine ⟨hstep, ?_⟩
  intro pre post
  rw [SimulateWithPolicyBindings_of_prepared lib fmt p _ bindings paramObj testCase
      reqObj validator hprep,
    SimulateWithPolicyBindings_of_prepared lib fmt p _ bindings paramObj testCase
      reqObj validator hprep,
    policiesLoop_append, policiesLoop_append]
  have hcons : ∀ agg : Aggregate,
      policiesLoop lib fmt validator bindings reqObj testCase.Operation agg (policy :: post)
        = policiesLoop lib fmt validator bindings reqObj testCase.Operation agg post := by
    intro agg
    rw [policiesLoop, hstep]
    simp
  rw [hcons]

/-- Witness of C26: the denying policy of scenario A, bound only to the namespace
`production`, against a Deployment of the namespace `default`. -/
theorem evaluatePolicy_no_matching_binding_witness :
    SimulateWithPolicyBindings scenarioLibrary scenarioPrinter scenarioSimulator
        ([] ++ scenarioAPolicy :: []) [scenarioProductionBinding] none
        (scenarioTestCase "default" 15 { Allowed := true })
      = SimulateWithPolicyBindings scenarioLibrary scenarioPrinter scenarioSimulator
        ([] ++ []) [scenarioProductionBinding] none
        (scenarioTestCase "default" 15 { Allowed := true }) :=
  (evaluatePolicy_no_matching_binding scenarioLibrary scenarioPrinter scenarioSimulator
    [scenarioProductionBinding] none (scenarioTestCase "default" 15 { Allowed := true })
    (scenarioDeployment "default" 15) (scenarioContext "default" 15) scenarioAPolicy
    rfl (List.cons_ne_nil _ _)
    (by
      intro b hb
      rw [List.mem_singleton.1 hb]
      rfl)).2 [] []


/-- C27: in SimulateTestCaseWithMultiPolicies, once the test case is prepared, the error
is nil, PolicyResults has one entry per policy in policy order (name, allowed, reason and
message of the ValidatePolicy result of that policy), the allowed value of the response
is the conjunction of the allowed values of the policies, its reason is the first
non-empty reason among the denying policies, and its message is the messages of the
denying policies joined with `"; "`. -/
theorem SimulateTestCaseWithMultiPolicies_aggregate (lib : GoLibrary) (fmt : Printer)
    (p : PolicySimulator) (policies : List ValidatingAdmissionPolicy)
    (paramObj : Option RuntimeObject) (testCase : kaptestv1.TestCase) (reqObj : Object)
    (validator : PolicyValidator)
    (hprep : prepareTestCase lib p paramObj testCase = Except.ok (reqObj, validator)) :
    (SimulateTestCaseWithMultiPolicies lib fmt p policies paramObj testCase).1.2 = none ∧
    (SimulateTestCaseWithMultiPolicies lib fmt p policies paramObj testCase).1.1.PolicyResults
      = policies.map (specPolicyResult fmt validator) ∧
    (SimulateTestCaseWithMultiPolicies lib fmt p policies paramObj testCase).1.1.ActualResponse
      = some
          { Allowed :=
              policies.all (fun policy => (ValidatePolicy fmt validator policy true).1.IsAllowed),
            Reason :=
              specFirstNonEmpty ((specDenying fmt validator policies).map
                (fun policy => (ValidatePolicy fmt validator policy true).1.GetReason)),
            Message :=
              String.intercalate "; " ((specDenying fmt validator policies).map
                (fun policy => (ValidatePolicy fmt validator policy true).1.GetMessage)) } :=
  SimulateTestCaseWithMultiPolicies_response lib fmt p policies paramObj testCase reqObj
    validator hprep

/-- Witness of C27: scenario C, an allowing policy and a policy that denies with the
reason `Prohibited`. -/
theorem SimulateTestCaseWithMultiPolicies_aggregate_witness :
    (SimulateTestCaseWithMultiPolicies scenarioLibrary scenarioPrinter scenarioSimulator
        [scenarioAllowingPolicy, scenarioProhibitedPolicy] none
        (scenarioTestCase "default" 15 { Allowed := false, Reason := "Prohibited" })).1.1.PolicyResults
      = [{ PolicyName := "always-allowed", Allowed := true, Reason := "", Message := "" },
         { PolicyName := "prohibited", Allowed := false, Reason := "Prohibited",
           Message := "replicas are limited to 10" }] ∧
    (SimulateTestCaseWithMultiPolicies scenarioLibrary scenarioPrinter scenarioSimulator
        [scenarioAllowingPolicy, scenarioProhibitedPolicy] none
        (scenarioTestCase "default" 15 { Allowed := false, Reason := "Prohibited" })).1.1.ActualResponse
      = some { Allowed := false, Reason := "Prohibited",
               Message := "replicas are limited to 10" } :=
  ⟨(SimulateTestCaseWithMultiPolicies_aggregate scenarioLibrary scenarioPrinter
      scenarioSimulator [scenarioAllowingPolicy, scenarioProhibitedPolicy] none
      (scenarioTestCase "default" 15 { Allowed := false, Reason := "Prohibited" })
      (scenarioDeployment "default" 15) (scenarioContext "default" 15) rfl).2.1.trans
      (by decide),
    (SimulateTestCaseWithMultiPolicies_aggregate scenarioLibrary scenarioPrinter
      scenarioSimulator [scenarioAllowingPolicy, scenarioProhibitedPolicy] none
      (scenarioTestCase "default" 15 { Allowed := false, Reason := "Prohibited" })
      (scenarioDeployment "default" 15) (scenarioContext "default" 15) rfl).2.2.trans
      (by decide)⟩

/-- C28: in the three modes, once the test case is prepared, a result returned with a nil
error carries the actual response and has Success = true exactly when the actual allowed
equals expected.allowed and, for a denied outcome, each of expected.reason,
expected.message and expected.messageContains is empty or a substring of the actual
reason, message and message; Details is non-empty exactly when Success is false. The
multi-policy mode and the binding mode then always return a nil error. -/
theorem Simulate_compared_with_expected (lib : GoLibrary) (fmt : Printer) (p : PolicySimulator)
    (policy : ValidatingAdmissionPolicy) (policies : List ValidatingAdmissionPolicy)
    (bindings : List ValidatingAdmissionPolicyBinding) (paramObj : Option RuntimeObject)
    (testCase : kaptestv1.TestCase) (reqObj : Object) (validator : PolicyValidator)
    (hprep : prepareTestCase lib p paramObj testCase = Except.ok (reqObj, validator)) :
    specCompared testCase (SimulateTestCase lib fmt p policy paramObj testCase).1 ∧
    ((SimulateTestCaseWithMultiPolicies lib fmt p policies paramObj testCase).1.2 = none ∧
      specCompared testCase
        (SimulateTestCaseWithMultiPolicies lib fmt p policies paramObj testCase).1) ∧
    ((SimulateWithPolicyBindings lib fmt p policies bindings paramObj testCase).1.2 = none ∧
      specCompared testCase
        (SimulateWithPolicyBindings lib fmt p policies bindings paramObj testCase).1) := by
  refine ⟨SimulateTestCase_compared lib fmt p policy paramObj testCase,
    ⟨?_, SimulateTestCaseWithMultiPolicies_compared lib fmt p policies paramObj testCase⟩,
    ⟨?_, SimulateWithPolicyBindings_compared lib fmt p policies bindings paramObj testCase⟩⟩
  · rw [SimulateTestCaseWithMultiPolicies_of_prepared lib fmt p policies paramObj testCase
      reqObj validator hprep]
  · rw [SimulateWithPolicyBindings_of_prepared lib fmt p policies bindings paramObj testCase
      reqObj validator hprep]

/-- Witness of C28: the denying policy of scenario A against an expected denial whose
messageContains is part of the message. -/
theorem Simulate_compared_with_expected_witness :
    (SimulateTestCase scenarioLibrary scenarioPrinter scenarioSimulator scenarioAPolicy none
        (scenarioTestCase "default" 15
          { Allowed := false, MessageContains := "replicas" })).1
      = ({ Name := "deployment", Success := true, Details := "",
           ActualResponse := some
             { Allowed := false, Reason := "FailedValidation",
               Message := "failed expression: object.spec.replicas <= 10" } }, none) ∧
    specCompared
      (scenarioTestCase "default" 15 { Allowed := false, MessageContains := "replicas" })
      (SimulateTestCase scenarioLibrary scenarioPrinter scenarioSimulator scenarioAPolicy none
        (scenarioTestCase "default" 15
          { Allowed := false, MessageContains := "replicas" })).1 :=
  ⟨by decide,
    (Simulate_compared_with_expected scenarioLibrary scenarioPrinter scenarioSimulator
      scenarioAPolicy [scenarioAPolicy] [] none
      (scenarioTestCase "default" 15 { Allowed := false, MessageContains := "replicas" })
      (scenarioDeployment "default" 15) (scenarioContext "default" 15) rfl).1⟩

/-- C29 fails in the code: `SimulateTestCase` hands `MatchesPolicy` the object alone, so
the target it builds has an empty operation and no resource rule can match. The policy
of scenario A restricted to the creation of apps/v1 Deployments matches the target of the
test case when the operation of the test case is used, and `ValidatePolicy` denies the
15 replicas; yet `SimulateTestCase` skips the policy, evaluates nothing and answers
allowed. -/
theorem SimulateTestCase_resource_rule_never_matches :
    selector.Matches scenarioLibrary.EqualFold scenarioRulePolicy.Spec.MatchConstraints
        { policyTarget scenarioLibrary (scenarioDeployment "default" 15) with
          Operation := "CREATE" } = (true, none) ∧
    (ValidatePolicy scenarioPrinter (scenarioContext "default" 15) scenarioRulePolicy true).1
      = NewValidationResult false
          [{ Expression := "object.spec.replicas <= 10", Reason := "FailedValidation",
             Message := "failed expression: object.spec.replicas <= 10" }] ∧
    scenarioSimulator.evaluator.MatchesPolicy scenarioLibrary scenarioPrinter
        (some scenarioRulePolicy) (scenarioDeployment "default" 15) = Except.ok false ∧
    SimulateTestCase scenarioLibrary scenarioPrinter scenarioSimulator scenarioRulePolicy none
        (scenarioTestCase "default" 15 { Allowed := false })
      = (({ Name := "deployment", Success := false,
            Details :=
              "expected result (allowed=false) and actual result (allowed=true) does not match",
            ActualResponse := some { Allowed := true, Reason := "", Message := "" } },
          none), []) :=
  ⟨by decide, by decide, rfl, rfl⟩

/-- C30: in SimulateTestCase, whenever MatchesPolicy reports that the policy does not
match, no expression is evaluated by the validator, the error is nil, the actual
response is allowed with empty reason and message, and the test case succeeds exactly when
expected.allowed is true. -/
theorem SimulateTestCase_policy_not_matched (lib : GoLibrary) (fmt : Printer)
    (p : PolicySimulator) (policy : ValidatingAdmissionPolicy) (paramObj : Option RuntimeObject)
    (testCase : kaptestv1.TestCase) (reqObj objectMap : Object) (validator : PolicyValidator)
    (hprep : prepareTestCase lib p paramObj testCase = Except.ok (reqObj, validator))
    (hmap : lib.ToUnstructured (RuntimeObject.unstructured reqObj) = Except.ok objectMap)
    (hmatch : p.evaluator.MatchesPolicy lib fmt (some policy) objectMap = Except.ok false) :
    (SimulateTestCase lib fmt p policy paramObj testCase).2 = [] ∧
    (SimulateTestCase lib fmt p policy paramObj testCase).1.2 = none ∧
    (SimulateTestCase lib fmt p policy paramObj testCase).1.1.ActualResponse
      = some { Allowed := true, Reason := "", Message := "" } ∧
    ((SimulateTestCase lib fmt p policy paramObj testCase).1.1.Success = true
      ↔ testCase.Expected.Allowed = true) := by
  rw [SimulateTestCase_of_not_matched lib fmt p policy paramObj testCase reqObj objectMap
    validator hprep hmap hmatch]
  refine ⟨rfl, rfl, rfl, ?_⟩
  show (compareExpected true "" "" testCase.Expected).1 = true ↔ _
  rw [compareExpected_allowed]

/-- Witness of C30: scenario D, the condition `object.metadata.namespace == 'production'`
against a Deployment of the namespace `staging`, with expected.allowed = true. -/
theorem SimulateTestCase_policy_not_matched_witness :
    (SimulateTestCase scenarioLibrary scenarioPrinter scenarioSimulator scenarioDPolicy none
        (scenarioTestCase "staging" 15 { Allowed := true })).1.1.ActualResponse
      = some { Allowed := true, Reason := "", Message := "" } ∧
    (SimulateTestCase scenarioLibrary scenarioPrinter scenarioSimulator scenarioDPolicy none
        (scenarioTestCase "staging" 15 { Allowed := true })).1.1.Success = true :=
  ⟨(SimulateTestCase_policy_not_matched scenarioLibrary scenarioPrinter scenarioSimulator
      scenarioDPolicy none (scenarioTestCase "staging" 15 { Allowed := true })
      (scenarioDeployment "staging" 15) (scenarioDeployment "staging" 15)
      (scenarioContext "staging" 15) rfl rfl rfl).2.2.1,
    (SimulateTestCase_policy_not_matched scenarioLibrary scenarioPrinter scenarioSimulator
      scenarioDPolicy none (scenarioTestCase "staging" 15 { Allowed := true })
      (scenarioDeployment "staging" 15) (scenarioDeployment "staging" 15)
      (scenarioContext "staging" 15) rfl rfl rfl).2.2.2.2 rfl⟩


/-- C31, as stated, fails for the single-policy mode: the object of the test case
converts, but the matchCondition of the policy evaluates to a number, `MatchesPolicy`
returns an error, `SimulateTestCase` returns it and `RunPolicyTests` aborts the batch. -/
theorem SimulateTestCase_match_condition_error :
    convertRawExtension scenarioLibrary
        (scenarioTestCase "default" 15 { Allowed := false }).Object
      = Except.ok (scenarioDeployment "default" 15) ∧
    (SimulateTestCase scenarioLibrary scenarioPrinter scenarioSimulator scenarioNonBooleanPolicy
        none (scenarioTestCase "default" 15 { Allowed := false })).1
      = ({ Name := "deployment", Success := false },
          some ("failed to check policy match: MatchConditions evaluation error: "
            ++ "expression result is not a boolean: ?")) ∧
    RunPolicyTests scenarioLibrary scenarioPrinter scenarioSimulator scenarioNonBooleanPolicy
        none [scenarioTestCase "default" 15 { Allowed := false }]
      = Except.error ("failed to execute test case 'deployment': "
          ++ "failed to check policy match: MatchConditions evaluation error: "
          ++ "expression result is not a boolean: ?") :=
  ⟨rfl, by decide, rfl⟩

/-- C31, amended: for every test case on which the object, the old object and the
parameter object convert, so that the evaluation context is set up, the multi-policy mode
and the binding mode return a nil error whatever the evaluator of the validator returns,
and the single-policy mode returns a nil error exactly when `MatchesPolicy` returns no
error; `RunPolicyTestsWithBindings` does not abort on a batch of such test cases. -/
theorem Simulate_error_only_from_gate (lib : GoLibrary) (fmt : Printer) (p : PolicySimulator)
    (policy : ValidatingAdmissionPolicy) (policies : List ValidatingAdmissionPolicy)
    (bindings : List ValidatingAdmissionPolicyBinding) (paramObj : Option RuntimeObject)
    (testCase : kaptestv1.TestCase) (reqObj : Object) (validator : PolicyValidator)
    (hprep : prepareTestCase lib p paramObj testCase = Except.ok (reqObj, validator)) :
    (SimulateTestCaseWithMultiPolicies lib fmt p policies paramObj testCase).1.2 = none ∧
    (SimulateWithPolicyBindings lib fmt p policies bindings paramObj testCase).1.2 = none ∧
    (∃ objectMap : Object,
      lib.ToUnstructured (RuntimeObject.unstructured reqObj) = Except.ok objectMap ∧
      ((SimulateTestCase lib fmt p policy paramObj testCase).1.2 = none
        ↔ ∃ matched : Bool,
            p.evaluator.MatchesPolicy lib fmt (some policy) objectMap = Except.ok matched)) ∧
    ∀ testCases : List kaptestv1.TestCase,
      (∀ tc ∈ testCases, ∃ (r : Object) (v : PolicyValidator),
        prepareTestCase lib p paramObj tc = Except.ok (r, v)) →
      ∃ status : kaptestv1.ValidatingAdmissionPolicyTestStatus,
        RunPolicyTestsWithBindings lib fmt p policies bindings paramObj testCases
          = Except.ok status := by
  refine ⟨?_, ?_, ?_, ?_⟩
  · rw [SimulateTestCaseWithMultiPolicies_of_prepared lib fmt p policies paramObj testCase
      reqObj validator hprep]
  · rw [SimulateWithPolicyBindings_of_prepared lib fmt p policies bindings paramObj testCase
      reqObj validator hprep]
  · obtain ⟨objectMap, hmap⟩ :=
      prepareTestCase_converts lib p paramObj testCase reqObj validator hprep
    refine ⟨objectMap, hmap, ?_⟩
    cases hmatch : p.evaluator.MatchesPolicy lib fmt (some policy) objectMap with
    | error err =>
      rw [SimulateTestCase_of_match_error lib fmt p policy paramObj testCase reqObj objectMap
        validator err hprep hmap hmatch]
      simp
    | ok matched =>
      cases matched with
      | false =>
        rw [SimulateTestCase_of_not_matched lib fmt p policy paramObj testCase reqObj
          objectMap validator hprep hmap hmatch]
        simp
      | true =>
        rw [SimulateTestCase_of_matched lib fmt p policy paramObj testCase reqObj objectMap
          validator hprep hmap hmatch]
        simp
  · intro testCases hall
    refine ⟨_, runLoop_initial _ testCases ?_⟩
    intro tc htc
    obtain ⟨r, v, hp⟩ := hall tc htc
    show (SimulateWithPolicyBindings lib fmt p policies bindings paramObj tc).1.2 = none
    rw [SimulateWithPolicyBindings_of_prepared lib fmt p policies bindings paramObj tc r v hp]

/-- Witness of C31, amended: the policy whose matchCondition evaluates to a number, in
the multi-policy mode, where the failure becomes a denial. -/
theorem Simulate_error_only_from_gate_witness :
    (SimulateTestCaseWithMultiPolicies scenarioLibrary scenarioPrinter scenarioSimulator
        [scenarioNonBooleanPolicy] none
        (scenarioTestCase "default" 15 { Allowed := false })).1.2 = none :=
  (Simulate_error_only_from_gate scenarioLibrary scenarioPrinter scenarioSimulator
    scenarioNonBooleanPolicy [scenarioNonBooleanPolicy] [] none
    (scenarioTestCase "default" 15 { Allowed := false })
    (scenarioDeployment "default" 15) (scenarioContext "default" 15) rfl).1

/-- C32, as stated, fails: a matchCondition that is the string literal `'no such key'`
has a result that is not a boolean, and `MatchesPolicy` returns (false, nil) instead of
an error, because the text of the failure contains `no such key`. -/
theorem MatchesPolicy_non_boolean_not_error :
    scenarioDynamicEnv.Eval "'no such key'"
        [("object", Value.map (scenarioDeployment "default" 15))]
      = Except.ok (Value.str "no such key") ∧
    scenarioSimulator.evaluator.EvaluateExpression scenarioScalarPrinter "'no such key'"
        [("object", Value.map (scenarioDeployment "default" 15))]
      = Except.error "expression result is not a boolean: no such key" ∧
    scenarioSimulator.evaluator.MatchesPolicy scenarioLibrary scenarioScalarPrinter
        (some scenarioLiteralPolicy) (scenarioDeployment "default" 15) = Except.ok false :=
  ⟨rfl, rfl, rfl⟩

/-- C32, amended: `MatchesPolicy` on a nil policy returns an error; when the
matchConstraints match and the conditions before it are skipped or true, a condition
whose evaluation fails with an error text that contains `no such key` makes
`MatchesPolicy` return (false, nil), and with any other error text makes it return that
error; conditions with an empty expression are skipped; a result that is not a boolean is
a failure with the text `expression result is not a boolean: <value>`, so that
`MatchesPolicy` returns (false, nil) when that text contains `no such key` and the error
otherwise. -/
theorem MatchesPolicy_condition_errors (lib : GoLibrary) (fmt : Printer)
    (e : DefaultCELEvaluator) (policy : ValidatingAdmissionPolicy) (object : Object) :
    e.MatchesPolicy lib fmt none object = Except.error "policy is nil" ∧
    (∀ (pre post : List MatchCondition) (condition : MatchCondition) (err : Error),
      specConstraintsMatch lib policy object →
      policy.Spec.MatchConditions = pre ++ condition :: post →
      (∀ c ∈ pre, specConditionPasses fmt e object c) →
      condition.Expression ≠ "" →
      e.EvaluateExpression fmt condition.Expression [("object", Value.map object)]
        = Except.error err →
      (strings.Contains err "no such key" = true →
        e.MatchesPolicy lib fmt (some policy) object = Except.ok false) ∧
      (strings.Contains err "no such key" = false →
        e.MatchesPolicy lib fmt (some policy) object
          = Except.error ("MatchConditions evaluation error: " ++ err))) ∧
    (∀ conditions : List MatchCondition,
      e.evaluateMatchConditions fmt object conditions
        = e.evaluateMatchConditions fmt object
            (conditions.filter (fun c => c.Expression != ""))) ∧
    (∀ (expression : String) (vars : Object) (val : Value),
      e.newEnv.NewEnv = none → e.newEnv.Parse expression = none →
      e.newEnv.Program expression = none → e.newEnv.Eval expression vars = Except.ok val →
      val.asBool = none →
      e.EvaluateExpression fmt expression vars
        = Except.error ("expression result is not a boolean: " ++ fmt.v val)) ∧
    (∀ (pre post : List MatchCondition) (condition : MatchCondition) (val : Value),
      specConstraintsMatch lib policy object →
      policy.Spec.MatchConditions = pre ++ condition :: post →
      (∀ c ∈ pre, specConditionPasses fmt e object c) →
      condition.Expression ≠ "" →
      e.newEnv.NewEnv = none → e.newEnv.Parse condition.Expression = none →
      e.newEnv.Program condition.Expression = none →
      e.newEnv.Eval condition.Expression [("object", Value.map object)] = Except.ok val →
      val.asBool = none →
      (strings.Contains ("expression result is not a boolean: " ++ fmt.v val) "no such key"
          = true →
        e.MatchesPolicy lib fmt (some policy) object = Except.ok false) ∧
      (strings.Contains ("expression result is not a boolean: " ++ fmt.v val) "no such key"
          = false →
        e.MatchesPolicy lib fmt (some policy) object
          = Except.error ("MatchConditions evaluation error: "
              ++ ("expression result is not a boolean: " ++ fmt.v val)))) := by
  have hnon : ∀ (expression : String) (vars : Object) (val : Value),
      e.newEnv.NewEnv = none → e.newEnv.Parse expression = none →
      e.newEnv.Program expression = none → e.newEnv.Eval expression vars = Except.ok val →
      val.asBool = none →
      e.EvaluateExpression fmt expression vars
        = Except.error ("expression result is not a boolean: " ++ fmt.v val) := by
    intro expression vars val h1 h2 h3 h4 h5
    unfold DefaultCELEvaluator.EvaluateExpression
    rw [h1]
    dsimp only
    rw [h2]
    dsimp only
    rw [h3]
    dsimp only
    rw [h4]
    dsimp only
    rw [h5]
  refine ⟨rfl, ?_, evaluateMatchConditions_filter fmt e object, hnon, ?_⟩
  · intro pre post condition err hcons hsplit hpre hne herr
    exact MatchesPolicy_of_condition_error lib fmt e policy object pre post condition err
      hcons hsplit hpre hne herr
  · intro pre post condition val hcons hsplit hpre hne h1 h2 h3 h4 h5
    exact MatchesPolicy_of_condition_error lib fmt e policy object pre post condition _
      hcons hsplit hpre hne (hnon _ _ val h1 h2 h3 h4 h5)

/-- Witness of C32, amended: an empty condition, then a condition on the labels of the
object, which the Deployment does not have: the evaluation traps on the missing key
`labels`. -/
theorem MatchesPolicy_condition_errors_witness :
    scenarioSimulator.evaluator.EvaluateExpression scenarioPrinter
        "object.metadata.labels.app == 'test'"
        [("object", Value.map (scenarioDeployment "default" 15))]
      = Except.error "failed to evaluate expression: no such key: labels" ∧
    scenarioSimulator.evaluator.MatchesPolicy scenarioLibrary scenarioPrinter
        (some scenarioMissingKeyPolicy) (scenarioDeployment "default" 15) = Except.ok false :=
  ⟨rfl,
    ((MatchesPolicy_condition_errors scenarioLibrary scenarioPrinter
        scenarioSimulator.evaluator scenarioMissingKeyPolicy
        (scenarioDeployment "default" 15)).2.1
      [{ Name := "empty", Expression := "" }] []
      { Name := "labelled", Expression := "object.metadata.labels.app == 'test'" }
      "failed to evaluate expression: no such key: labels"
      (by intro mc hmc; exact absurd hmc (by simp [scenarioMissingKeyPolicy]))
      rfl
      (by
        intro c hc
        rw [List.mem_singleton.1 hc]
        exact Or.inl rfl)
      (by decide) rfl).1 (by decide)⟩

/-- C34: when no test case returns an error, each of the three run functions returns a
status whose Results are the results of the test cases in input order, each with the name
of its test case, with Total the number of test cases, Successful the number of results
with Success = true and Failed the number with Success = false, so that
Successful + Failed = Total = len(Results). -/
theorem RunPolicyTests_status (lib : GoLibrary) (fmt : Printer) (p : PolicySimulator)
    (policy : ValidatingAdmissionPolicy) (policies : List ValidatingAdmissionPolicy)
    (bindings : List ValidatingAdmissionPolicyBinding) (paramObj : Option RuntimeObject)
    (testCases : List kaptestv1.TestCase) :
    ((∀ tc ∈ testCases, (SimulateTestCase lib fmt p policy paramObj tc).1.2 = none) →
      RunPolicyTests lib fmt p policy paramObj testCases
        = Except.ok (specStatus
            (testCases.map (fun tc => (SimulateTestCase lib fmt p policy paramObj tc).1.1))) ∧
      (testCases.map (fun tc => (SimulateTestCase lib fmt p policy paramObj tc).1.1)).map
          (fun result => result.Name) = testCases.map (fun tc => tc.Name)) ∧
    ((∀ tc ∈ testCases,
        (SimulateWithPolicyBindings lib fmt p policies bindings paramObj tc).1.2 = none) →
      RunPolicyTestsWithBindings lib fmt p policies bindings paramObj testCases
        = Except.ok (specStatus
            (testCases.map (fun tc =>
              (SimulateWithPolicyBindings lib fmt p policies bindings paramObj tc).1.1))) ∧
      (testCases.map (fun tc =>
          (SimulateWithPolicyBindings lib fmt p policies bindings paramObj tc).1.1)).map
          (fun result => result.Name) = testCases.map (fun tc => tc.Name)) ∧
    ((∀ tc ∈ testCases,
        (SimulateWithPolicyBindings lib fmt p policies [] paramObj tc).1.2 = none) →
      RunPolicyTestsWithMultiPolicies lib fmt p policies paramObj testCases
        = Except.ok (specStatus
            (testCases.map (fun tc =>
              (SimulateWithPolicyBindings lib fmt p policies [] paramObj tc).1.1))) ∧
      (testCases.map (fun tc =>
          (SimulateWithPolicyBindings lib fmt p policies [] paramObj tc).1.1)).map
          (fun result => result.Name) = testCases.map (fun tc => tc.Name)) ∧
    (∀ results : List kaptestv1.TestResult,
      (specStatus results).Results = results ∧
      (specStatus results).Summary.Total = results.length ∧
      (specStatus results).Summary.Successful
        = (results.filter (fun result => result.Success = true)).length ∧
      (specStatus results).Summary.Failed
        = (results.filter (fun result => result.Success = false)).length ∧
      (specStatus results).Summary.Successful + (specStatus results).Summary.Failed
        = (specStatus results).Summary.Total) := by
  refine ⟨?_, ?_, ?_, ?_⟩
  · intro h
    refine ⟨runLoop_initial _ testCases h, ?_⟩
    rw [List.map_map]
    exact List.map_congr_left (fun tc _ => SimulateTestCase_name lib fmt p policy paramObj tc)
  · intro h
    refine ⟨runLoop_initial _ testCases h, ?_⟩
    rw [List.map_map]
    exact List.map_congr_left
      (fun tc _ => SimulateWithPolicyBindings_name lib fmt p policies bindings paramObj tc)
  · intro h
    refine ⟨runLoop_initial _ testCases h, ?_⟩
    rw [List.map_map]
    exact List.map_congr_left
      (fun tc _ => SimulateWithPolicyBindings_name lib fmt p policies [] paramObj tc)
  · intro results
    refine ⟨rfl, rfl, ?_, ?_, (specStatus_counts results).1⟩
    · show (results.filter (fun result => result.Success)).length = _
      congr 1
      apply List.filter_congr
      intro r _
      cases r.Success <;> rfl
    · show (results.filter (fun result => !result.Success)).length = _
      congr 1
      apply List.filter_congr
      intro r _
      cases r.Success <;> rfl

/-- Witness of C34: a batch of two test cases against the policy of scenario A, one
expected to be denied and one wrongly expected to be allowed. -/
theorem RunPolicyTests_status_witness :
    RunPolicyTests scenarioLibrary scenarioPrinter scenarioSimulator scenarioAPolicy none
        [scenarioTestCase "default" 15 { Allowed := false },
         scenarioTestCase "default" 15 { Allowed := true }]
      = Except.ok (specStatus
          ([scenarioTestCase "default" 15 { Allowed := false },
            scenarioTestCase "default" 15 { Allowed := true }].map
            (fun tc => (SimulateTestCase scenarioLibrary scenarioPrinter scenarioSimulator
              scenarioAPolicy none tc).1.1))) :=
  ((RunPolicyTests_status scenarioLibrary scenarioPrinter scenarioSimulator scenarioAPolicy
      [] [] none
      [scenarioTestCase "default" 15 { Allowed := false },
       scenarioTestCase "default" 15 { Allowed := true }]).1
    (by
      intro tc htc
      rcases List.mem_cons.1 htc with h | h
      · rw [h]; rfl
      · rw [List.mem_singleton.1 h]; rfl)).1

/-- C36: `SimulateWithPolicyBindings` with an empty binding list returns what
`SimulateTestCaseWithMultiPolicies` returns, the same test result, error and evaluator
calls, so `RunPolicyTestsWithMultiPolicies` is the run of
`SimulateTestCaseWithMultiPolicies` on each test case. -/
theorem SimulateWithPolicyBindings_no_bindings (lib : GoLibrary) (fmt : Printer)
    (p : PolicySimulator) (policies : List ValidatingAdmissionPolicy)
    (paramObj : Option RuntimeObject) (testCase : kaptestv1.TestCase)
    (testCases : List kaptestv1.TestCase) :
    SimulateWithPolicyBindings lib fmt p policies [] paramObj testCase
      = SimulateTestCaseWithMultiPolicies lib fmt p policies paramObj testCase ∧
    RunPolicyTestsWithMultiPolicies lib fmt p policies paramObj testCases
      = runLoop
          (fun tc => (SimulateTestCaseWithMultiPolicies lib fmt p policies paramObj tc).1)
          { Results := [],
            Summary := { Total := testCases.length, Successful := 0, Failed := 0 } }
          testCases := by
  refine ⟨SimulateWithPolicyBindings_nil_bindings lib fmt p policies paramObj testCase, ?_⟩
  unfold RunPolicyTestsWithMultiPolicies RunPolicyTestsWithBindings
  congr 1
  funext tc
  rw [SimulateWithPolicyBindings_nil_bindings]

/-- C37, as stated, fails: the matchConstraints of the policy select the namespace
`production`, the Deployment is in `default`; the single-policy mode skips the policy
and allows, the multi-policy mode on that policy alone validates it and denies. -/
theorem SimulateTestCase_differs_from_multi :
    (SimulateTestCase scenarioLibrary scenarioPrinter scenarioSimulator scenarioSelectorPolicy
        none (scenarioTestCase "default" 15 { Allowed := false })).1
      = ({ Name := "deployment", Success := false,
           Details :=
             "expected result (allowed=false) and actual result (allowed=true) does not match",
           ActualResponse := some { Allowed := true, Reason := "", Message := "" } }, none) ∧
    (SimulateTestCaseWithMultiPolicies scenarioLibrary scenarioPrinter scenarioSimulator
        [scenarioSelectorPolicy] none (scenarioTestCase "default" 15 { Allowed := false })).1
      = ({ Name := "deployment", Success := true, Details := "",
           ActualResponse := some
             { Allowed := false, Reason := "FailedValidation",
               Message := "failed expression: object.spec.replicas <= 10" },
           PolicyResults :=
             [{ PolicyName := "replica-limit-production", Allowed := false,
                Reason := "FailedValidation",
                Message := "failed expression: object.spec.replicas <= 10" }] }, none) :=
  ⟨by decide, by decide⟩

/-- C37, amended: for every policy that `MatchesPolicy` reports as matching the object of
the test case, `SimulateTestCase` on the policy and `SimulateTestCaseWithMultiPolicies` on
the policy alone return the same ActualResponse, the same Success and Details, the same
nil error, and make the same evaluator calls. -/
theorem SimulateTestCase_agrees_with_multi (lib : GoLibrary) (fmt : Printer)
    (p : PolicySimulator) (policy : ValidatingAdmissionPolicy) (paramObj : Option RuntimeObject)
    (testCase : kaptestv1.TestCase) (reqObj objectMap : Object) (validator : PolicyValidator)
    (hprep : prepareTestCase lib p paramObj testCase = Except.ok (reqObj, validator))
    (hmap : lib.ToUnstructured (RuntimeObject.unstructured reqObj) = Except.ok objectMap)
    (hmatch : p.evaluator.MatchesPolicy lib fmt (some policy) objectMap = Except.ok true) :
    (SimulateTestCase lib fmt p policy paramObj testCase).1.1.ActualResponse
      = (SimulateTestCaseWithMultiPolicies lib fmt p [policy] paramObj
          testCase).1.1.ActualResponse ∧
    (SimulateTestCase lib fmt p policy paramObj testCase).1.1.Success
      = (SimulateTestCaseWithMultiPolicies lib fmt p [policy] paramObj testCase).1.1.Success ∧
    (SimulateTestCase lib fmt p policy paramObj testCase).1.1.Details
      = (SimulateTestCaseWithMultiPolicies lib fmt p [policy] paramObj testCase).1.1.Details ∧
    (SimulateTestCase lib fmt p policy paramObj testCase).1.2
      = (SimulateTestCaseWithMultiPolicies lib fmt p [policy] paramObj testCase).1.2 ∧
    (SimulateTestCase lib fmt p policy paramObj testCase).2
      = (SimulateTestCaseWithMultiPolicies lib fmt p [policy] paramObj testCase).2 :=
  SimulateTestCase_eq_multi_of_matched lib fmt p policy paramObj testCase reqObj objectMap
    validator hprep hmap hmatch

/-- Witness of C37, amended: the policy of scenario A, which has no matchConstraints and
no matchConditions. -/
theorem SimulateTestCase_agrees_with_multi_witness :
    (SimulateTestCase scenarioLibrary scenarioPrinter scenarioSimulator scenarioAPolicy none
        (scenarioTestCase "default" 15 { Allowed := false })).1.1.ActualResponse
      = (SimulateTestCaseWithMultiPolicies scenarioLibrary scenarioPrinter scenarioSimulator
          [scenarioAPolicy] none
          (scenarioTestCase "default" 15 { Allowed := false })).1.1.ActualResponse :=
  (SimulateTestCase_agrees_with_multi scenarioLibrary scenarioPrinter scenarioSimulator
    scenarioAPolicy none (scenarioTestCase "default" 15 { Allowed := false })
    (scenarioDeployment "default" 15) (scenarioDeployment "default" 15)
    (scenarioContext "default" 15) rfl rfl rfl).1


/-- C33 fails in the code: with a binding whose validationActions is a zero-length list
that is not nil, `EvaluatePolicyWithBinding` tests `ValidationActions != nil`, finds no
`Deny` in the empty list and answers allowed with a warning, where a nil list is denied
and where `shouldValidate` treats both as `Deny`. The policy and the binding match the
Deployment and the validation fails on its 15 replicas. -/
theorem EvaluatePolicyWithBinding_empty_actions :
    scenarioSimulator.evaluator.MatchesPolicy scenarioLibrary scenarioPrinter
        (some scenarioAPolicy) (scenarioDeployment "default" 15) = Except.ok true ∧
    scenarioSimulator.evaluator.evaluatePolicyOnly scenarioPrinter scenarioAPolicy
        (scenarioDeployment "default" 15) = Except.ok false ∧
    scenarioSimulator.evaluator.EvaluatePolicyWithBinding scenarioLibrary scenarioPrinter
        (some scenarioAPolicy) (some (scenarioActionsBinding (some [])))
        (scenarioDeployment "default" 15)
      = ((true, "Policy violation detected but allowed as warning only"), none) ∧
    scenarioSimulator.evaluator.EvaluatePolicyWithBinding scenarioLibrary scenarioPrinter
        (some scenarioAPolicy) (some (scenarioActionsBinding none))
        (scenarioDeployment "default" 15)
      = ((false, "Policy violation detected"), none) ∧
    scenarioSimulator.evaluator.EvaluatePolicyWithBinding scenarioLibrary scenarioPrinter
        (some scenarioAPolicy) (some (scenarioActionsBinding (some ["Deny"])))
        (scenarioDeployment "default" 15)
      = ((false, "policy violation: deny"), none) ∧
    shouldValidate (some []) = true ∧ shouldValidate none = true :=
  ⟨rfl, rfl, by decide, by decide, by decide, by decide, by decide⟩

/-- C38, as stated, fails: from the same apps/v1 Deployment, `NewAdmissionTarget` takes
the kind as the resource (`Deployment`) and `MatchesPolicy` the lower-cased kind with an
`s` (`deployments`), so the resource rule for `deployments` matches the target of
`MatchesPolicy` and not the target of `matchesBinding`. -/
theorem targets_differ_on_resource :
    (admission.NewAdmissionTarget scenarioLibrary (some (scenarioRequest "default" 15))
        "CREATE").Resource = "Deployment" ∧
    (policyTarget scenarioLibrary (scenarioRequest "default" 15)).Resource = "deployments" ∧
    selector.Matches scenarioLibrary.EqualFold scenarioRulePolicy.Spec.MatchConstraints
        (policyTarget scenarioLibrary (scenarioRequest "default" 15)) = (true, none) ∧
    selector.Matches scenarioLibrary.EqualFold scenarioRulePolicy.Spec.MatchConstraints
        (admission.NewAdmissionTarget scenarioLibrary (some (scenarioRequest "default" 15))
          "CREATE") = (false, none) :=
  ⟨by decide, by decide, by decide, by decide⟩

/-- C38, amended: for every object with a string apiVersion that has at most one `/`, a
string kind and no map under `resource`, and a library whose `GroupVersionKind` is that
of apimachinery, the target of `NewAdmissionTarget` and the target of `MatchesPolicy`
carry the same apiGroup and apiVersion; the resource of the first is the kind, the
resource of the second is the lower-cased kind followed by `s`; the operation of the
first is the operation handed to it. -/
theorem targets_agree_on_group_and_version (lib : GoLibrary) (object : Object)
    (operation apiVersion kind : String)
    (hapi : object.lookup "apiVersion" = some (Value.str apiVersion))
    (hkind : object.lookup "kind" = some (Value.str kind))
    (hres : ∀ resource : Object, object.lookup "resource" ≠ some (Value.map resource))
    (hgvk : lib.GroupVersionKind object = unstructuredGroupVersionKind object)
    (hslash : (strings.SplitChar apiVersion '/').length ≤ 2) :
    (admission.NewAdmissionTarget lib (some object) operation).APIGroup
      = (policyTarget lib object).APIGroup ∧
    (admission.NewAdmissionTarget lib (some object) operation).APIVersion
      = (policyTarget lib object).APIVersion ∧
    (admission.NewAdmissionTarget lib (some object) operation).Resource = kind ∧
    (policyTarget lib object).Resource = lib.ToLower kind ++ "s" ∧
    (admission.NewAdmissionTarget lib (some object) operation).Operation = operation :=
  targets_agree lib object operation apiVersion kind hapi hkind hres hgvk hslash

/-- Witness of C38, amended: the apps/v1 Deployment of the scenarios. -/
theorem targets_agree_on_group_and_version_witness :
    (admission.NewAdmissionTarget scenarioLibrary (some (scenarioDeployment "default" 15))
        "CREATE").APIGroup
      = (policyTarget scenarioLibrary (scenarioDeployment "default" 15)).APIGroup ∧
    (admission.NewAdmissionTarget scenarioLibrary (some (scenarioDeployment "default" 15))
        "CREATE").APIVersion
      = (policyTarget scenarioLibrary (scenarioDeployment "default" 15)).APIVersion :=
  ⟨(targets_agree_on_group_and_version scenarioLibrary (scenarioDeployment "default" 15)
      "CREATE" "apps/v1" "Deployment" rfl rfl (fun resource h => nomatch h)
      rfl (by decide)).1,
    (targets_agree_on_group_and_version scenarioLibrary (scenarioDeployment "default" 15)
      "CREATE" "apps/v1" "Deployment" rfl rfl (fun resource h => nomatch h)
      rfl (by decide)).2.1⟩

/-- C40: `PrepareObject` leaves the target unchanged when Namespace is empty and Labels
is empty; otherwise the entry `metadata` of Object becomes a map that holds `namespace`
exactly when Namespace is non-empty, `labels` (a copy of Labels) exactly when Labels is
non-empty, and no other key; an empty Object becomes the map with that entry alone; every
other key of Object and every other field of the target is unchanged; and applying
`PrepareObject` twice is applying it once. -/
theorem PrepareObject_frame (a : admission.AdmissionTarget) :
    (a.Namespace = "" ∧ a.Labels = [] → a.PrepareObject = a) ∧
    (¬ (a.Namespace = "" ∧ a.Labels = []) →
      ∃ metadata : Object,
        a.PrepareObject.Object.lookup "metadata" = some (Value.map metadata) ∧
        (a.Object = [] → a.PrepareObject.Object = [("metadata", Value.map metadata)]) ∧
        metadata.lookup "namespace"
          = (if a.Namespace = "" then none else some (Value.str a.Namespace)) ∧
        (a.Labels = [] → metadata.lookup "labels" = none) ∧
        (a.Labels ≠ [] → ∃ labels : Object,
          metadata.lookup "labels" = some (Value.map labels) ∧
          ((a.Labels.map Prod.fst).Nodup →
            ∀ key : String, labels.lookup key = (a.Labels.lookup key).map Value.str)) ∧
        (∀ key : String, key ≠ "namespace" → key ≠ "labels" → metadata.lookup key = none)) ∧
    (∀ key : String, key ≠ "metadata" →
      a.PrepareObject.Object.lookup key = a.Object.lookup key) ∧
    (a.PrepareObject.Operation = a.Operation ∧ a.PrepareObject.APIGroup = a.APIGroup ∧
      a.PrepareObject.APIVersion = a.APIVersion ∧ a.PrepareObject.Resource = a.Resource ∧
      a.PrepareObject.SubResource = a.SubResource ∧
      a.PrepareObject.Namespace = a.Namespace ∧ a.PrepareObject.Labels = a.Labels) ∧
    a.PrepareObject.PrepareObject = a.PrepareObject := by
  by_cases hguard : a.Namespace = "" ∧ a.Labels = []
  · have hsame := PrepareObject_of_empty a hguard.1 hguard.2
    refine ⟨fun _ => hsame, fun h => absurd hguard h, ?_, ?_, ?_⟩
    · intro key _
      rw [hsame]
    · rw [hsame]
      exact ⟨rfl, rfl, rfl, rfl, rfl, rfl, rfl⟩
    · rw [hsame, hsame]
  · have hform := PrepareObject_of_nonempty a hguard
    refine ⟨fun h => absurd h hguard, fun _ => ?_, ?_, ?_, ?_⟩
    · refine ⟨specMetadata a, ?_, ?_, ?_, ?_, ?_, ?_⟩
      · rw [hform]
        exact lookup_mapSet_self _ _ _
      · intro hobj
        rw [hform, hobj]
        rfl
      · exact (specMetadata_lookup a).1
      · exact (specMetadata_lookup a).2.1
      · intro hl
        exact ⟨admission.labelsLoop [] a.Labels, (specMetadata_lookup a).2.2.1 hl,
          fun hnodup key => by
            rw [labelsLoop_lookup a.Labels [] key hnodup]
            cases a.Labels.lookup key <;> rfl⟩
      · exact (specMetadata_lookup a).2.2.2
    · intro key hkey
      rw [hform]
      exact lookup_mapSet_ne _ _ _ _ hkey
    · rw [hform]
      exact ⟨rfl, rfl, rfl, rfl, rfl, rfl, rfl⟩
    · have hguard2 : ¬ (a.PrepareObject.Namespace = "" ∧ a.PrepareObject.Labels = []) := by
        rw [hform]
        exact hguard
      rw [PrepareObject_of_nonempty a.PrepareObject hguard2]
      rw [hform]
      have hset := mapSet_mapSet a.Object "metadata" (Value.map (specMetadata a))
      show ({ a with
          Object :=
            (mapSet (mapSet a.Object "metadata" (Value.map (specMetadata a))) "metadata"
              (Value.map (specMetadata a))) } : admission.AdmissionTarget) = _
      rw [hset]

/-- Witness of C40: a target with a namespace and a label over an object whose metadata
holds a name; the name is not kept and the key `kind` is. -/
theorem PrepareObject_frame_witness :
    scenarioTarget.PrepareObject.Object
      = [("metadata",
            Value.map [("labels", Value.map [("app", Value.str "web")]),
                       ("namespace", Value.str "default")]),
         ("kind", Value.str "Pod")] ∧
    scenarioTarget.PrepareObject.Object.lookup "kind" = scenarioTarget.Object.lookup "kind" ∧
    scenarioTarget.PrepareObject.PrepareObject = scenarioTarget.PrepareObject :=
  ⟨rfl, (PrepareObject_frame scenarioTarget).2.2.1 "kind" (by decide),
    (PrepareObject_frame scenarioTarget).2.2.2.2⟩


end engine

namespace reporter

/-- C39 fails in the code: on a text of 41 spaces and the width 40 `wrapText` returns no
line at all, so the `lines[0]` of the verbose table report is out of range. In general
`wrapText` returns the empty list exactly when the width is positive, the text is longer
than the width and the text has no word; it returns the text alone when the width is not
positive or the text fits; and otherwise its lines are the words of the text in order,
a line of more than one word being at most `width` bytes long. -/
theorem wrapText_whitespace_only :
    wrapText (String.mk (List.replicate 41 ' ')) 40 = [] ∧
    wrappedMessageCells (String.mk (List.replicate 41 ' ')) 40
      = Except.error "index out of range [0] with length 0" ∧
    (∀ (text : String) (width : Int),
      wrapText text width = []
        ↔ (0 < width ∧ width < (strings.len text : Int) ∧ strings.Fields text = [])) ∧
    (∀ (text : String) (width : Int),
      width ≤ 0 ∨ (strings.len text : Int) ≤ width → wrapText text width = [text]) ∧
    (∀ (text : String) (width : Int),
      ¬ (width ≤ 0 ∨ (strings.len text : Int) ≤ width) →
        specWrapped text width (wrapText text width)) :=
  ⟨by decide, by rfl, wrapText_eq_nil_iff, wrapText_of_fits, wrapText_wrapped⟩

end reporter

namespace commands

open reporter engine

/-- C35, as stated, fails for the check command: the Deployment of 15 replicas is denied
by the policy of scenario A, the status with one failure is reported, and both
`runLocalCheck` and `runClusterCheck` return a nil error. -/
theorem check_returns_nil_on_denial :
    runLocalCheck scenarioHost scenarioLibrary scenarioPrinter scenarioReporter
        scenarioSimulator ["deployment.yaml"] { Operation := "CREATE" }
      = (none, [Event.info "Using policy 'replica-limit' for validation",
                Event.info "Processing manifest file: deployment.yaml",
                Event.report
                  (scenarioCheckStatus "deployment.apps/v1/web" "deployment.apps/v1")]) ∧
    runClusterCheck scenarioHost scenarioLibrary scenarioPrinter scenarioReporter
        scenarioSimulator ["deployments"] { Operation := "CREATE" }
      = (none, [Event.info "Using policy 'replica-limit' for validation",
                Event.info "Resources to validate: deployments",
                Event.info "Fetching resources from cluster...",
                Event.info "Fetched resources: deployments (1 items)",
                Event.report (scenarioCheckStatus "deployments/web" "deployments")]) ∧
    (scenarioCheckStatus "deployments/web" "deployments").Summary.Failed = 1 :=
  ⟨by decide, by decide, rfl⟩

/-- C35, amended: the run command returns a non-nil error whenever a status that it has
reported has Summary.Failed > 0; the check functions, once the loader is initialized and
the policies are loaded (and, in cluster mode, resource types are given), report a status
and return exactly the error of that report, nil when the report succeeds, whether or not
a resource is denied. -/
theorem commands_errors (host : Host) (lib : GoLibrary) (fmt : Printer) (rep : Reporter)
    (simulator : PolicySimulator) (runOpts : RunOptions) (checkOpts : CheckOptions)
    (args : List String) :
    (∀ status : kaptestv1.ValidatingAdmissionPolicyTestStatus,
      Event.report status ∈ (runCommand host lib fmt runOpts args).2 →
      0 < status.Summary.Failed → (runCommand host lib fmt runOpts args).1 ≠ none) ∧
    (∀ (resourceLoader : loader.ResourceLoader) (policies : List ValidatingAdmissionPolicy),
      host.NewLocalResourceLoader = Except.ok resourceLoader →
      resourceLoader.LoadPolicies { Type_ := "local", Files := checkOpts.PolicyFiles }
        = Except.ok policies →
      ∃ status : kaptestv1.ValidatingAdmissionPolicyTestStatus,
        Event.report status ∈ (runLocalCheck host lib fmt rep simulator args checkOpts).2 ∧
        (runLocalCheck host lib fmt rep simulator args checkOpts).1 = rep.Report status) ∧
    (∀ (resourceLoader : loader.ResourceLoader) (policies : List ValidatingAdmissionPolicy),
      host.NewClusterResourceLoader checkOpts.Kubeconfig = Except.ok resourceLoader →
      resourceLoader.LoadPolicies { Type_ := "local", Files := checkOpts.PolicyFiles }
        = Except.ok policies →
      args ≠ [] →
      ∃ status : kaptestv1.ValidatingAdmissionPolicyTestStatus,
        Event.report status ∈ (runClusterCheck host lib fmt rep simulator args checkOpts).2 ∧
        (runClusterCheck host lib fmt rep simulator args checkOpts).1 = rep.Report status) :=
  ⟨fun status hmem hfailed => runCommand_failed host lib fmt runOpts args status hmem hfailed,
    fun resourceLoader policies hloader hpolicies =>
      runLocalCheck_of_loaded host lib fmt rep simulator args checkOpts resourceLoader policies
        hloader hpolicies,
    fun resourceLoader policies hloader hpolicies hargs =>
      runClusterCheck_of_loaded host lib fmt rep simulator args checkOpts resourceLoader
        policies hloader hpolicies hargs⟩

/-- Witness of C35, amended: the run command on a test file whose only test case expects
the denied Deployment to be allowed. -/
theorem commands_errors_witness :
    (runCommand scenarioHost scenarioLibrary scenarioPrinter { } ["test.yaml"]).1 ≠ none :=
  (commands_errors scenarioHost scenarioLibrary scenarioPrinter scenarioReporter
      scenarioSimulator { } { } ["test.yaml"]).1
    { Results := (scenarioCheckStatus "deployment" "").Results.map
        (fun result => { result with Metadata := [] }),
      Summary := { Total := 1, Successful := 0, Failed := 1 } }
    (by decide) (by decide)

end commands

end KubeVap
